import Mathlib

/-!
# Verification of the Hamming(31,26) encoder

Shallow embedding of `src/hamming_encoder_luisa_becker.py`.

Python strings are modelled as `List Char`; the codeword under construction
(`codeword = ['0'] * 31`, a Python list of one-character strings that the
parity loop overwrites via `str(parity)`) is modelled as `List (List Char)`.
Fallible operations (`int(...)` on a non-numeric string, the explicit
`ValueError` on a wrong-length chunk) are modelled with `Except`; a raised
exception aborts the surrounding loop, so the loops of the source are
rendered as recursions over the list of remaining loop indices.
-/

/-- Parity bit positions (1-indexed): `parity_positions = [1, 2, 4, 8, 16]`
(line 59 of the source). -/
def parity_positions : List Nat := [1, 2, 4, 8, 16]

/-- Python `int(s)` as the encoder uses it: a non-empty string of ASCII
decimal digits parses to its value, anything else raises `ValueError`
(modelled as `none`).  The encoder only ever applies it to one-character
cell strings. -/
def pyInt (s : List Char) : Option Nat :=
  if s ≠ [] ∧ s.all (fun c => c.isDigit) then
    some (s.foldl (fun acc c => 10 * acc + (c.toNat - 48)) 0)
  else none

/-- Python `str(n)` for a natural number: its decimal digit characters. -/
def natStr (n : Nat) : List Char := Nat.toDigits 10 n

/-- The two ways `encode_hamming_31_26` can raise: the explicit
`ValueError` for a chunk whose length is not 26 (line 56), and the
`ValueError` that `int(...)` raises on a non-numeric cell (line 77). -/
inductive EncodeError where
  | invalidLength : Nat → EncodeError
  | invalidInt : List Char → EncodeError
deriving DecidableEq, Repr

/-- Body of the data-placement loop (lines 64-68): at a non-parity
position, store the next data bit and advance `data_index`; the state is
the pair (codeword cells, `data_index`). -/
def fillStep (chunk : List Char) (st : List (List Char) × Nat) (pos : Nat) :
    List (List Char) × Nat :=
  if pos ∈ parity_positions then st
  else (st.1.set (pos - 1) [chunk.getD st.2 ' '], st.2 + 1)

/-- Lines 60-68: `codeword = ['0'] * 31` followed by the data-placement
loop over positions 1..31 (`range(1, 32)`). -/
def fillData (chunk : List Char) : List (List Char) × Nat :=
  (List.range' 1 31).foldl (fillStep chunk) (List.replicate 31 ['0'], 0)

/-- The inner parity loop (lines 72-77), over the list of remaining
positions: if `pos & p != 0`, XOR `int(codeword[pos-1])` into the
accumulator; a non-numeric cell raises and aborts the loop. -/
def parityLoop (codeword : List (List Char)) (p : Nat) :
    Nat → List Nat → Except EncodeError Nat
  | parity, [] => pure parity
  | parity, pos :: rest =>
      if pos &&& p ≠ 0 then
        match pyInt (codeword.getD (pos - 1) []) with
        | some v => parityLoop codeword p (parity ^^^ v) rest
        | none => throw (EncodeError.invalidInt (codeword.getD (pos - 1) []))
      else parityLoop codeword p parity rest

/-- Lines 72-77: the `parity` accumulator for parity position `p`,
starting at 0 and running over positions 1..31 (`range(1, 32)`). -/
def parityAt (codeword : List (List Char)) (p : Nat) : Except EncodeError Nat :=
  parityLoop codeword p 0 (List.range' 1 31)

/-- The outer parity loop (lines 71-79), over the list of remaining parity
positions: compute the parity for `p` and overwrite cell `p - 1` with
`str(parity)`. -/
def encodeLoop : List (List Char) → List Nat → Except EncodeError (List (List Char))
  | cw, [] => pure cw
  | cw, p :: rest => do
      let parity ← parityAt cw p
      encodeLoop (cw.set (p - 1) (natStr parity)) rest

/-- Lines 41-80: `encode_hamming_31_26`.  Checks the chunk length (line
55), places the data bits, runs the parity loop over `parity_positions`
in order, and joins the cells (`''.join(codeword)`). -/
def encode_hamming_31_26 (chunk : List Char) : Except EncodeError (List Char) :=
  if chunk.length ≠ 26 then
    throw (EncodeError.invalidLength chunk.length)
  else do
    let cw ← encodeLoop (fillData chunk).1 parity_positions
    pure cw.flatten

/-- Lines 30-38: `chunk_bits` with the default `chunk_size = 26` (the only
size the program uses).  The Python loop `for i in range(0, len(bits), 26)`
takes the slice `bits[i:i+26]` and right-pads a short final slice with
`'0'`; expressed by recursion on the remaining suffix. -/
def chunk_bits : List Char → List (List Char)
  | [] => []
  | b :: bs =>
      let chunk := (b :: bs).take 26
      let chunk :=
        if chunk.length < 26 then chunk ++ List.replicate (26 - chunk.length) '0' else chunk
      chunk :: chunk_bits ((b :: bs).drop 26)
termination_by l => l.length
decreasing_by simp [List.length_drop]; omega

/-- Lines 86-87: the filtering of the `--bits` argument,
`''.join(c for c in args.bits if c in '01')`. -/
def filter01 (s : List Char) : List Char := s.filter (fun c => c = '0' || c = '1')

/-- Lines 88-89: `main` accepts the (filtered) bit string iff it is
non-empty; an empty one raises `SystemExit` before `chunk_bits` runs. -/
def main_bits_ok (s : List Char) : Bool := !(filter01 s).isEmpty

/-- Lines 100-102: the padding count reported by `main`:
`26 - (len(bits) % 26)` when the length is not a multiple of 26, else 0. -/
def main_padding (L : Nat) : Nat := if L % 26 ≠ 0 then 26 - L % 26 else 0

/-- Bit value of a codeword character ('1' ↦ 1, anything else ↦ 0). -/
def bitv (c : Char) : Nat := if c = '1' then 1 else 0

/-- Generic XOR-fold over a list of positions: XOR `f pos` into the
accumulator at every position with `pos &&& p ≠ 0`. -/
def gXorFold (f : Nat → Nat) (p : Nat) (acc : Nat) (L : List Nat) : Nat :=
  L.foldl (fun a pos => if pos &&& p ≠ 0 then a ^^^ f pos else a) acc

/-- The pure value the parity loop computes when every cell it reads is
numeric: XOR of `int(codeword[pos-1])` over the group of `p`. -/
def parityVal (codeword : List (List Char)) (p : Nat) : Nat :=
  gXorFold (fun pos => (pyInt (codeword.getD (pos - 1) [])).getD 0) p 0 (List.range' 1 31)

/-- XOR of the codeword bits over the parity group of `p`: all positions
`pos` in 1..31 with `pos &&& p ≠ 0`, position `p` itself included. -/
def groupXor (cw : List Char) (p : Nat) : Nat :=
  (List.range' 1 31).foldl
    (fun acc pos => if pos &&& p ≠ 0 then acc ^^^ bitv (cw.getD (pos - 1) '0') else acc) 0

/-- The data bits of a codeword: its characters at the 26 non-parity
positions, in ascending position order. -/
def extractData (cw : List Char) : List Char :=
  (List.range' 1 31).filterMap
    (fun pos => if pos ∈ parity_positions then none else some (cw.getD (pos - 1) '0'))

/-! ## Basic helper lemmas -/

theorem list_len_succ {α : Type} (l : List α) (n : Nat) (h : l.length = n + 1) :
    ∃ a t, l = a :: t ∧ t.length = n := by
  cases l with
  | nil => simp at h
  | cons a t => exact ⟨a, t, rfl, by simpa using h⟩

theorem pyInt_bit {c : Char} (h : c = '0' ∨ c = '1') : pyInt [c] = some (bitv c) := by
  rcases h with rfl | rfl <;> decide

theorem pyInt_zero : pyInt ['0'] = some 0 := by decide

theorem pyInt_digit {c : Char} (h : c.isDigit = true) : pyInt [c] = some (c.toNat - 48) := by
  simp [pyInt, h]

theorem bitv_pyInt {c : Char} (h : c = '0' ∨ c = '1') : (pyInt [c]).getD 0 = bitv c := by
  rw [pyInt_bit h]; rfl

theorem bitv_le_one (c : Char) : bitv c ≤ 1 := by
  unfold bitv; split <;> simp

theorem xor_le_one {a b : Nat} (ha : a ≤ 1) (hb : b ≤ 1) : a ^^^ b ≤ 1 := by
  interval_cases a <;> interval_cases b <;> decide

theorem natStr_le_one {p : Nat} (hp : p ≤ 1) : natStr p = [if p = 1 then '1' else '0'] := by
  rcases Nat.le_one_iff_eq_zero_or_eq_one.mp hp with rfl | rfl <;> decide

theorem bitv_ite {p : Nat} (hp : p ≤ 1) : bitv (if p = 1 then '1' else '0') = p := by
  rcases Nat.le_one_iff_eq_zero_or_eq_one.mp hp with rfl | rfl <;> decide

theorem xor_cancel_left (a b : Nat) : a ^^^ (a ^^^ b) = b := by
  rw [← Nat.xor_assoc, Nat.xor_self, Nat.zero_xor]

theorem xor_left_comm (a b c : Nat) : a ^^^ (b ^^^ c) = b ^^^ (a ^^^ c) := by
  rw [← Nat.xor_assoc, Nat.xor_comm a b, Nat.xor_assoc]

theorem except_bind_ok {e a b : Type} (x : a) (f : a → Except e b) :
    ((Except.ok x : Except e a) >>= f) = f x := rfl

theorem except_pure_eq {e a : Type} (x : a) : (pure x : Except e a) = Except.ok x := rfl

theorem ite_bin (p : Prop) [Decidable p] :
    (if p then '1' else '0') = '0' ∨ (if p then '1' else '0') = '1' := by
  split <;> simp

theorem exists_digit {p : Nat} (hp : p ≤ 1) :
    ∃ d, natStr p = [d] ∧ bitv d = p ∧ (d = '0' ∨ d = '1') :=
  ⟨_, natStr_le_one hp, bitv_ite hp, ite_bin _⟩

/-! ## Generic lemmas about the parity loop -/

theorem encodeLoop_cons (cw : List (List Char)) (p : Nat) (rest : List Nat) :
    encodeLoop cw (p :: rest) =
      parityAt cw p >>= fun parity => encodeLoop (cw.set (p - 1) (natStr parity)) rest := rfl

/-- When every cell the group of `p` reads parses as a number, the parity
loop succeeds and returns the pure XOR-fold of those values. -/
theorem parityLoop_ok (cw : List (List Char)) (p : Nat) :
    ∀ (L : List Nat) (parity : Nat),
      (∀ pos ∈ L, pos &&& p ≠ 0 → ∃ v, pyInt (cw.getD (pos - 1) []) = some v) →
      parityLoop cw p parity L =
        Except.ok (gXorFold (fun pos => (pyInt (cw.getD (pos - 1) [])).getD 0) p parity L) := by
  intro L
  induction L with
  | nil => intro parity _; rfl
  | cons pos rest ih =>
      intro parity h
      by_cases hq : pos &&& p ≠ 0
      · obtain ⟨v, hv⟩ := h pos (List.mem_cons_self pos rest) hq
        have hrest : ∀ q ∈ rest, q &&& p ≠ 0 → ∃ v, pyInt (cw.getD (q - 1) []) = some v :=
          fun q hql => h q (List.mem_cons_of_mem pos hql)
        rw [show parityLoop cw p parity (pos :: rest) =
              (if pos &&& p ≠ 0 then
                match pyInt (cw.getD (pos - 1) []) with
                | some v => parityLoop cw p (parity ^^^ v) rest
                | none => throw (EncodeError.invalidInt (cw.getD (pos - 1) []))
              else parityLoop cw p parity rest) from rfl,
            if_pos hq, hv]
        rw [show gXorFold (fun pos => (pyInt (cw.getD (pos - 1) [])).getD 0) p parity
              (pos :: rest) =
            gXorFold (fun pos => (pyInt (cw.getD (pos - 1) [])).getD 0) p
              (if pos &&& p ≠ 0 then parity ^^^ (pyInt (cw.getD (pos - 1) [])).getD 0
               else parity) rest from rfl,
            if_pos hq, hv]
        exact ih (parity ^^^ v) hrest
      · have hrest : ∀ q ∈ rest, q &&& p ≠ 0 → ∃ v, pyInt (cw.getD (q - 1) []) = some v :=
          fun q hql => h q (List.mem_cons_of_mem pos hql)
        rw [show parityLoop cw p parity (pos :: rest) =
              (if pos &&& p ≠ 0 then
                match pyInt (cw.getD (pos - 1) []) with
                | some v => parityLoop cw p (parity ^^^ v) rest
                | none => throw (EncodeError.invalidInt (cw.getD (pos - 1) []))
              else parityLoop cw p parity rest) from rfl,
            if_neg hq]
        rw [show gXorFold (fun pos => (pyInt (cw.getD (pos - 1) [])).getD 0) p parity
              (pos :: rest) =
            gXorFold (fun pos => (pyInt (cw.getD (pos - 1) [])).getD 0) p
              (if pos &&& p ≠ 0 then parity ^^^ (pyInt (cw.getD (pos - 1) [])).getD 0
               else parity) rest from rfl,
            if_neg hq]
        exact ih parity hrest

/-- `parityAt` on numeric cells returns `parityVal`. -/
theorem parityAt_ok (cw : List (List Char)) (p : Nat)
    (h : ∀ pos ∈ List.range' 1 31, pos &&& p ≠ 0 →
      ∃ v, pyInt (cw.getD (pos - 1) []) = some v) :
    parityAt cw p = Except.ok (parityVal cw p) :=
  parityLoop_ok cw p (List.range' 1 31) 0 h

/-- Cells that are all one binary character give the numeric-cells
hypothesis of `parityAt_ok` at every parity mask. -/
theorem cells_numeric {cw : List (List Char)} {p : Nat} (hlen : cw.length = 31)
    (hok : ∀ cell ∈ cw, ∃ c, cell = [c] ∧ (c = '0' ∨ c = '1')) :
    ∀ pos ∈ List.range' 1 31, pos &&& p ≠ 0 →
      ∃ v, pyInt (cw.getD (pos - 1) []) = some v := by
  intro pos hpos _
  have hb : pos - 1 < cw.length := by
    rw [hlen]
    have := List.mem_range'.mp hpos
    omega
  have hmem : cw.getD (pos - 1) [] ∈ cw := by
    rw [List.getD_eq_getElem?_getD, List.getElem?_eq_getElem hb]
    exact List.getElem_mem _
  obtain ⟨c, hc, hbin⟩ := hok _ hmem
  exact ⟨bitv c, by rw [hc]; exact pyInt_bit hbin⟩

/-- The value of any cell of an all-binary cell list is at most 1 (out of
range cells read as the default 0). -/
theorem cell_val_le_one {cw : List (List Char)}
    (hok : ∀ cell ∈ cw, ∃ c, cell = [c] ∧ (c = '0' ∨ c = '1')) (i : Nat) :
    (pyInt (cw.getD i [])).getD 0 ≤ 1 := by
  by_cases hb : i < cw.length
  · have hmem : cw.getD i [] ∈ cw := by
      rw [List.getD_eq_getElem?_getD, List.getElem?_eq_getElem hb]
      exact List.getElem_mem _
    obtain ⟨c, hc, hbin⟩ := hok _ hmem
    rw [hc, bitv_pyInt hbin]
    exact bitv_le_one c
  · rw [List.getD_eq_default _ _ (by omega)]
    decide

theorem gXorFold_le_one {f : Nat → Nat} {p : Nat} (hf : ∀ pos, f pos ≤ 1) :
    ∀ (L : List Nat) (acc : Nat), acc ≤ 1 → gXorFold f p acc L ≤ 1 := by
  intro L
  induction L with
  | nil => intro acc h; exact h
  | cons pos rest ih =>
      intro acc h
      rw [show gXorFold f p acc (pos :: rest) =
            gXorFold f p (if pos &&& p ≠ 0 then acc ^^^ f pos else acc) rest from rfl]
      by_cases hq : pos &&& p ≠ 0
      · rw [if_pos hq]; exact ih _ (xor_le_one h (hf pos))
      · rw [if_neg hq]; exact ih _ h

/-- On all-binary cells every parity value is a bit. -/
theorem parityVal_le_one {cw : List (List Char)} (p : Nat)
    (hok : ∀ cell ∈ cw, ∃ c, cell = [c] ∧ (c = '0' ∨ c = '1')) :
    parityVal cw p ≤ 1 :=
  gXorFold_le_one (fun pos => cell_val_le_one hok (pos - 1)) (List.range' 1 31) 0 (by decide)

/-- Binary singleton cells are preserved by overwriting a cell with a
binary singleton. -/
theorem cells_ok_set {cw : List (List Char)} {d : Char} (i : Nat)
    (hok : ∀ cell ∈ cw, ∃ c, cell = [c] ∧ (c = '0' ∨ c = '1'))
    (hd : d = '0' ∨ d = '1') :
    ∀ cell ∈ cw.set i [d], ∃ c, cell = [c] ∧ (c = '0' ∨ c = '1') := by
  intro cell hc
  rcases List.mem_or_eq_of_mem_set hc with h | rfl
  · exact hok cell h
  · exact ⟨d, rfl, hd⟩

/-! ## XOR-fold algebra for the parity invariant -/

theorem gXorFold_acc (f : Nat → Nat) (p : Nat) :
    ∀ (L : List Nat) (acc : Nat), gXorFold f p acc L = acc ^^^ gXorFold f p 0 L := by
  intro L
  induction L with
  | nil => intro acc; exact (Nat.xor_zero acc).symm
  | cons pos rest ih =>
      intro acc
      rw [show gXorFold f p acc (pos :: rest) =
            gXorFold f p (if pos &&& p ≠ 0 then acc ^^^ f pos else acc) rest from rfl]
      rw [show gXorFold f p 0 (pos :: rest) =
            gXorFold f p (if pos &&& p ≠ 0 then 0 ^^^ f pos else 0) rest from rfl]
      by_cases hq : pos &&& p ≠ 0
      · rw [if_pos hq, if_pos hq, ih (acc ^^^ f pos), ih (0 ^^^ f pos), Nat.zero_xor,
          Nat.xor_assoc]
      · rw [if_neg hq, if_neg hq, ih acc]

theorem gXorFold_congr {f g : Nat → Nat} {p : Nat} :
    ∀ (L : List Nat) (acc : Nat),
      (∀ pos ∈ L, pos &&& p ≠ 0 → f pos = g pos) →
      gXorFold f p acc L = gXorFold g p acc L := by
  intro L
  induction L with
  | nil => intro acc _; rfl
  | cons pos rest ih =>
      intro acc h
      have hrest : ∀ q ∈ rest, q &&& p ≠ 0 → f q = g q :=
        fun q hql => h q (List.mem_cons_of_mem pos hql)
      rw [show gXorFold f p acc (pos :: rest) =
            gXorFold f p (if pos &&& p ≠ 0 then acc ^^^ f pos else acc) rest from rfl]
      rw [show gXorFold g p acc (pos :: rest) =
            gXorFold g p (if pos &&& p ≠ 0 then acc ^^^ g pos else acc) rest from rfl]
      by_cases hq : pos &&& p ≠ 0
      · rw [if_pos hq, if_pos hq, h pos (List.mem_cons_self pos rest) hq, ih _ hrest]
      · rw [if_neg hq, if_neg hq, ih _ hrest]

/-- If `f` and `g` agree on the group of `p` except that `f p = X` while
`g p = 0`, and `p` occurs exactly once, the `f`-fold differs from the
`g`-fold by XOR with `X`. -/
theorem gXorFold_diff {f g : Nat → Nat} {p X : Nat} (hpp : p &&& p ≠ 0)
    (hfp : f p = X) (hgp : g p = 0) :
    ∀ (L : List Nat) (acc : Nat), L.Nodup → p ∈ L →
      (∀ pos ∈ L, pos &&& p ≠ 0 → pos ≠ p → f pos = g pos) →
      gXorFold f p acc L = X ^^^ gXorFold g p acc L := by
  intro L
  induction L with
  | nil => intro acc _ hmem _; exact absurd hmem (List.not_mem_nil p)
  | cons pos rest ih =>
      intro acc hnd hmem hsame
      rw [show gXorFold f p acc (pos :: rest) =
            gXorFold f p (if pos &&& p ≠ 0 then acc ^^^ f pos else acc) rest from rfl]
      rw [show gXorFold g p acc (pos :: rest) =
            gXorFold g p (if pos &&& p ≠ 0 then acc ^^^ g pos else acc) rest from rfl]
      rcases List.mem_cons.mp hmem with rfl | hmem'
      · have hnotrest : p ∉ rest := (List.nodup_cons.mp hnd).1
        have hagree : ∀ q ∈ rest, q &&& p ≠ 0 → f q = g q := by
          intro q hql hqq
          exact hsame q (List.mem_cons_of_mem _ hql) hqq
            (fun he => hnotrest (he ▸ hql))
        rw [if_pos hpp, if_pos hpp, hfp, hgp, Nat.xor_zero,
          gXorFold_congr rest (acc ^^^ X) hagree, gXorFold_acc _ _ rest (acc ^^^ X),
          gXorFold_acc _ _ rest acc, ← Nat.xor_assoc, Nat.xor_comm acc X, Nat.xor_assoc]
      · have hrest : ∀ q ∈ rest, q &&& p ≠ 0 → q ≠ p → f q = g q :=
          fun q hql => hsame q (List.mem_cons_of_mem pos hql)
        have hne : pos ≠ p := by
          rintro rfl
          exact (List.nodup_cons.mp hnd).1 hmem'
        by_cases hq : pos &&& p ≠ 0
        · rw [if_pos hq, if_pos hq, hsame pos (List.mem_cons_self pos rest) hq hne,
            ih _ (List.nodup_cons.mp hnd).2 hmem' hrest]
        · rw [if_neg hq, if_neg hq, ih _ (List.nodup_cons.mp hnd).2 hmem' hrest]

/-- The even-parity invariant, generically: if the codeword characters
carry the same bit values as the cells the parity loop read, except that
position `p` now carries the computed parity (where the loop read `'0'`),
the XOR over the group of `p` vanishes. -/
theorem groupXor_cancel (cw : List Char) (cells : List (List Char)) (p : Nat)
    (hp : p ∈ List.range' 1 31) (hpp : p &&& p ≠ 0)
    (hdp : bitv (cw.getD (p - 1) '0') = parityVal cells p)
    (h0 : (pyInt (cells.getD (p - 1) [])).getD 0 = 0)
    (hsame : ∀ pos ∈ List.range' 1 31, pos &&& p ≠ 0 → pos ≠ p →
      bitv (cw.getD (pos - 1) '0') = (pyInt (cells.getD (pos - 1) [])).getD 0) :
    groupXor cw p = 0 := by
  have hnd : (List.range' 1 31).Nodup := by decide
  have key : groupXor cw p = parityVal cells p ^^^ parityVal cells p := by
    rw [show groupXor cw p =
          gXorFold (fun pos => bitv (cw.getD (pos - 1) '0')) p 0 (List.range' 1 31) from rfl]
    exact gXorFold_diff hpp hdp h0 (List.range' 1 31) 0 hnd hp hsame
  rw [key, Nat.xor_self]
/-- The data-placement loop places `c0..c25` at the non-parity positions in
ascending order, leaving `'0'` cells at the parity positions, and ends with
`data_index = 26`. -/
theorem fill_eval (c0 c1 c2 c3 c4 c5 c6 c7 c8 c9 c10 c11 c12 c13 c14 c15 c16 c17 c18 c19 c20 c21 c22 c23 c24 c25 : Char) :
    fillData [c0, c1, c2, c3, c4, c5, c6, c7, c8, c9, c10, c11, c12, c13, c14, c15, c16, c17, c18, c19, c20, c21, c22, c23, c24, c25] = ([['0'], ['0'], [c0], ['0'], [c1], [c2], [c3], ['0'], [c4], [c5], [c6], [c7], [c8], [c9], [c10], ['0'], [c11], [c12], [c13], [c14], [c15], [c16], [c17], [c18], [c19], [c20], [c21], [c22], [c23], [c24], [c25]], 26) := by
  have e31 : (List.range' 32 0).foldl (fillStep [c0, c1, c2, c3, c4, c5, c6, c7, c8, c9, c10, c11, c12, c13, c14, c15, c16, c17, c18, c19, c20, c21, c22, c23, c24, c25]) (([['0'], ['0'], [c0], ['0'], [c1], [c2], [c3], ['0'], [c4], [c5], [c6], [c7], [c8], [c9], [c10], ['0'], [c11], [c12], [c13], [c14], [c15], [c16], [c17], [c18], [c19], [c20], [c21], [c22], [c23], [c24], [c25]], 26) : List (List Char) × Nat) = ([['0'], ['0'], [c0], ['0'], [c1], [c2], [c3], ['0'], [c4], [c5], [c6], [c7], [c8], [c9], [c10], ['0'], [c11], [c12], [c13], [c14], [c15], [c16], [c17], [c18], [c19], [c20], [c21], [c22], [c23], [c24], [c25]], 26) := rfl
  have e30 : (List.range' 31 1).foldl (fillStep [c0, c1, c2, c3, c4, c5, c6, c7, c8, c9, c10, c11, c12, c13, c14, c15, c16, c17, c18, c19, c20, c21, c22, c23, c24, c25]) (([['0'], ['0'], [c0], ['0'], [c1], [c2], [c3], ['0'], [c4], [c5], [c6], [c7], [c8], [c9], [c10], ['0'], [c11], [c12], [c13], [c14], [c15], [c16], [c17], [c18], [c19], [c20], [c21], [c22], [c23], [c24], ['0']], 25) : List (List Char) × Nat) = ([['0'], ['0'], [c0], ['0'], [c1], [c2], [c3], ['0'], [c4], [c5], [c6], [c7], [c8], [c9], [c10], ['0'], [c11], [c12], [c13], [c14], [c15], [c16], [c17], [c18], [c19], [c20], [c21], [c22], [c23], [c24], [c25]], 26) := by
    rw [show List.range' 31 1 = 31 :: List.range' 32 0 from rfl, List.foldl_cons,
      show fillStep [c0, c1, c2, c3, c4, c5, c6, c7, c8, c9, c10, c11, c12, c13, c14, c15, c16, c17, c18, c19, c20, c21, c22, c23, c24, c25] ([['0'], ['0'], [c0], ['0'], [c1], [c2], [c3], ['0'], [c4], [c5], [c6], [c7], [c8], [c9], [c10], ['0'], [c11], [c12], [c13], [c14], [c15], [c16], [c17], [c18], [c19], [c20], [c21], [c22], [c23], [c24], ['0']], 25) 31 = (([['0'], ['0'], [c0], ['0'], [c1], [c2], [c3], ['0'], [c4], [c5], [c6], [c7], [c8], [c9], [c10], ['0'], [c11], [c12], [c13], [c14], [c15], [c16], [c17], [c18], [c19], [c20], [c21], [c22], [c23], [c24], [c25]], 26) : List (List Char) × Nat) from rfl]
    exact e31
  have e29 : (List.range' 30 2).foldl (fillStep [c0, c1, c2, c3, c4, c5, c6, c7, c8, c9, c10, c11, c12, c13, c14, c15, c16, c17, c18, c19, c20, c21, c22, c23, c24, c25]) (([['0'], ['0'], [c0], ['0'], [c1], [c2], [c3], ['0'], [c4], [c5], [c6], [c7], [c8], [c9], [c10], ['0'], [c11], [c12], [c13], [c14], [c15], [c16], [c17], [c18], [c19], [c20], [c21], [c22], [c23], ['0'], ['0']], 24) : List (List Char) × Nat) = ([['0'], ['0'], [c0], ['0'], [c1], [c2], [c3], ['0'], [c4], [c5], [c6], [c7], [c8], [c9], [c10], ['0'], [c11], [c12], [c13], [c14], [c15], [c16], [c17], [c18], [c19], [c20], [c21], [c22], [c23], [c24], [c25]], 26) := by
    rw [show List.range' 30 2 = 30 :: List.range' 31 1 from rfl, List.foldl_cons,
      show fillStep [c0, c1, c2, c3, c4, c5, c6, c7, c8, c9, c10, c11, c12, c13, c14, c15, c16, c17, c18, c19, c20, c21, c22, c23, c24, c25] ([['0'], ['0'], [c0], ['0'], [c1], [c2], [c3], ['0'], [c4], [c5], [c6], [c7], [c8], [c9], [c10], ['0'], [c11], [c12], [c13], [c14], [c15], [c16], [c17], [c18], [c19], [c20], [c21], [c22], [c23], ['0'], ['0']], 24) 30 = (([['0'], ['0'], [c0], ['0'], [c1], [c2], [c3], ['0'], [c4], [c5], [c6], [c7], [c8], [c9], [c10], ['0'], [c11], [c12], [c13], [c14], [c15], [c16], [c17], [c18], [c19], [c20], [c21], [c22], [c23], [c24], ['0']], 25) : List (List Char) × Nat) from rfl]
    exact e30
  have e28 : (List.range' 29 3).foldl (fillStep [c0, c1, c2, c3, c4, c5, c6, c7, c8, c9, c10, c11, c12, c13, c14, c15, c16, c17, c18, c19, c20, c21, c22, c23, c24, c25]) (([['0'], ['0'], [c0], ['0'], [c1], [c2], [c3], ['0'], [c4], [c5], [c6], [c7], [c8], [c9], [c10], ['0'], [c11], [c12], [c13], [c14], [c15], [c16], [c17], [c18], [c19], [c20], [c21], [c22], ['0'], ['0'], ['0']], 23) : List (List Char) × Nat) = ([['0'], ['0'], [c0], ['0'], [c1], [c2], [c3], ['0'], [c4], [c5], [c6], [c7], [c8], [c9], [c10], ['0'], [c11], [c12], [c13], [c14], [c15], [c16], [c17], [c18], [c19], [c20], [c21], [c22], [c23], [c24], [c25]], 26) := by
    rw [show List.range' 29 3 = 29 :: List.range' 30 2 from rfl, List.foldl_cons,
      show fillStep [c0, c1, c2, c3, c4, c5, c6, c7, c8, c9, c10, c11, c12, c13, c14, c15, c16, c17, c18, c19, c20, c21, c22, c23, c24, c25] ([['0'], ['0'], [c0], ['0'], [c1], [c2], [c3], ['0'], [c4], [c5], [c6], [c7], [c8], [c9], [c10], ['0'], [c11], [c12], [c13], [c14], [c15], [c16], [c17], [c18], [c19], [c20], [c21], [c22], ['0'], ['0'], ['0']], 23) 29 = (([['0'], ['0'], [c0], ['0'], [c1], [c2], [c3], ['0'], [c4], [c5], [c6], [c7], [c8], [c9], [c10], ['0'], [c11], [c12], [c13], [c14], [c15], [c16], [c17], [c18], [c19], [c20], [c21], [c22], [c23], ['0'], ['0']], 24) : List (List Char) × Nat) from rfl]
    exact e29
  have e27 : (List.range' 28 4).foldl (fillStep [c0, c1, c2, c3, c4, c5, c6, c7, c8, c9, c10, c11, c12, c13, c14, c15, c16, c17, c18, c19, c20, c21, c22, c23, c24, c25]) (([['0'], ['0'], [c0], ['0'], [c1], [c2], [c3], ['0'], [c4], [c5], [c6], [c7], [c8], [c9], [c10], ['0'], [c11], [c12], [c13], [c14], [c15], [c16], [c17], [c18], [c19], [c20], [c21], ['0'], ['0'], ['0'], ['0']], 22) : List (List Char) × Nat) = ([['0'], ['0'], [c0], ['0'], [c1], [c2], [c3], ['0'], [c4], [c5], [c6], [c7], [c8], [c9], [c10], ['0'], [c11], [c12], [c13], [c14], [c15], [c16], [c17], [c18], [c19], [c20], [c21], [c22], [c23], [c24], [c25]], 26) := by
    rw [show List.range' 28 4 = 28 :: List.range' 29 3 from rfl, List.foldl_cons,
      show fillStep [c0, c1, c2, c3, c4, c5, c6, c7, c8, c9, c10, c11, c12, c13, c14, c15, c16, c17, c18, c19, c20, c21, c22, c23, c24, c25] ([['0'], ['0'], [c0], ['0'], [c1], [c2], [c3], ['0'], [c4], [c5], [c6], [c7], [c8], [c9], [c10], ['0'], [c11], [c12], [c13], [c14], [c15], [c16], [c17], [c18], [c19], [c20], [c21], ['0'], ['0'], ['0'], ['0']], 22) 28 = (([['0'], ['0'], [c0], ['0'], [c1], [c2], [c3], ['0'], [c4], [c5], [c6], [c7], [c8], [c9], [c10], ['0'], [c11], [c12], [c13], [c14], [c15], [c16], [c17], [c18], [c19], [c20], [c21], [c22], ['0'], ['0'], ['0']], 23) : List (List Char) × Nat) from rfl]
    exact e28
  have e26 : (List.range' 27 5).foldl (fillStep [c0, c1, c2, c3, c4, c5, c6, c7, c8, c9, c10, c11, c12, c13, c14, c15, c16, c17, c18, c19, c20, c21, c22, c23, c24, c25]) (([['0'], ['0'], [c0], ['0'], [c1], [c2], [c3], ['0'], [c4], [c5], [c6], [c7], [c8], [c9], [c10], ['0'], [c11], [c12], [c13], [c14], [c15], [c16], [c17], [c18], [c19], [c20], ['0'], ['0'], ['0'], ['0'], ['0']], 21) : List (List Char) × Nat) = ([['0'], ['0'], [c0], ['0'], [c1], [c2], [c3], ['0'], [c4], [c5], [c6], [c7], [c8], [c9], [c10], ['0'], [c11], [c12], [c13], [c14], [c15], [c16], [c17], [c18], [c19], [c20], [c21], [c22], [c23], [c24], [c25]], 26) := by
    rw [show List.range' 27 5 = 27 :: List.range' 28 4 from rfl, List.foldl_cons,
      show fillStep [c0, c1, c2, c3, c4, c5, c6, c7, c8, c9, c10, c11, c12, c13, c14, c15, c16, c17, c18, c19, c20, c21, c22, c23, c24, c25] ([['0'], ['0'], [c0], ['0'], [c1], [c2], [c3], ['0'], [c4], [c5], [c6], [c7], [c8], [c9], [c10], ['0'], [c11], [c12], [c13], [c14], [c15], [c16], [c17], [c18], [c19], [c20], ['0'], ['0'], ['0'], ['0'], ['0']], 21) 27 = (([['0'], ['0'], [c0], ['0'], [c1], [c2], [c3], ['0'], [c4], [c5], [c6], [c7], [c8], [c9], [c10], ['0'], [c11], [c12], [c13], [c14], [c15], [c16], [c17], [c18], [c19], [c20], [c21], ['0'], ['0'], ['0'], ['0']], 22) : List (List Char) × Nat) from rfl]
    exact e27
  have e25 : (List.range' 26 6).foldl (fillStep [c0, c1, c2, c3, c4, c5, c6, c7, c8, c9, c10, c11, c12, c13, c14, c15, c16, c17, c18, c19, c20, c21, c22, c23, c24, c25]) (([['0'], ['0'], [c0], ['0'], [c1], [c2], [c3], ['0'], [c4], [c5], [c6], [c7], [c8], [c9], [c10], ['0'], [c11], [c12], [c13], [c14], [c15], [c16], [c17], [c18], [c19], ['0'], ['0'], ['0'], ['0'], ['0'], ['0']], 20) : List (List Char) × Nat) = ([['0'], ['0'], [c0], ['0'], [c1], [c2], [c3], ['0'], [c4], [c5], [c6], [c7], [c8], [c9], [c10], ['0'], [c11], [c12], [c13], [c14], [c15], [c16], [c17], [c18], [c19], [c20], [c21], [c22], [c23], [c24], [c25]], 26) := by
    rw [show List.range' 26 6 = 26 :: List.range' 27 5 from rfl, List.foldl_cons,
      show fillStep [c0, c1, c2, c3, c4, c5, c6, c7, c8, c9, c10, c11, c12, c13, c14, c15, c16, c17, c18, c19, c20, c21, c22, c23, c24, c25] ([['0'], ['0'], [c0], ['0'], [c1], [c2], [c3], ['0'], [c4], [c5], [c6], [c7], [c8], [c9], [c10], ['0'], [c11], [c12], [c13], [c14], [c15], [c16], [c17], [c18], [c19], ['0'], ['0'], ['0'], ['0'], ['0'], ['0']], 20) 26 = (([['0'], ['0'], [c0], ['0'], [c1], [c2], [c3], ['0'], [c4], [c5], [c6], [c7], [c8], [c9], [c10], ['0'], [c11], [c12], [c13], [c14], [c15], [c16], [c17], [c18], [c19], [c20], ['0'], ['0'], ['0'], ['0'], ['0']], 21) : List (List Char) × Nat) from rfl]
    exact e26
  have e24 : (List.range' 25 7).foldl (fillStep [c0, c1, c2, c3, c4, c5, c6, c7, c8, c9, c10, c11, c12, c13, c14, c15, c16, c17, c18, c19, c20, c21, c22, c23, c24, c25]) (([['0'], ['0'], [c0], ['0'], [c1], [c2], [c3], ['0'], [c4], [c5], [c6], [c7], [c8], [c9], [c10], ['0'], [c11], [c12], [c13], [c14], [c15], [c16], [c17], [c18], ['0'], ['0'], ['0'], ['0'], ['0'], ['0'], ['0']], 19) : List (List Char) × Nat) = ([['0'], ['0'], [c0], ['0'], [c1], [c2], [c3], ['0'], [c4], [c5], [c6], [c7], [c8], [c9], [c10], ['0'], [c11], [c12], [c13], [c14], [c15], [c16], [c17], [c18], [c19], [c20], [c21], [c22], [c23], [c24], [c25]], 26) := by
    rw [show List.range' 25 7 = 25 :: List.range' 26 6 from rfl, List.foldl_cons,
      show fillStep [c0, c1, c2, c3, c4, c5, c6, c7, c8, c9, c10, c11, c12, c13, c14, c15, c16, c17, c18, c19, c20, c21, c22, c23, c24, c25] ([['0'], ['0'], [c0], ['0'], [c1], [c2], [c3], ['0'], [c4], [c5], [c6], [c7], [c8], [c9], [c10], ['0'], [c11], [c12], [c13], [c14], [c15], [c16], [c17], [c18], ['0'], ['0'], ['0'], ['0'], ['0'], ['0'], ['0']], 19) 25 = (([['0'], ['0'], [c0], ['0'], [c1], [c2], [c3], ['0'], [c4], [c5], [c6], [c7], [c8], [c9], [c10], ['0'], [c11], [c12], [c13], [c14], [c15], [c16], [c17], [c18], [c19], ['0'], ['0'], ['0'], ['0'], ['0'], ['0']], 20) : List (List Char) × Nat) from rfl]
    exact e25
  have e23 : (List.range' 24 8).foldl (fillStep [c0, c1, c2, c3, c4, c5, c6, c7, c8, c9, c10, c11, c12, c13, c14, c15, c16, c17, c18, c19, c20, c21, c22, c23, c24, c25]) (([['0'], ['0'], [c0], ['0'], [c1], [c2], [c3], ['0'], [c4], [c5], [c6], [c7], [c8], [c9], [c10], ['0'], [c11], [c12], [c13], [c14], [c15], [c16], [c17], ['0'], ['0'], ['0'], ['0'], ['0'], ['0'], ['0'], ['0']], 18) : List (List Char) × Nat) = ([['0'], ['0'], [c0], ['0'], [c1], [c2], [c3], ['0'], [c4], [c5], [c6], [c7], [c8], [c9], [c10], ['0'], [c11], [c12], [c13], [c14], [c15], [c16], [c17], [c18], [c19], [c20], [c21], [c22], [c23], [c24], [c25]], 26) := by
    rw [show List.range' 24 8 = 24 :: List.range' 25 7 from rfl, List.foldl_cons,
      show fillStep [c0, c1, c2, c3, c4, c5, c6, c7, c8, c9, c10, c11, c12, c13, c14, c15, c16, c17, c18, c19, c20, c21, c22, c23, c24, c25] ([['0'], ['0'], [c0], ['0'], [c1], [c2], [c3], ['0'], [c4], [c5], [c6], [c7], [c8], [c9], [c10], ['0'], [c11], [c12], [c13], [c14], [c15], [c16], [c17], ['0'], ['0'], ['0'], ['0'], ['0'], ['0'], ['0'], ['0']], 18) 24 = (([['0'], ['0'], [c0], ['0'], [c1], [c2], [c3], ['0'], [c4], [c5], [c6], [c7], [c8], [c9], [c10], ['0'], [c11], [c12], [c13], [c14], [c15], [c16], [c17], [c18], ['0'], ['0'], ['0'], ['0'], ['0'], ['0'], ['0']], 19) : List (List Char) × Nat) from rfl]
    exact e24
  have e22 : (List.range' 23 9).foldl (fillStep [c0, c1, c2, c3, c4, c5, c6, c7, c8, c9, c10, c11, c12, c13, c14, c15, c16, c17, c18, c19, c20, c21, c22, c23, c24, c25]) (([['0'], ['0'], [c0], ['0'], [c1], [c2], [c3], ['0'], [c4], [c5], [c6], [c7], [c8], [c9], [c10], ['0'], [c11], [c12], [c13], [c14], [c15], [c16], ['0'], ['0'], ['0'], ['0'], ['0'], ['0'], ['0'], ['0'], ['0']], 17) : List (List Char) × Nat) = ([['0'], ['0'], [c0], ['0'], [c1], [c2], [c3], ['0'], [c4], [c5], [c6], [c7], [c8], [c9], [c10], ['0'], [c11], [c12], [c13], [c14], [c15], [c16], [c17], [c18], [c19], [c20], [c21], [c22], [c23], [c24], [c25]], 26) := by
    rw [show List.range' 23 9 = 23 :: List.range' 24 8 from rfl, List.foldl_cons,
      show fillStep [c0, c1, c2, c3, c4, c5, c6, c7, c8, c9, c10, c11, c12, c13, c14, c15, c16, c17, c18, c19, c20, c21, c22, c23, c24, c25] ([['0'], ['0'], [c0], ['0'], [c1], [c2], [c3], ['0'], [c4], [c5], [c6], [c7], [c8], [c9], [c10], ['0'], [c11], [c12], [c13], [c14], [c15], [c16], ['0'], ['0'], ['0'], ['0'], ['0'], ['0'], ['0'], ['0'], ['0']], 17) 23 = (([['0'], ['0'], [c0], ['0'], [c1], [c2], [c3], ['0'], [c4], [c5], [c6], [c7], [c8], [c9], [c10], ['0'], [c11], [c12], [c13], [c14], [c15], [c16], [c17], ['0'], ['0'], ['0'], ['0'], ['0'], ['0'], ['0'], ['0']], 18) : List (List Char) × Nat) from rfl]
    exact e23
  have e21 : (List.range' 22 10).foldl (fillStep [c0, c1, c2, c3, c4, c5, c6, c7, c8, c9, c10, c11, c12, c13, c14, c15, c16, c17, c18, c19, c20, c21, c22, c23, c24, c25]) (([['0'], ['0'], [c0], ['0'], [c1], [c2], [c3], ['0'], [c4], [c5], [c6], [c7], [c8], [c9], [c10], ['0'], [c11], [c12], [c13], [c14], [c15], ['0'], ['0'], ['0'], ['0'], ['0'], ['0'], ['0'], ['0'], ['0'], ['0']], 16) : List (List Char) × Nat) = ([['0'], ['0'], [c0], ['0'], [c1], [c2], [c3], ['0'], [c4], [c5], [c6], [c7], [c8], [c9], [c10], ['0'], [c11], [c12], [c13], [c14], [c15], [c16], [c17], [c18], [c19], [c20], [c21], [c22], [c23], [c24], [c25]], 26) := by
    rw [show List.range' 22 10 = 22 :: List.range' 23 9 from rfl, List.foldl_cons,
      show fillStep [c0, c1, c2, c3, c4, c5, c6, c7, c8, c9, c10, c11, c12, c13, c14, c15, c16, c17, c18, c19, c20, c21, c22, c23, c24, c25] ([['0'], ['0'], [c0], ['0'], [c1], [c2], [c3], ['0'], [c4], [c5], [c6], [c7], [c8], [c9], [c10], ['0'], [c11], [c12], [c13], [c14], [c15], ['0'], ['0'], ['0'], ['0'], ['0'], ['0'], ['0'], ['0'], ['0'], ['0']], 16) 22 = (([['0'], ['0'], [c0], ['0'], [c1], [c2], [c3], ['0'], [c4], [c5], [c6], [c7], [c8], [c9], [c10], ['0'], [c11], [c12], [c13], [c14], [c15], [c16], ['0'], ['0'], ['0'], ['0'], ['0'], ['0'], ['0'], ['0'], ['0']], 17) : List (List Char) × Nat) from rfl]
    exact e22
  have e20 : (List.range' 21 11).foldl (fillStep [c0, c1, c2, c3, c4, c5, c6, c7, c8, c9, c10, c11, c12, c13, c14, c15, c16, c17, c18, c19, c20, c21, c22, c23, c24, c25]) (([['0'], ['0'], [c0], ['0'], [c1], [c2], [c3], ['0'], [c4], [c5], [c6], [c7], [c8], [c9], [c10], ['0'], [c11], [c12], [c13], [c14], ['0'], ['0'], ['0'], ['0'], ['0'], ['0'], ['0'], ['0'], ['0'], ['0'], ['0']], 15) : List (List Char) × Nat) = ([['0'], ['0'], [c0], ['0'], [c1], [c2], [c3], ['0'], [c4], [c5], [c6], [c7], [c8], [c9], [c10], ['0'], [c11], [c12], [c13], [c14], [c15], [c16], [c17], [c18], [c19], [c20], [c21], [c22], [c23], [c24], [c25]], 26) := by
    rw [show List.range' 21 11 = 21 :: List.range' 22 10 from rfl, List.foldl_cons,
      show fillStep [c0, c1, c2, c3, c4, c5, c6, c7, c8, c9, c10, c11, c12, c13, c14, c15, c16, c17, c18, c19, c20, c21, c22, c23, c24, c25] ([['0'], ['0'], [c0], ['0'], [c1], [c2], [c3], ['0'], [c4], [c5], [c6], [c7], [c8], [c9], [c10], ['0'], [c11], [c12], [c13], [c14], ['0'], ['0'], ['0'], ['0'], ['0'], ['0'], ['0'], ['0'], ['0'], ['0'], ['0']], 15) 21 = (([['0'], ['0'], [c0], ['0'], [c1], [c2], [c3], ['0'], [c4], [c5], [c6], [c7], [c8], [c9], [c10], ['0'], [c11], [c12], [c13], [c14], [c15], ['0'], ['0'], ['0'], ['0'], ['0'], ['0'], ['0'], ['0'], ['0'], ['0']], 16) : List (List Char) × Nat) from rfl]
    exact e21
  have e19 : (List.range' 20 12).foldl (fillStep [c0, c1, c2, c3, c4, c5, c6, c7, c8, c9, c10, c11, c12, c13, c14, c15, c16, c17, c18, c19, c20, c21, c22, c23, c24, c25]) (([['0'], ['0'], [c0], ['0'], [c1], [c2], [c3], ['0'], [c4], [c5], [c6], [c7], [c8], [c9], [c10], ['0'], [c11], [c12], [c13], ['0'], ['0'], ['0'], ['0'], ['0'], ['0'], ['0'], ['0'], ['0'], ['0'], ['0'], ['0']], 14) : List (List Char) × Nat) = ([['0'], ['0'], [c0], ['0'], [c1], [c2], [c3], ['0'], [c4], [c5], [c6], [c7], [c8], [c9], [c10], ['0'], [c11], [c12], [c13], [c14], [c15], [c16], [c17], [c18], [c19], [c20], [c21], [c22], [c23], [c24], [c25]], 26) := by
    rw [show List.range' 20 12 = 20 :: List.range' 21 11 from rfl, List.foldl_cons,
      show fillStep [c0, c1, c2, c3, c4, c5, c6, c7, c8, c9, c10, c11, c12, c13, c14, c15, c16, c17, c18, c19, c20, c21, c22, c23, c24, c25] ([['0'], ['0'], [c0], ['0'], [c1], [c2], [c3], ['0'], [c4], [c5], [c6], [c7], [c8], [c9], [c10], ['0'], [c11], [c12], [c13], ['0'], ['0'], ['0'], ['0'], ['0'], ['0'], ['0'], ['0'], ['0'], ['0'], ['0'], ['0']], 14) 20 = (([['0'], ['0'], [c0], ['0'], [c1], [c2], [c3], ['0'], [c4], [c5], [c6], [c7], [c8], [c9], [c10], ['0'], [c11], [c12], [c13], [c14], ['0'], ['0'], ['0'], ['0'], ['0'], ['0'], ['0'], ['0'], ['0'], ['0'], ['0']], 15) : List (List Char) × Nat) from rfl]
    exact e20
  have e18 : (List.range' 19 13).foldl (fillStep [c0, c1, c2, c3, c4, c5, c6, c7, c8, c9, c10, c11, c12, c13, c14, c15, c16, c17, c18, c19, c20, c21, c22, c23, c24, c25]) (([['0'], ['0'], [c0], ['0'], [c1], [c2], [c3], ['0'], [c4], [c5], [c6], [c7], [c8], [c9], [c10], ['0'], [c11], [c12], ['0'], ['0'], ['0'], ['0'], ['0'], ['0'], ['0'], ['0'], ['0'], ['0'], ['0'], ['0'], ['0']], 13) : List (List Char) × Nat) = ([['0'], ['0'], [c0], ['0'], [c1], [c2], [c3], ['0'], [c4], [c5], [c6], [c7], [c8], [c9], [c10], ['0'], [c11], [c12], [c13], [c14], [c15], [c16], [c17], [c18], [c19], [c20], [c21], [c22], [c23], [c24], [c25]], 26) := by
    rw [show List.range' 19 13 = 19 :: List.range' 20 12 from rfl, List.foldl_cons,
      show fillStep [c0, c1, c2, c3, c4, c5, c6, c7, c8, c9, c10, c11, c12, c13, c14, c15, c16, c17, c18, c19, c20, c21, c22, c23, c24, c25] ([['0'], ['0'], [c0], ['0'], [c1], [c2], [c3], ['0'], [c4], [c5], [c6], [c7], [c8], [c9], [c10], ['0'], [c11], [c12], ['0'], ['0'], ['0'], ['0'], ['0'], ['0'], ['0'], ['0'], ['0'], ['0'], ['0'], ['0'], ['0']], 13) 19 = (([['0'], ['0'], [c0], ['0'], [c1], [c2], [c3], ['0'], [c4], [c5], [c6], [c7], [c8], [c9], [c10], ['0'], [c11], [c12], [c13], ['0'], ['0'], ['0'], ['0'], ['0'], ['0'], ['0'], ['0'], ['0'], ['0'], ['0'], ['0']], 14) : List (List Char) × Nat) from rfl]
    exact e19
  have e17 : (List.range' 18 14).foldl (fillStep [c0, c1, c2, c3, c4, c5, c6, c7, c8, c9, c10, c11, c12, c13, c14, c15, c16, c17, c18, c19, c20, c21, c22, c23, c24, c25]) (([['0'], ['0'], [c0], ['0'], [c1], [c2], [c3], ['0'], [c4], [c5], [c6], [c7], [c8], [c9], [c10], ['0'], [c11], ['0'], ['0'], ['0'], ['0'], ['0'], ['0'], ['0'], ['0'], ['0'], ['0'], ['0'], ['0'], ['0'], ['0']], 12) : List (List Char) × Nat) = ([['0'], ['0'], [c0], ['0'], [c1], [c2], [c3], ['0'], [c4], [c5], [c6], [c7], [c8], [c9], [c10], ['0'], [c11], [c12], [c13], [c14], [c15], [c16], [c17], [c18], [c19], [c20], [c21], [c22], [c23], [c24], [c25]], 26) := by
    rw [show List.range' 18 14 = 18 :: List.range' 19 13 from rfl, List.foldl_cons,
      show fillStep [c0, c1, c2, c3, c4, c5, c6, c7, c8, c9, c10, c11, c12, c13, c14, c15, c16, c17, c18, c19, c20, c21, c22, c23, c24, c25] ([['0'], ['0'], [c0], ['0'], [c1], [c2], [c3], ['0'], [c4], [c5], [c6], [c7], [c8], [c9], [c10], ['0'], [c11], ['0'], ['0'], ['0'], ['0'], ['0'], ['0'], ['0'], ['0'], ['0'], ['0'], ['0'], ['0'], ['0'], ['0']], 12) 18 = (([['0'], ['0'], [c0], ['0'], [c1], [c2], [c3], ['0'], [c4], [c5], [c6], [c7], [c8], [c9], [c10], ['0'], [c11], [c12], ['0'], ['0'], ['0'], ['0'], ['0'], ['0'], ['0'], ['0'], ['0'], ['0'], ['0'], ['0'], ['0']], 13) : List (List Char) × Nat) from rfl]
    exact e18
  have e16 : (List.range' 17 15).foldl (fillStep [c0, c1, c2, c3, c4, c5, c6, c7, c8, c9, c10, c11, c12, c13, c14, c15, c16, c17, c18, c19, c20, c21, c22, c23, c24, c25]) (([['0'], ['0'], [c0], ['0'], [c1], [c2], [c3], ['0'], [c4], [c5], [c6], [c7], [c8], [c9], [c10], ['0'], ['0'], ['0'], ['0'], ['0'], ['0'], ['0'], ['0'], ['0'], ['0'], ['0'], ['0'], ['0'], ['0'], ['0'], ['0']], 11) : List (List Char) × Nat) = ([['0'], ['0'], [c0], ['0'], [c1], [c2], [c3], ['0'], [c4], [c5], [c6], [c7], [c8], [c9], [c10], ['0'], [c11], [c12], [c13], [c14], [c15], [c16], [c17], [c18], [c19], [c20], [c21], [c22], [c23], [c24], [c25]], 26) := by
    rw [show List.range' 17 15 = 17 :: List.range' 18 14 from rfl, List.foldl_cons,
      show fillStep [c0, c1, c2, c3, c4, c5, c6, c7, c8, c9, c10, c11, c12, c13, c14, c15, c16, c17, c18, c19, c20, c21, c22, c23, c24, c25] ([['0'], ['0'], [c0], ['0'], [c1], [c2], [c3], ['0'], [c4], [c5], [c6], [c7], [c8], [c9], [c10], ['0'], ['0'], ['0'], ['0'], ['0'], ['0'], ['0'], ['0'], ['0'], ['0'], ['0'], ['0'], ['0'], ['0'], ['0'], ['0']], 11) 17 = (([['0'], ['0'], [c0], ['0'], [c1], [c2], [c3], ['0'], [c4], [c5], [c6], [c7], [c8], [c9], [c10], ['0'], [c11], ['0'], ['0'], ['0'], ['0'], ['0'], ['0'], ['0'], ['0'], ['0'], ['0'], ['0'], ['0'], ['0'], ['0']], 12) : List (List Char) × Nat) from rfl]
    exact e17
  have e15 : (List.range' 16 16).foldl (fillStep [c0, c1, c2, c3, c4, c5, c6, c7, c8, c9, c10, c11, c12, c13, c14, c15, c16, c17, c18, c19, c20, c21, c22, c23, c24, c25]) (([['0'], ['0'], [c0], ['0'], [c1], [c2], [c3], ['0'], [c4], [c5], [c6], [c7], [c8], [c9], [c10], ['0'], ['0'], ['0'], ['0'], ['0'], ['0'], ['0'], ['0'], ['0'], ['0'], ['0'], ['0'], ['0'], ['0'], ['0'], ['0']], 11) : List (List Char) × Nat) = ([['0'], ['0'], [c0], ['0'], [c1], [c2], [c3], ['0'], [c4], [c5], [c6], [c7], [c8], [c9], [c10], ['0'], [c11], [c12], [c13], [c14], [c15], [c16], [c17], [c18], [c19], [c20], [c21], [c22], [c23], [c24], [c25]], 26) := by
    rw [show List.range' 16 16 = 16 :: List.range' 17 15 from rfl, List.foldl_cons,
      show fillStep [c0, c1, c2, c3, c4, c5, c6, c7, c8, c9, c10, c11, c12, c13, c14, c15, c16, c17, c18, c19, c20, c21, c22, c23, c24, c25] ([['0'], ['0'], [c0], ['0'], [c1], [c2], [c3], ['0'], [c4], [c5], [c6], [c7], [c8], [c9], [c10], ['0'], ['0'], ['0'], ['0'], ['0'], ['0'], ['0'], ['0'], ['0'], ['0'], ['0'], ['0'], ['0'], ['0'], ['0'], ['0']], 11) 16 = (([['0'], ['0'], [c0], ['0'], [c1], [c2], [c3], ['0'], [c4], [c5], [c6], [c7], [c8], [c9], [c10], ['0'], ['0'], ['0'], ['0'], ['0'], ['0'], ['0'], ['0'], ['0'], ['0'], ['0'], ['0'], ['0'], ['0'], ['0'], ['0']], 11) : List (List Char) × Nat) from rfl]
    exact e16
  have e14 : (List.range' 15 17).foldl (fillStep [c0, c1, c2, c3, c4, c5, c6, c7, c8, c9, c10, c11, c12, c13, c14, c15, c16, c17, c18, c19, c20, c21, c22, c23, c24, c25]) (([['0'], ['0'], [c0], ['0'], [c1], [c2], [c3], ['0'], [c4], [c5], [c6], [c7], [c8], [c9], ['0'], ['0'], ['0'], ['0'], ['0'], ['0'], ['0'], ['0'], ['0'], ['0'], ['0'], ['0'], ['0'], ['0'], ['0'], ['0'], ['0']], 10) : List (List Char) × Nat) = ([['0'], ['0'], [c0], ['0'], [c1], [c2], [c3], ['0'], [c4], [c5], [c6], [c7], [c8], [c9], [c10], ['0'], [c11], [c12], [c13], [c14], [c15], [c16], [c17], [c18], [c19], [c20], [c21], [c22], [c23], [c24], [c25]], 26) := by
    rw [show List.range' 15 17 = 15 :: List.range' 16 16 from rfl, List.foldl_cons,
      show fillStep [c0, c1, c2, c3, c4, c5, c6, c7, c8, c9, c10, c11, c12, c13, c14, c15, c16, c17, c18, c19, c20, c21, c22, c23, c24, c25] ([['0'], ['0'], [c0], ['0'], [c1], [c2], [c3], ['0'], [c4], [c5], [c6], [c7], [c8], [c9], ['0'], ['0'], ['0'], ['0'], ['0'], ['0'], ['0'], ['0'], ['0'], ['0'], ['0'], ['0'], ['0'], ['0'], ['0'], ['0'], ['0']], 10) 15 = (([['0'], ['0'], [c0], ['0'], [c1], [c2], [c3], ['0'], [c4], [c5], [c6], [c7], [c8], [c9], [c10], ['0'], ['0'], ['0'], ['0'], ['0'], ['0'], ['0'], ['0'], ['0'], ['0'], ['0'], ['0'], ['0'], ['0'], ['0'], ['0']], 11) : List (List Char) × Nat) from rfl]
    exact e15
  have e13 : (List.range' 14 18).foldl (fillStep [c0, c1, c2, c3, c4, c5, c6, c7, c8, c9, c10, c11, c12, c13, c14, c15, c16, c17, c18, c19, c20, c21, c22, c23, c24, c25]) (([['0'], ['0'], [c0], ['0'], [c1], [c2], [c3], ['0'], [c4], [c5], [c6], [c7], [c8], ['0'], ['0'], ['0'], ['0'], ['0'], ['0'], ['0'], ['0'], ['0'], ['0'], ['0'], ['0'], ['0'], ['0'], ['0'], ['0'], ['0'], ['0']], 9) : List (List Char) × Nat) = ([['0'], ['0'], [c0], ['0'], [c1], [c2], [c3], ['0'], [c4], [c5], [c6], [c7], [c8], [c9], [c10], ['0'], [c11], [c12], [c13], [c14], [c15], [c16], [c17], [c18], [c19], [c20], [c21], [c22], [c23], [c24], [c25]], 26) := by
    rw [show List.range' 14 18 = 14 :: List.range' 15 17 from rfl, List.foldl_cons,
      show fillStep [c0, c1, c2, c3, c4, c5, c6, c7, c8, c9, c10, c11, c12, c13, c14, c15, c16, c17, c18, c19, c20, c21, c22, c23, c24, c25] ([['0'], ['0'], [c0], ['0'], [c1], [c2], [c3], ['0'], [c4], [c5], [c6], [c7], [c8], ['0'], ['0'], ['0'], ['0'], ['0'], ['0'], ['0'], ['0'], ['0'], ['0'], ['0'], ['0'], ['0'], ['0'], ['0'], ['0'], ['0'], ['0']], 9) 14 = (([['0'], ['0'], [c0], ['0'], [c1], [c2], [c3], ['0'], [c4], [c5], [c6], [c7], [c8], [c9], ['0'], ['0'], ['0'], ['0'], ['0'], ['0'], ['0'], ['0'], ['0'], ['0'], ['0'], ['0'], ['0'], ['0'], ['0'], ['0'], ['0']], 10) : List (List Char) × Nat) from rfl]
    exact e14
  have e12 : (List.range' 13 19).foldl (fillStep [c0, c1, c2, c3, c4, c5, c6, c7, c8, c9, c10, c11, c12, c13, c14, c15, c16, c17, c18, c19, c20, c21, c22, c23, c24, c25]) (([['0'], ['0'], [c0], ['0'], [c1], [c2], [c3], ['0'], [c4], [c5], [c6], [c7], ['0'], ['0'], ['0'], ['0'], ['0'], ['0'], ['0'], ['0'], ['0'], ['0'], ['0'], ['0'], ['0'], ['0'], ['0'], ['0'], ['0'], ['0'], ['0']], 8) : List (List Char) × Nat) = ([['0'], ['0'], [c0], ['0'], [c1], [c2], [c3], ['0'], [c4], [c5], [c6], [c7], [c8], [c9], [c10], ['0'], [c11], [c12], [c13], [c14], [c15], [c16], [c17], [c18], [c19], [c20], [c21], [c22], [c23], [c24], [c25]], 26) := by
    rw [show List.range' 13 19 = 13 :: List.range' 14 18 from rfl, List.foldl_cons,
      show fillStep [c0, c1, c2, c3, c4, c5, c6, c7, c8, c9, c10, c11, c12, c13, c14, c15, c16, c17, c18, c19, c20, c21, c22, c23, c24, c25] ([['0'], ['0'], [c0], ['0'], [c1], [c2], [c3], ['0'], [c4], [c5], [c6], [c7], ['0'], ['0'], ['0'], ['0'], ['0'], ['0'], ['0'], ['0'], ['0'], ['0'], ['0'], ['0'], ['0'], ['0'], ['0'], ['0'], ['0'], ['0'], ['0']], 8) 13 = (([['0'], ['0'], [c0], ['0'], [c1], [c2], [c3], ['0'], [c4], [c5], [c6], [c7], [c8], ['0'], ['0'], ['0'], ['0'], ['0'], ['0'], ['0'], ['0'], ['0'], ['0'], ['0'], ['0'], ['0'], ['0'], ['0'], ['0'], ['0'], ['0']], 9) : List (List Char) × Nat) from rfl]
    exact e13
  have e11 : (List.range' 12 20).foldl (fillStep [c0, c1, c2, c3, c4, c5, c6, c7, c8, c9, c10, c11, c12, c13, c14, c15, c16, c17, c18, c19, c20, c21, c22, c23, c24, c25]) (([['0'], ['0'], [c0], ['0'], [c1], [c2], [c3], ['0'], [c4], [c5], [c6], ['0'], ['0'], ['0'], ['0'], ['0'], ['0'], ['0'], ['0'], ['0'], ['0'], ['0'], ['0'], ['0'], ['0'], ['0'], ['0'], ['0'], ['0'], ['0'], ['0']], 7) : List (List Char) × Nat) = ([['0'], ['0'], [c0], ['0'], [c1], [c2], [c3], ['0'], [c4], [c5], [c6], [c7], [c8], [c9], [c10], ['0'], [c11], [c12], [c13], [c14], [c15], [c16], [c17], [c18], [c19], [c20], [c21], [c22], [c23], [c24], [c25]], 26) := by
    rw [show List.range' 12 20 = 12 :: List.range' 13 19 from rfl, List.foldl_cons,
      show fillStep [c0, c1, c2, c3, c4, c5, c6, c7, c8, c9, c10, c11, c12, c13, c14, c15, c16, c17, c18, c19, c20, c21, c22, c23, c24, c25] ([['0'], ['0'], [c0], ['0'], [c1], [c2], [c3], ['0'], [c4], [c5], [c6], ['0'], ['0'], ['0'], ['0'], ['0'], ['0'], ['0'], ['0'], ['0'], ['0'], ['0'], ['0'], ['0'], ['0'], ['0'], ['0'], ['0'], ['0'], ['0'], ['0']], 7) 12 = (([['0'], ['0'], [c0], ['0'], [c1], [c2], [c3], ['0'], [c4], [c5], [c6], [c7], ['0'], ['0'], ['0'], ['0'], ['0'], ['0'], ['0'], ['0'], ['0'], ['0'], ['0'], ['0'], ['0'], ['0'], ['0'], ['0'], ['0'], ['0'], ['0']], 8) : List (List Char) × Nat) from rfl]
    exact e12
  have e10 : (List.range' 11 21).foldl (fillStep [c0, c1, c2, c3, c4, c5, c6, c7, c8, c9, c10, c11, c12, c13, c14, c15, c16, c17, c18, c19, c20, c21, c22, c23, c24, c25]) (([['0'], ['0'], [c0], ['0'], [c1], [c2], [c3], ['0'], [c4], [c5], ['0'], ['0'], ['0'], ['0'], ['0'], ['0'], ['0'], ['0'], ['0'], ['0'], ['0'], ['0'], ['0'], ['0'], ['0'], ['0'], ['0'], ['0'], ['0'], ['0'], ['0']], 6) : List (List Char) × Nat) = ([['0'], ['0'], [c0], ['0'], [c1], [c2], [c3], ['0'], [c4], [c5], [c6], [c7], [c8], [c9], [c10], ['0'], [c11], [c12], [c13], [c14], [c15], [c16], [c17], [c18], [c19], [c20], [c21], [c22], [c23], [c24], [c25]], 26) := by
    rw [show List.range' 11 21 = 11 :: List.range' 12 20 from rfl, List.foldl_cons,
      show fillStep [c0, c1, c2, c3, c4, c5, c6, c7, c8, c9, c10, c11, c12, c13, c14, c15, c16, c17, c18, c19, c20, c21, c22, c23, c24, c25] ([['0'], ['0'], [c0], ['0'], [c1], [c2], [c3], ['0'], [c4], [c5], ['0'], ['0'], ['0'], ['0'], ['0'], ['0'], ['0'], ['0'], ['0'], ['0'], ['0'], ['0'], ['0'], ['0'], ['0'], ['0'], ['0'], ['0'], ['0'], ['0'], ['0']], 6) 11 = (([['0'], ['0'], [c0], ['0'], [c1], [c2], [c3], ['0'], [c4], [c5], [c6], ['0'], ['0'], ['0'], ['0'], ['0'], ['0'], ['0'], ['0'], ['0'], ['0'], ['0'], ['0'], ['0'], ['0'], ['0'], ['0'], ['0'], ['0'], ['0'], ['0']], 7) : List (List Char) × Nat) from rfl]
    exact e11
  have e9 : (List.range' 10 22).foldl (fillStep [c0, c1, c2, c3, c4, c5, c6, c7, c8, c9, c10, c11, c12, c13, c14, c15, c16, c17, c18, c19, c20, c21, c22, c23, c24, c25]) (([['0'], ['0'], [c0], ['0'], [c1], [c2], [c3], ['0'], [c4], ['0'], ['0'], ['0'], ['0'], ['0'], ['0'], ['0'], ['0'], ['0'], ['0'], ['0'], ['0'], ['0'], ['0'], ['0'], ['0'], ['0'], ['0'], ['0'], ['0'], ['0'], ['0']], 5) : List (List Char) × Nat) = ([['0'], ['0'], [c0], ['0'], [c1], [c2], [c3], ['0'], [c4], [c5], [c6], [c7], [c8], [c9], [c10], ['0'], [c11], [c12], [c13], [c14], [c15], [c16], [c17], [c18], [c19], [c20], [c21], [c22], [c23], [c24], [c25]], 26) := by
    rw [show List.range' 10 22 = 10 :: List.range' 11 21 from rfl, List.foldl_cons,
      show fillStep [c0, c1, c2, c3, c4, c5, c6, c7, c8, c9, c10, c11, c12, c13, c14, c15, c16, c17, c18, c19, c20, c21, c22, c23, c24, c25] ([['0'], ['0'], [c0], ['0'], [c1], [c2], [c3], ['0'], [c4], ['0'], ['0'], ['0'], ['0'], ['0'], ['0'], ['0'], ['0'], ['0'], ['0'], ['0'], ['0'], ['0'], ['0'], ['0'], ['0'], ['0'], ['0'], ['0'], ['0'], ['0'], ['0']], 5) 10 = (([['0'], ['0'], [c0], ['0'], [c1], [c2], [c3], ['0'], [c4], [c5], ['0'], ['0'], ['0'], ['0'], ['0'], ['0'], ['0'], ['0'], ['0'], ['0'], ['0'], ['0'], ['0'], ['0'], ['0'], ['0'], ['0'], ['0'], ['0'], ['0'], ['0']], 6) : List (List Char) × Nat) from rfl]
    exact e10
  have e8 : (List.range' 9 23).foldl (fillStep [c0, c1, c2, c3, c4, c5, c6, c7, c8, c9, c10, c11, c12, c13, c14, c15, c16, c17, c18, c19, c20, c21, c22, c23, c24, c25]) (([['0'], ['0'], [c0], ['0'], [c1], [c2], [c3], ['0'], ['0'], ['0'], ['0'], ['0'], ['0'], ['0'], ['0'], ['0'], ['0'], ['0'], ['0'], ['0'], ['0'], ['0'], ['0'], ['0'], ['0'], ['0'], ['0'], ['0'], ['0'], ['0'], ['0']], 4) : List (List Char) × Nat) = ([['0'], ['0'], [c0], ['0'], [c1], [c2], [c3], ['0'], [c4], [c5], [c6], [c7], [c8], [c9], [c10], ['0'], [c11], [c12], [c13], [c14], [c15], [c16], [c17], [c18], [c19], [c20], [c21], [c22], [c23], [c24], [c25]], 26) := by
    rw [show List.range' 9 23 = 9 :: List.range' 10 22 from rfl, List.foldl_cons,
      show fillStep [c0, c1, c2, c3, c4, c5, c6, c7, c8, c9, c10, c11, c12, c13, c14, c15, c16, c17, c18, c19, c20, c21, c22, c23, c24, c25] ([['0'], ['0'], [c0], ['0'], [c1], [c2], [c3], ['0'], ['0'], ['0'], ['0'], ['0'], ['0'], ['0'], ['0'], ['0'], ['0'], ['0'], ['0'], ['0'], ['0'], ['0'], ['0'], ['0'], ['0'], ['0'], ['0'], ['0'], ['0'], ['0'], ['0']], 4) 9 = (([['0'], ['0'], [c0], ['0'], [c1], [c2], [c3], ['0'], [c4], ['0'], ['0'], ['0'], ['0'], ['0'], ['0'], ['0'], ['0'], ['0'], ['0'], ['0'], ['0'], ['0'], ['0'], ['0'], ['0'], ['0'], ['0'], ['0'], ['0'], ['0'], ['0']], 5) : List (List Char) × Nat) from rfl]
    exact e9
  have e7 : (List.range' 8 24).foldl (fillStep [c0, c1, c2, c3, c4, c5, c6, c7, c8, c9, c10, c11, c12, c13, c14, c15, c16, c17, c18, c19, c20, c21, c22, c23, c24, c25]) (([['0'], ['0'], [c0], ['0'], [c1], [c2], [c3], ['0'], ['0'], ['0'], ['0'], ['0'], ['0'], ['0'], ['0'], ['0'], ['0'], ['0'], ['0'], ['0'], ['0'], ['0'], ['0'], ['0'], ['0'], ['0'], ['0'], ['0'], ['0'], ['0'], ['0']], 4) : List (List Char) × Nat) = ([['0'], ['0'], [c0], ['0'], [c1], [c2], [c3], ['0'], [c4], [c5], [c6], [c7], [c8], [c9], [c10], ['0'], [c11], [c12], [c13], [c14], [c15], [c16], [c17], [c18], [c19], [c20], [c21], [c22], [c23], [c24], [c25]], 26) := by
    rw [show List.range' 8 24 = 8 :: List.range' 9 23 from rfl, List.foldl_cons,
      show fillStep [c0, c1, c2, c3, c4, c5, c6, c7, c8, c9, c10, c11, c12, c13, c14, c15, c16, c17, c18, c19, c20, c21, c22, c23, c24, c25] ([['0'], ['0'], [c0], ['0'], [c1], [c2], [c3], ['0'], ['0'], ['0'], ['0'], ['0'], ['0'], ['0'], ['0'], ['0'], ['0'], ['0'], ['0'], ['0'], ['0'], ['0'], ['0'], ['0'], ['0'], ['0'], ['0'], ['0'], ['0'], ['0'], ['0']], 4) 8 = (([['0'], ['0'], [c0], ['0'], [c1], [c2], [c3], ['0'], ['0'], ['0'], ['0'], ['0'], ['0'], ['0'], ['0'], ['0'], ['0'], ['0'], ['0'], ['0'], ['0'], ['0'], ['0'], ['0'], ['0'], ['0'], ['0'], ['0'], ['0'], ['0'], ['0']], 4) : List (List Char) × Nat) from rfl]
    exact e8
  have e6 : (List.range' 7 25).foldl (fillStep [c0, c1, c2, c3, c4, c5, c6, c7, c8, c9, c10, c11, c12, c13, c14, c15, c16, c17, c18, c19, c20, c21, c22, c23, c24, c25]) (([['0'], ['0'], [c0], ['0'], [c1], [c2], ['0'], ['0'], ['0'], ['0'], ['0'], ['0'], ['0'], ['0'], ['0'], ['0'], ['0'], ['0'], ['0'], ['0'], ['0'], ['0'], ['0'], ['0'], ['0'], ['0'], ['0'], ['0'], ['0'], ['0'], ['0']], 3) : List (List Char) × Nat) = ([['0'], ['0'], [c0], ['0'], [c1], [c2], [c3], ['0'], [c4], [c5], [c6], [c7], [c8], [c9], [c10], ['0'], [c11], [c12], [c13], [c14], [c15], [c16], [c17], [c18], [c19], [c20], [c21], [c22], [c23], [c24], [c25]], 26) := by
    rw [show List.range' 7 25 = 7 :: List.range' 8 24 from rfl, List.foldl_cons,
      show fillStep [c0, c1, c2, c3, c4, c5, c6, c7, c8, c9, c10, c11, c12, c13, c14, c15, c16, c17, c18, c19, c20, c21, c22, c23, c24, c25] ([['0'], ['0'], [c0], ['0'], [c1], [c2], ['0'], ['0'], ['0'], ['0'], ['0'], ['0'], ['0'], ['0'], ['0'], ['0'], ['0'], ['0'], ['0'], ['0'], ['0'], ['0'], ['0'], ['0'], ['0'], ['0'], ['0'], ['0'], ['0'], ['0'], ['0']], 3) 7 = (([['0'], ['0'], [c0], ['0'], [c1], [c2], [c3], ['0'], ['0'], ['0'], ['0'], ['0'], ['0'], ['0'], ['0'], ['0'], ['0'], ['0'], ['0'], ['0'], ['0'], ['0'], ['0'], ['0'], ['0'], ['0'], ['0'], ['0'], ['0'], ['0'], ['0']], 4) : List (List Char) × Nat) from rfl]
    exact e7
  have e5 : (List.range' 6 26).foldl (fillStep [c0, c1, c2, c3, c4, c5, c6, c7, c8, c9, c10, c11, c12, c13, c14, c15, c16, c17, c18, c19, c20, c21, c22, c23, c24, c25]) (([['0'], ['0'], [c0], ['0'], [c1], ['0'], ['0'], ['0'], ['0'], ['0'], ['0'], ['0'], ['0'], ['0'], ['0'], ['0'], ['0'], ['0'], ['0'], ['0'], ['0'], ['0'], ['0'], ['0'], ['0'], ['0'], ['0'], ['0'], ['0'], ['0'], ['0']], 2) : List (List Char) × Nat) = ([['0'], ['0'], [c0], ['0'], [c1], [c2], [c3], ['0'], [c4], [c5], [c6], [c7], [c8], [c9], [c10], ['0'], [c11], [c12], [c13], [c14], [c15], [c16], [c17], [c18], [c19], [c20], [c21], [c22], [c23], [c24], [c25]], 26) := by
    rw [show List.range' 6 26 = 6 :: List.range' 7 25 from rfl, List.foldl_cons,
      show fillStep [c0, c1, c2, c3, c4, c5, c6, c7, c8, c9, c10, c11, c12, c13, c14, c15, c16, c17, c18, c19, c20, c21, c22, c23, c24, c25] ([['0'], ['0'], [c0], ['0'], [c1], ['0'], ['0'], ['0'], ['0'], ['0'], ['0'], ['0'], ['0'], ['0'], ['0'], ['0'], ['0'], ['0'], ['0'], ['0'], ['0'], ['0'], ['0'], ['0'], ['0'], ['0'], ['0'], ['0'], ['0'], ['0'], ['0']], 2) 6 = (([['0'], ['0'], [c0], ['0'], [c1], [c2], ['0'], ['0'], ['0'], ['0'], ['0'], ['0'], ['0'], ['0'], ['0'], ['0'], ['0'], ['0'], ['0'], ['0'], ['0'], ['0'], ['0'], ['0'], ['0'], ['0'], ['0'], ['0'], ['0'], ['0'], ['0']], 3) : List (List Char) × Nat) from rfl]
    exact e6
  have e4 : (List.range' 5 27).foldl (fillStep [c0, c1, c2, c3, c4, c5, c6, c7, c8, c9, c10, c11, c12, c13, c14, c15, c16, c17, c18, c19, c20, c21, c22, c23, c24, c25]) (([['0'], ['0'], [c0], ['0'], ['0'], ['0'], ['0'], ['0'], ['0'], ['0'], ['0'], ['0'], ['0'], ['0'], ['0'], ['0'], ['0'], ['0'], ['0'], ['0'], ['0'], ['0'], ['0'], ['0'], ['0'], ['0'], ['0'], ['0'], ['0'], ['0'], ['0']], 1) : List (List Char) × Nat) = ([['0'], ['0'], [c0], ['0'], [c1], [c2], [c3], ['0'], [c4], [c5], [c6], [c7], [c8], [c9], [c10], ['0'], [c11], [c12], [c13], [c14], [c15], [c16], [c17], [c18], [c19], [c20], [c21], [c22], [c23], [c24], [c25]], 26) := by
    rw [show List.range' 5 27 = 5 :: List.range' 6 26 from rfl, List.foldl_cons,
      show fillStep [c0, c1, c2, c3, c4, c5, c6, c7, c8, c9, c10, c11, c12, c13, c14, c15, c16, c17, c18, c19, c20, c21, c22, c23, c24, c25] ([['0'], ['0'], [c0], ['0'], ['0'], ['0'], ['0'], ['0'], ['0'], ['0'], ['0'], ['0'], ['0'], ['0'], ['0'], ['0'], ['0'], ['0'], ['0'], ['0'], ['0'], ['0'], ['0'], ['0'], ['0'], ['0'], ['0'], ['0'], ['0'], ['0'], ['0']], 1) 5 = (([['0'], ['0'], [c0], ['0'], [c1], ['0'], ['0'], ['0'], ['0'], ['0'], ['0'], ['0'], ['0'], ['0'], ['0'], ['0'], ['0'], ['0'], ['0'], ['0'], ['0'], ['0'], ['0'], ['0'], ['0'], ['0'], ['0'], ['0'], ['0'], ['0'], ['0']], 2) : List (List Char) × Nat) from rfl]
    exact e5
  have e3 : (List.range' 4 28).foldl (fillStep [c0, c1, c2, c3, c4, c5, c6, c7, c8, c9, c10, c11, c12, c13, c14, c15, c16, c17, c18, c19, c20, c21, c22, c23, c24, c25]) (([['0'], ['0'], [c0], ['0'], ['0'], ['0'], ['0'], ['0'], ['0'], ['0'], ['0'], ['0'], ['0'], ['0'], ['0'], ['0'], ['0'], ['0'], ['0'], ['0'], ['0'], ['0'], ['0'], ['0'], ['0'], ['0'], ['0'], ['0'], ['0'], ['0'], ['0']], 1) : List (List Char) × Nat) = ([['0'], ['0'], [c0], ['0'], [c1], [c2], [c3], ['0'], [c4], [c5], [c6], [c7], [c8], [c9], [c10], ['0'], [c11], [c12], [c13], [c14], [c15], [c16], [c17], [c18], [c19], [c20], [c21], [c22], [c23], [c24], [c25]], 26) := by
    rw [show List.range' 4 28 = 4 :: List.range' 5 27 from rfl, List.foldl_cons,
      show fillStep [c0, c1, c2, c3, c4, c5, c6, c7, c8, c9, c10, c11, c12, c13, c14, c15, c16, c17, c18, c19, c20, c21, c22, c23, c24, c25] ([['0'], ['0'], [c0], ['0'], ['0'], ['0'], ['0'], ['0'], ['0'], ['0'], ['0'], ['0'], ['0'], ['0'], ['0'], ['0'], ['0'], ['0'], ['0'], ['0'], ['0'], ['0'], ['0'], ['0'], ['0'], ['0'], ['0'], ['0'], ['0'], ['0'], ['0']], 1) 4 = (([['0'], ['0'], [c0], ['0'], ['0'], ['0'], ['0'], ['0'], ['0'], ['0'], ['0'], ['0'], ['0'], ['0'], ['0'], ['0'], ['0'], ['0'], ['0'], ['0'], ['0'], ['0'], ['0'], ['0'], ['0'], ['0'], ['0'], ['0'], ['0'], ['0'], ['0']], 1) : List (List Char) × Nat) from rfl]
    exact e4
  have e2 : (List.range' 3 29).foldl (fillStep [c0, c1, c2, c3, c4, c5, c6, c7, c8, c9, c10, c11, c12, c13, c14, c15, c16, c17, c18, c19, c20, c21, c22, c23, c24, c25]) (([['0'], ['0'], ['0'], ['0'], ['0'], ['0'], ['0'], ['0'], ['0'], ['0'], ['0'], ['0'], ['0'], ['0'], ['0'], ['0'], ['0'], ['0'], ['0'], ['0'], ['0'], ['0'], ['0'], ['0'], ['0'], ['0'], ['0'], ['0'], ['0'], ['0'], ['0']], 0) : List (List Char) × Nat) = ([['0'], ['0'], [c0], ['0'], [c1], [c2], [c3], ['0'], [c4], [c5], [c6], [c7], [c8], [c9], [c10], ['0'], [c11], [c12], [c13], [c14], [c15], [c16], [c17], [c18], [c19], [c20], [c21], [c22], [c23], [c24], [c25]], 26) := by
    rw [show List.range' 3 29 = 3 :: List.range' 4 28 from rfl, List.foldl_cons,
      show fillStep [c0, c1, c2, c3, c4, c5, c6, c7, c8, c9, c10, c11, c12, c13, c14, c15, c16, c17, c18, c19, c20, c21, c22, c23, c24, c25] ([['0'], ['0'], ['0'], ['0'], ['0'], ['0'], ['0'], ['0'], ['0'], ['0'], ['0'], ['0'], ['0'], ['0'], ['0'], ['0'], ['0'], ['0'], ['0'], ['0'], ['0'], ['0'], ['0'], ['0'], ['0'], ['0'], ['0'], ['0'], ['0'], ['0'], ['0']], 0) 3 = (([['0'], ['0'], [c0], ['0'], ['0'], ['0'], ['0'], ['0'], ['0'], ['0'], ['0'], ['0'], ['0'], ['0'], ['0'], ['0'], ['0'], ['0'], ['0'], ['0'], ['0'], ['0'], ['0'], ['0'], ['0'], ['0'], ['0'], ['0'], ['0'], ['0'], ['0']], 1) : List (List Char) × Nat) from rfl]
    exact e3
  have e1 : (List.range' 2 30).foldl (fillStep [c0, c1, c2, c3, c4, c5, c6, c7, c8, c9, c10, c11, c12, c13, c14, c15, c16, c17, c18, c19, c20, c21, c22, c23, c24, c25]) (([['0'], ['0'], ['0'], ['0'], ['0'], ['0'], ['0'], ['0'], ['0'], ['0'], ['0'], ['0'], ['0'], ['0'], ['0'], ['0'], ['0'], ['0'], ['0'], ['0'], ['0'], ['0'], ['0'], ['0'], ['0'], ['0'], ['0'], ['0'], ['0'], ['0'], ['0']], 0) : List (List Char) × Nat) = ([['0'], ['0'], [c0], ['0'], [c1], [c2], [c3], ['0'], [c4], [c5], [c6], [c7], [c8], [c9], [c10], ['0'], [c11], [c12], [c13], [c14], [c15], [c16], [c17], [c18], [c19], [c20], [c21], [c22], [c23], [c24], [c25]], 26) := by
    rw [show List.range' 2 30 = 2 :: List.range' 3 29 from rfl, List.foldl_cons,
      show fillStep [c0, c1, c2, c3, c4, c5, c6, c7, c8, c9, c10, c11, c12, c13, c14, c15, c16, c17, c18, c19, c20, c21, c22, c23, c24, c25] ([['0'], ['0'], ['0'], ['0'], ['0'], ['0'], ['0'], ['0'], ['0'], ['0'], ['0'], ['0'], ['0'], ['0'], ['0'], ['0'], ['0'], ['0'], ['0'], ['0'], ['0'], ['0'], ['0'], ['0'], ['0'], ['0'], ['0'], ['0'], ['0'], ['0'], ['0']], 0) 2 = (([['0'], ['0'], ['0'], ['0'], ['0'], ['0'], ['0'], ['0'], ['0'], ['0'], ['0'], ['0'], ['0'], ['0'], ['0'], ['0'], ['0'], ['0'], ['0'], ['0'], ['0'], ['0'], ['0'], ['0'], ['0'], ['0'], ['0'], ['0'], ['0'], ['0'], ['0']], 0) : List (List Char) × Nat) from rfl]
    exact e2
  have e0 : (List.range' 1 31).foldl (fillStep [c0, c1, c2, c3, c4, c5, c6, c7, c8, c9, c10, c11, c12, c13, c14, c15, c16, c17, c18, c19, c20, c21, c22, c23, c24, c25]) (([['0'], ['0'], ['0'], ['0'], ['0'], ['0'], ['0'], ['0'], ['0'], ['0'], ['0'], ['0'], ['0'], ['0'], ['0'], ['0'], ['0'], ['0'], ['0'], ['0'], ['0'], ['0'], ['0'], ['0'], ['0'], ['0'], ['0'], ['0'], ['0'], ['0'], ['0']], 0) : List (List Char) × Nat) = ([['0'], ['0'], [c0], ['0'], [c1], [c2], [c3], ['0'], [c4], [c5], [c6], [c7], [c8], [c9], [c10], ['0'], [c11], [c12], [c13], [c14], [c15], [c16], [c17], [c18], [c19], [c20], [c21], [c22], [c23], [c24], [c25]], 26) := by
    rw [show List.range' 1 31 = 1 :: List.range' 2 30 from rfl, List.foldl_cons,
      show fillStep [c0, c1, c2, c3, c4, c5, c6, c7, c8, c9, c10, c11, c12, c13, c14, c15, c16, c17, c18, c19, c20, c21, c22, c23, c24, c25] ([['0'], ['0'], ['0'], ['0'], ['0'], ['0'], ['0'], ['0'], ['0'], ['0'], ['0'], ['0'], ['0'], ['0'], ['0'], ['0'], ['0'], ['0'], ['0'], ['0'], ['0'], ['0'], ['0'], ['0'], ['0'], ['0'], ['0'], ['0'], ['0'], ['0'], ['0']], 0) 1 = (([['0'], ['0'], ['0'], ['0'], ['0'], ['0'], ['0'], ['0'], ['0'], ['0'], ['0'], ['0'], ['0'], ['0'], ['0'], ['0'], ['0'], ['0'], ['0'], ['0'], ['0'], ['0'], ['0'], ['0'], ['0'], ['0'], ['0'], ['0'], ['0'], ['0'], ['0']], 0) : List (List Char) × Nat) from rfl]
    exact e1
  exact e0

set_option maxHeartbeats 4000000 in
/-- Full characterisation of `encode_hamming_31_26` on a well-formed block:
it succeeds, the codeword has length 31, is made of '0'/'1' characters,
its non-parity positions reproduce the block (the first data bit at
position 3, the second at position 5), and every parity group has even
parity. -/
theorem encode_binary_eval (chunk : List Char) (hlen : chunk.length = 26)
    (hbin : ∀ c ∈ chunk, c = '0' ∨ c = '1') :
    ∃ cw, encode_hamming_31_26 chunk = Except.ok cw ∧
      cw.length = 31 ∧
      (∀ c ∈ cw, c = '0' ∨ c = '1') ∧
      extractData cw = chunk ∧
      cw.getD 2 ' ' = chunk.getD 0 ' ' ∧
      cw.getD 4 ' ' = chunk.getD 1 ' ' ∧
      (∀ p ∈ parity_positions, groupXor cw p = 0) := by
  obtain ⟨c0, chunk, rfl, hl1⟩ := list_len_succ chunk 25 hlen
  obtain ⟨c1, chunk, rfl, hl2⟩ := list_len_succ chunk 24 hl1
  obtain ⟨c2, chunk, rfl, hl3⟩ := list_len_succ chunk 23 hl2
  obtain ⟨c3, chunk, rfl, hl4⟩ := list_len_succ chunk 22 hl3
  obtain ⟨c4, chunk, rfl, hl5⟩ := list_len_succ chunk 21 hl4
  obtain ⟨c5, chunk, rfl, hl6⟩ := list_len_succ chunk 20 hl5
  obtain ⟨c6, chunk, rfl, hl7⟩ := list_len_succ chunk 19 hl6
  obtain ⟨c7, chunk, rfl, hl8⟩ := list_len_succ chunk 18 hl7
  obtain ⟨c8, chunk, rfl, hl9⟩ := list_len_succ chunk 17 hl8
  obtain ⟨c9, chunk, rfl, hl10⟩ := list_len_succ chunk 16 hl9
  obtain ⟨c10, chunk, rfl, hl11⟩ := list_len_succ chunk 15 hl10
  obtain ⟨c11, chunk, rfl, hl12⟩ := list_len_succ chunk 14 hl11
  obtain ⟨c12, chunk, rfl, hl13⟩ := list_len_succ chunk 13 hl12
  obtain ⟨c13, chunk, rfl, hl14⟩ := list_len_succ chunk 12 hl13
  obtain ⟨c14, chunk, rfl, hl15⟩ := list_len_succ chunk 11 hl14
  obtain ⟨c15, chunk, rfl, hl16⟩ := list_len_succ chunk 10 hl15
  obtain ⟨c16, chunk, rfl, hl17⟩ := list_len_succ chunk 9 hl16
  obtain ⟨c17, chunk, rfl, hl18⟩ := list_len_succ chunk 8 hl17
  obtain ⟨c18, chunk, rfl, hl19⟩ := list_len_succ chunk 7 hl18
  obtain ⟨c19, chunk, rfl, hl20⟩ := list_len_succ chunk 6 hl19
  obtain ⟨c20, chunk, rfl, hl21⟩ := list_len_succ chunk 5 hl20
  obtain ⟨c21, chunk, rfl, hl22⟩ := list_len_succ chunk 4 hl21
  obtain ⟨c22, chunk, rfl, hl23⟩ := list_len_succ chunk 3 hl22
  obtain ⟨c23, chunk, rfl, hl24⟩ := list_len_succ chunk 2 hl23
  obtain ⟨c24, chunk, rfl, hl25⟩ := list_len_succ chunk 1 hl24
  obtain ⟨c25, chunk, rfl, hl26⟩ := list_len_succ chunk 0 hl25
  obtain rfl := List.length_eq_zero.mp hl26
  have h0 := hbin c0 (by simp)
  have h1 := hbin c1 (by simp)
  have h2 := hbin c2 (by simp)
  have h3 := hbin c3 (by simp)
  have h4 := hbin c4 (by simp)
  have h5 := hbin c5 (by simp)
  have h6 := hbin c6 (by simp)
  have h7 := hbin c7 (by simp)
  have h8 := hbin c8 (by simp)
  have h9 := hbin c9 (by simp)
  have h10 := hbin c10 (by simp)
  have h11 := hbin c11 (by simp)
  have h12 := hbin c12 (by simp)
  have h13 := hbin c13 (by simp)
  have h14 := hbin c14 (by simp)
  have h15 := hbin c15 (by simp)
  have h16 := hbin c16 (by simp)
  have h17 := hbin c17 (by simp)
  have h18 := hbin c18 (by simp)
  have h19 := hbin c19 (by simp)
  have h20 := hbin c20 (by simp)
  have h21 := hbin c21 (by simp)
  have h22 := hbin c22 (by simp)
  have h23 := hbin c23 (by simp)
  have h24 := hbin c24 (by simp)
  have h25 := hbin c25 (by simp)
  have hf : (fillData [c0, c1, c2, c3, c4, c5, c6, c7, c8, c9, c10, c11, c12, c13, c14, c15, c16, c17, c18, c19, c20, c21, c22, c23, c24, c25]).1 = [['0'], ['0'], [c0], ['0'], [c1], [c2], [c3], ['0'], [c4], [c5], [c6], [c7], [c8], [c9], [c10], ['0'], [c11], [c12], [c13], [c14], [c15], [c16], [c17], [c18], [c19], [c20], [c21], [c22], [c23], [c24], [c25]] :=
    congrArg Prod.fst (fill_eval c0 c1 c2 c3 c4 c5 c6 c7 c8 c9 c10 c11 c12 c13 c14 c15 c16 c17 c18 c19 c20 c21 c22 c23 c24 c25)
  have hok0 : ∀ cell ∈ [['0'], ['0'], [c0], ['0'], [c1], [c2], [c3], ['0'], [c4], [c5], [c6], [c7], [c8], [c9], [c10], ['0'], [c11], [c12], [c13], [c14], [c15], [c16], [c17], [c18], [c19], [c20], [c21], [c22], [c23], [c24], [c25]], ∃ c, cell = [c] ∧ (c = '0' ∨ c = '1') := by
    intro cell hc
    fin_cases hc
    · exact ⟨'0', rfl, Or.inl rfl⟩
    · exact ⟨'0', rfl, Or.inl rfl⟩
    · exact ⟨c0, rfl, h0⟩
    · exact ⟨'0', rfl, Or.inl rfl⟩
    · exact ⟨c1, rfl, h1⟩
    · exact ⟨c2, rfl, h2⟩
    · exact ⟨c3, rfl, h3⟩
    · exact ⟨'0', rfl, Or.inl rfl⟩
    · exact ⟨c4, rfl, h4⟩
    · exact ⟨c5, rfl, h5⟩
    · exact ⟨c6, rfl, h6⟩
    · exact ⟨c7, rfl, h7⟩
    · exact ⟨c8, rfl, h8⟩
    · exact ⟨c9, rfl, h9⟩
    · exact ⟨c10, rfl, h10⟩
    · exact ⟨'0', rfl, Or.inl rfl⟩
    · exact ⟨c11, rfl, h11⟩
    · exact ⟨c12, rfl, h12⟩
    · exact ⟨c13, rfl, h13⟩
    · exact ⟨c14, rfl, h14⟩
    · exact ⟨c15, rfl, h15⟩
    · exact ⟨c16, rfl, h16⟩
    · exact ⟨c17, rfl, h17⟩
    · exact ⟨c18, rfl, h18⟩
    · exact ⟨c19, rfl, h19⟩
    · exact ⟨c20, rfl, h20⟩
    · exact ⟨c21, rfl, h21⟩
    · exact ⟨c22, rfl, h22⟩
    · exact ⟨c23, rfl, h23⟩
    · exact ⟨c24, rfl, h24⟩
    · exact ⟨c25, rfl, h25⟩
  have q1 : parityAt ([['0'], ['0'], [c0], ['0'], [c1], [c2], [c3], ['0'], [c4], [c5], [c6], [c7], [c8], [c9], [c10], ['0'], [c11], [c12], [c13], [c14], [c15], [c16], [c17], [c18], [c19], [c20], [c21], [c22], [c23], [c24], [c25]]) 1 = Except.ok (parityVal ([['0'], ['0'], [c0], ['0'], [c1], [c2], [c3], ['0'], [c4], [c5], [c6], [c7], [c8], [c9], [c10], ['0'], [c11], [c12], [c13], [c14], [c15], [c16], [c17], [c18], [c19], [c20], [c21], [c22], [c23], [c24], [c25]]) 1) :=
    parityAt_ok _ _ (cells_numeric rfl hok0)
  have hq1 : parityVal ([['0'], ['0'], [c0], ['0'], [c1], [c2], [c3], ['0'], [c4], [c5], [c6], [c7], [c8], [c9], [c10], ['0'], [c11], [c12], [c13], [c14], [c15], [c16], [c17], [c18], [c19], [c20], [c21], [c22], [c23], [c24], [c25]]) 1 ≤ 1 := parityVal_le_one 1 hok0
  obtain ⟨d1, hd1a, hd1b, hd1c⟩ := exists_digit hq1
  have hok1 := cells_ok_set 0 hok0 hd1c
  have q2 : parityAt ([['0'], ['0'], [c0], ['0'], [c1], [c2], [c3], ['0'], [c4], [c5], [c6], [c7], [c8], [c9], [c10], ['0'], [c11], [c12], [c13], [c14], [c15], [c16], [c17], [c18], [c19], [c20], [c21], [c22], [c23], [c24], [c25]].set 0 [d1]) 2 = Except.ok (parityVal ([['0'], ['0'], [c0], ['0'], [c1], [c2], [c3], ['0'], [c4], [c5], [c6], [c7], [c8], [c9], [c10], ['0'], [c11], [c12], [c13], [c14], [c15], [c16], [c17], [c18], [c19], [c20], [c21], [c22], [c23], [c24], [c25]].set 0 [d1]) 2) :=
    parityAt_ok _ _ (cells_numeric rfl hok1)
  have hq2 : parityVal ([['0'], ['0'], [c0], ['0'], [c1], [c2], [c3], ['0'], [c4], [c5], [c6], [c7], [c8], [c9], [c10], ['0'], [c11], [c12], [c13], [c14], [c15], [c16], [c17], [c18], [c19], [c20], [c21], [c22], [c23], [c24], [c25]].set 0 [d1]) 2 ≤ 1 := parityVal_le_one 2 hok1
  obtain ⟨d2, hd2a, hd2b, hd2c⟩ := exists_digit hq2
  have hok2 := cells_ok_set 1 hok1 hd2c
  have q4 : parityAt (([['0'], ['0'], [c0], ['0'], [c1], [c2], [c3], ['0'], [c4], [c5], [c6], [c7], [c8], [c9], [c10], ['0'], [c11], [c12], [c13], [c14], [c15], [c16], [c17], [c18], [c19], [c20], [c21], [c22], [c23], [c24], [c25]].set 0 [d1]).set 1 [d2]) 4 = Except.ok (parityVal (([['0'], ['0'], [c0], ['0'], [c1], [c2], [c3], ['0'], [c4], [c5], [c6], [c7], [c8], [c9], [c10], ['0'], [c11], [c12], [c13], [c14], [c15], [c16], [c17], [c18], [c19], [c20], [c21], [c22], [c23], [c24], [c25]].set 0 [d1]).set 1 [d2]) 4) :=
    parityAt_ok _ _ (cells_numeric rfl hok2)
  have hq4 : parityVal (([['0'], ['0'], [c0], ['0'], [c1], [c2], [c3], ['0'], [c4], [c5], [c6], [c7], [c8], [c9], [c10], ['0'], [c11], [c12], [c13], [c14], [c15], [c16], [c17], [c18], [c19], [c20], [c21], [c22], [c23], [c24], [c25]].set 0 [d1]).set 1 [d2]) 4 ≤ 1 := parityVal_le_one 4 hok2
  obtain ⟨d4, hd4a, hd4b, hd4c⟩ := exists_digit hq4
  have hok3 := cells_ok_set 3 hok2 hd4c
  have q8 : parityAt ((([['0'], ['0'], [c0], ['0'], [c1], [c2], [c3], ['0'], [c4], [c5], [c6], [c7], [c8], [c9], [c10], ['0'], [c11], [c12], [c13], [c14], [c15], [c16], [c17], [c18], [c19], [c20], [c21], [c22], [c23], [c24], [c25]].set 0 [d1]).set 1 [d2]).set 3 [d4]) 8 = Except.ok (parityVal ((([['0'], ['0'], [c0], ['0'], [c1], [c2], [c3], ['0'], [c4], [c5], [c6], [c7], [c8], [c9], [c10], ['0'], [c11], [c12], [c13], [c14], [c15], [c16], [c17], [c18], [c19], [c20], [c21], [c22], [c23], [c24], [c25]].set 0 [d1]).set 1 [d2]).set 3 [d4]) 8) :=
    parityAt_ok _ _ (cells_numeric rfl hok3)
  have hq8 : parityVal ((([['0'], ['0'], [c0], ['0'], [c1], [c2], [c3], ['0'], [c4], [c5], [c6], [c7], [c8], [c9], [c10], ['0'], [c11], [c12], [c13], [c14], [c15], [c16], [c17], [c18], [c19], [c20], [c21], [c22], [c23], [c24], [c25]].set 0 [d1]).set 1 [d2]).set 3 [d4]) 8 ≤ 1 := parityVal_le_one 8 hok3
  obtain ⟨d8, hd8a, hd8b, hd8c⟩ := exists_digit hq8
  have hok4 := cells_ok_set 7 hok3 hd8c
  have q16 : parityAt (((([['0'], ['0'], [c0], ['0'], [c1], [c2], [c3], ['0'], [c4], [c5], [c6], [c7], [c8], [c9], [c10], ['0'], [c11], [c12], [c13], [c14], [c15], [c16], [c17], [c18], [c19], [c20], [c21], [c22], [c23], [c24], [c25]].set 0 [d1]).set 1 [d2]).set 3 [d4]).set 7 [d8]) 16 = Except.ok (parityVal (((([['0'], ['0'], [c0], ['0'], [c1], [c2], [c3], ['0'], [c4], [c5], [c6], [c7], [c8], [c9], [c10], ['0'], [c11], [c12], [c13], [c14], [c15], [c16], [c17], [c18], [c19], [c20], [c21], [c22], [c23], [c24], [c25]].set 0 [d1]).set 1 [d2]).set 3 [d4]).set 7 [d8]) 16) :=
    parityAt_ok _ _ (cells_numeric rfl hok4)
  have hq16 : parityVal (((([['0'], ['0'], [c0], ['0'], [c1], [c2], [c3], ['0'], [c4], [c5], [c6], [c7], [c8], [c9], [c10], ['0'], [c11], [c12], [c13], [c14], [c15], [c16], [c17], [c18], [c19], [c20], [c21], [c22], [c23], [c24], [c25]].set 0 [d1]).set 1 [d2]).set 3 [d4]).set 7 [d8]) 16 ≤ 1 := parityVal_le_one 16 hok4
  obtain ⟨d16, hd16a, hd16b, hd16c⟩ := exists_digit hq16
  have hok5 := cells_ok_set 15 hok4 hd16c
  refine ⟨[d1, d2, c0, d4, c1, c2, c3, d8, c4, c5, c6, c7, c8, c9, c10, d16, c11, c12, c13, c14, c15, c16, c17, c18, c19, c20, c21, c22, c23, c24, c25], ?_, rfl, ?_, rfl, rfl, rfl, ?_⟩
  · rw [show encode_hamming_31_26 [c0, c1, c2, c3, c4, c5, c6, c7, c8, c9, c10, c11, c12, c13, c14, c15, c16, c17, c18, c19, c20, c21, c22, c23, c24, c25] =
        (encodeLoop (fillData [c0, c1, c2, c3, c4, c5, c6, c7, c8, c9, c10, c11, c12, c13, c14, c15, c16, c17, c18, c19, c20, c21, c22, c23, c24, c25]).1 parity_positions >>= fun cw => pure cw.flatten)
        from rfl, hf,
      show parity_positions = 1 :: [2, 4, 8, 16] from rfl]
    rw [encodeLoop_cons, q1, except_bind_ok]
    rw [hd1a, show ([['0'], ['0'], [c0], ['0'], [c1], [c2], [c3], ['0'], [c4], [c5], [c6], [c7], [c8], [c9], [c10], ['0'], [c11], [c12], [c13], [c14], [c15], [c16], [c17], [c18], [c19], [c20], [c21], [c22], [c23], [c24], [c25]]).set (1 - 1) [d1] = [['0'], ['0'], [c0], ['0'], [c1], [c2], [c3], ['0'], [c4], [c5], [c6], [c7], [c8], [c9], [c10], ['0'], [c11], [c12], [c13], [c14], [c15], [c16], [c17], [c18], [c19], [c20], [c21], [c22], [c23], [c24], [c25]].set 0 [d1] from rfl]
    rw [show ([2, 4, 8, 16] : List Nat) = 2 :: [4, 8, 16] from rfl]
    rw [encodeLoop_cons, q2, except_bind_ok]
    rw [hd2a, show ([['0'], ['0'], [c0], ['0'], [c1], [c2], [c3], ['0'], [c4], [c5], [c6], [c7], [c8], [c9], [c10], ['0'], [c11], [c12], [c13], [c14], [c15], [c16], [c17], [c18], [c19], [c20], [c21], [c22], [c23], [c24], [c25]].set 0 [d1]).set (2 - 1) [d2] = ([['0'], ['0'], [c0], ['0'], [c1], [c2], [c3], ['0'], [c4], [c5], [c6], [c7], [c8], [c9], [c10], ['0'], [c11], [c12], [c13], [c14], [c15], [c16], [c17], [c18], [c19], [c20], [c21], [c22], [c23], [c24], [c25]].set 0 [d1]).set 1 [d2] from rfl]
    rw [show ([4, 8, 16] : List Nat) = 4 :: [8, 16] from rfl]
    rw [encodeLoop_cons, q4, except_bind_ok]
    rw [hd4a, show (([['0'], ['0'], [c0], ['0'], [c1], [c2], [c3], ['0'], [c4], [c5], [c6], [c7], [c8], [c9], [c10], ['0'], [c11], [c12], [c13], [c14], [c15], [c16], [c17], [c18], [c19], [c20], [c21], [c22], [c23], [c24], [c25]].set 0 [d1]).set 1 [d2]).set (4 - 1) [d4] = (([['0'], ['0'], [c0], ['0'], [c1], [c2], [c3], ['0'], [c4], [c5], [c6], [c7], [c8], [c9], [c10], ['0'], [c11], [c12], [c13], [c14], [c15], [c16], [c17], [c18], [c19], [c20], [c21], [c22], [c23], [c24], [c25]].set 0 [d1]).set 1 [d2]).set 3 [d4] from rfl]
    rw [show ([8, 16] : List Nat) = 8 :: [16] from rfl]
    rw [encodeLoop_cons, q8, except_bind_ok]
    rw [hd8a, show ((([['0'], ['0'], [c0], ['0'], [c1], [c2], [c3], ['0'], [c4], [c5], [c6], [c7], [c8], [c9], [c10], ['0'], [c11], [c12], [c13], [c14], [c15], [c16], [c17], [c18], [c19], [c20], [c21], [c22], [c23], [c24], [c25]].set 0 [d1]).set 1 [d2]).set 3 [d4]).set (8 - 1) [d8] = ((([['0'], ['0'], [c0], ['0'], [c1], [c2], [c3], ['0'], [c4], [c5], [c6], [c7], [c8], [c9], [c10], ['0'], [c11], [c12], [c13], [c14], [c15], [c16], [c17], [c18], [c19], [c20], [c21], [c22], [c23], [c24], [c25]].set 0 [d1]).set 1 [d2]).set 3 [d4]).set 7 [d8] from rfl]
    rw [show ([16] : List Nat) = 16 :: [] from rfl]
    rw [encodeLoop_cons, q16, except_bind_ok]
    rw [hd16a, show (((([['0'], ['0'], [c0], ['0'], [c1], [c2], [c3], ['0'], [c4], [c5], [c6], [c7], [c8], [c9], [c10], ['0'], [c11], [c12], [c13], [c14], [c15], [c16], [c17], [c18], [c19], [c20], [c21], [c22], [c23], [c24], [c25]].set 0 [d1]).set 1 [d2]).set 3 [d4]).set 7 [d8]).set (16 - 1) [d16] = (((([['0'], ['0'], [c0], ['0'], [c1], [c2], [c3], ['0'], [c4], [c5], [c6], [c7], [c8], [c9], [c10], ['0'], [c11], [c12], [c13], [c14], [c15], [c16], [c17], [c18], [c19], [c20], [c21], [c22], [c23], [c24], [c25]].set 0 [d1]).set 1 [d2]).set 3 [d4]).set 7 [d8]).set 15 [d16] from rfl]
    rfl
  · intro c hc
    fin_cases hc
    · exact hd1c
    · exact hd2c
    · exact h0
    · exact hd4c
    · exact h1
    · exact h2
    · exact h3
    · exact hd8c
    · exact h4
    · exact h5
    · exact h6
    · exact h7
    · exact h8
    · exact h9
    · exact h10
    · exact hd16c
    · exact h11
    · exact h12
    · exact h13
    · exact h14
    · exact h15
    · exact h16
    · exact h17
    · exact h18
    · exact h19
    · exact h20
    · exact h21
    · exact h22
    · exact h23
    · exact h24
    · exact h25
  · intro p hp
    rw [show parity_positions = [1, 2, 4, 8, 16] from rfl] at hp
    fin_cases hp
    · refine groupXor_cancel [d1, d2, c0, d4, c1, c2, c3, d8, c4, c5, c6, c7, c8, c9, c10, d16, c11, c12, c13, c14, c15, c16, c17, c18, c19, c20, c21, c22, c23, c24, c25] ([['0'], ['0'], [c0], ['0'], [c1], [c2], [c3], ['0'], [c4], [c5], [c6], [c7], [c8], [c9], [c10], ['0'], [c11], [c12], [c13], [c14], [c15], [c16], [c17], [c18], [c19], [c20], [c21], [c22], [c23], [c24], [c25]]) 1 (by decide) (by decide) hd1b rfl ?_
      intro pos hpos hq hne
      rw [show List.range' 1 31 = [1, 2, 3, 4, 5, 6, 7, 8, 9, 10, 11, 12, 13, 14, 15, 16, 17, 18, 19, 20, 21, 22, 23, 24, 25, 26, 27, 28, 29, 30, 31] from rfl] at hpos
      fin_cases hpos
      · exact (hne rfl).elim
      · exact (hq (by decide)).elim
      · exact (bitv_pyInt h0).symm
      · exact (hq (by decide)).elim
      · exact (bitv_pyInt h1).symm
      · exact (hq (by decide)).elim
      · exact (bitv_pyInt h3).symm
      · exact (hq (by decide)).elim
      · exact (bitv_pyInt h4).symm
      · exact (hq (by decide)).elim
      · exact (bitv_pyInt h6).symm
      · exact (hq (by decide)).elim
      · exact (bitv_pyInt h8).symm
      · exact (hq (by decide)).elim
      · exact (bitv_pyInt h10).symm
      · exact (hq (by decide)).elim
      · exact (bitv_pyInt h11).symm
      · exact (hq (by decide)).elim
      · exact (bitv_pyInt h13).symm
      · exact (hq (by decide)).elim
      · exact (bitv_pyInt h15).symm
      · exact (hq (by decide)).elim
      · exact (bitv_pyInt h17).symm
      · exact (hq (by decide)).elim
      · exact (bitv_pyInt h19).symm
      · exact (hq (by decide)).elim
      · exact (bitv_pyInt h21).symm
      · exact (hq (by decide)).elim
      · exact (bitv_pyInt h23).symm
      · exact (hq (by decide)).elim
      · exact (bitv_pyInt h25).symm
    · refine groupXor_cancel [d1, d2, c0, d4, c1, c2, c3, d8, c4, c5, c6, c7, c8, c9, c10, d16, c11, c12, c13, c14, c15, c16, c17, c18, c19, c20, c21, c22, c23, c24, c25] ([['0'], ['0'], [c0], ['0'], [c1], [c2], [c3], ['0'], [c4], [c5], [c6], [c7], [c8], [c9], [c10], ['0'], [c11], [c12], [c13], [c14], [c15], [c16], [c17], [c18], [c19], [c20], [c21], [c22], [c23], [c24], [c25]].set 0 [d1]) 2 (by decide) (by decide) hd2b rfl ?_
      intro pos hpos hq hne
      rw [show List.range' 1 31 = [1, 2, 3, 4, 5, 6, 7, 8, 9, 10, 11, 12, 13, 14, 15, 16, 17, 18, 19, 20, 21, 22, 23, 24, 25, 26, 27, 28, 29, 30, 31] from rfl] at hpos
      fin_cases hpos
      · exact (hq (by decide)).elim
      · exact (hne rfl).elim
      · exact (bitv_pyInt h0).symm
      · exact (hq (by decide)).elim
      · exact (hq (by decide)).elim
      · exact (bitv_pyInt h2).symm
      · exact (bitv_pyInt h3).symm
      · exact (hq (by decide)).elim
      · exact (hq (by decide)).elim
      · exact (bitv_pyInt h5).symm
      · exact (bitv_pyInt h6).symm
      · exact (hq (by decide)).elim
      · exact (hq (by decide)).elim
      · exact (bitv_pyInt h9).symm
      · exact (bitv_pyInt h10).symm
      · exact (hq (by decide)).elim
      · exact (hq (by decide)).elim
      · exact (bitv_pyInt h12).symm
      · exact (bitv_pyInt h13).symm
      · exact (hq (by decide)).elim
      · exact (hq (by decide)).elim
      · exact (bitv_pyInt h16).symm
      · exact (bitv_pyInt h17).symm
      · exact (hq (by decide)).elim
      · exact (hq (by decide)).elim
      · exact (bitv_pyInt h20).symm
      · exact (bitv_pyInt h21).symm
      · exact (hq (by decide)).elim
      · exact (hq (by decide)).elim
      · exact (bitv_pyInt h24).symm
      · exact (bitv_pyInt h25).symm
    · refine groupXor_cancel [d1, d2, c0, d4, c1, c2, c3, d8, c4, c5, c6, c7, c8, c9, c10, d16, c11, c12, c13, c14, c15, c16, c17, c18, c19, c20, c21, c22, c23, c24, c25] (([['0'], ['0'], [c0], ['0'], [c1], [c2], [c3], ['0'], [c4], [c5], [c6], [c7], [c8], [c9], [c10], ['0'], [c11], [c12], [c13], [c14], [c15], [c16], [c17], [c18], [c19], [c20], [c21], [c22], [c23], [c24], [c25]].set 0 [d1]).set 1 [d2]) 4 (by decide) (by decide) hd4b rfl ?_
      intro pos hpos hq hne
      rw [show List.range' 1 31 = [1, 2, 3, 4, 5, 6, 7, 8, 9, 10, 11, 12, 13, 14, 15, 16, 17, 18, 19, 20, 21, 22, 23, 24, 25, 26, 27, 28, 29, 30, 31] from rfl] at hpos
      fin_cases hpos
      · exact (hq (by decide)).elim
      · exact (hq (by decide)).elim
      · exact (hq (by decide)).elim
      · exact (hne rfl).elim
      · exact (bitv_pyInt h1).symm
      · exact (bitv_pyInt h2).symm
      · exact (bitv_pyInt h3).symm
      · exact (hq (by decide)).elim
      · exact (hq (by decide)).elim
      · exact (hq (by decide)).elim
      · exact (hq (by decide)).elim
      · exact (bitv_pyInt h7).symm
      · exact (bitv_pyInt h8).symm
      · exact (bitv_pyInt h9).symm
      · exact (bitv_pyInt h10).symm
      · exact (hq (by decide)).elim
      · exact (hq (by decide)).elim
      · exact (hq (by decide)).elim
      · exact (hq (by decide)).elim
      · exact (bitv_pyInt h14).symm
      · exact (bitv_pyInt h15).symm
      · exact (bitv_pyInt h16).symm
      · exact (bitv_pyInt h17).symm
      · exact (hq (by decide)).elim
      · exact (hq (by decide)).elim
      · exact (hq (by decide)).elim
      · exact (hq (by decide)).elim
      · exact (bitv_pyInt h22).symm
      · exact (bitv_pyInt h23).symm
      · exact (bitv_pyInt h24).symm
      · exact (bitv_pyInt h25).symm
    · refine groupXor_cancel [d1, d2, c0, d4, c1, c2, c3, d8, c4, c5, c6, c7, c8, c9, c10, d16, c11, c12, c13, c14, c15, c16, c17, c18, c19, c20, c21, c22, c23, c24, c25] ((([['0'], ['0'], [c0], ['0'], [c1], [c2], [c3], ['0'], [c4], [c5], [c6], [c7], [c8], [c9], [c10], ['0'], [c11], [c12], [c13], [c14], [c15], [c16], [c17], [c18], [c19], [c20], [c21], [c22], [c23], [c24], [c25]].set 0 [d1]).set 1 [d2]).set 3 [d4]) 8 (by decide) (by decide) hd8b rfl ?_
      intro pos hpos hq hne
      rw [show List.range' 1 31 = [1, 2, 3, 4, 5, 6, 7, 8, 9, 10, 11, 12, 13, 14, 15, 16, 17, 18, 19, 20, 21, 22, 23, 24, 25, 26, 27, 28, 29, 30, 31] from rfl] at hpos
      fin_cases hpos
      · exact (hq (by decide)).elim
      · exact (hq (by decide)).elim
      · exact (hq (by decide)).elim
      · exact (hq (by decide)).elim
      · exact (hq (by decide)).elim
      · exact (hq (by decide)).elim
      · exact (hq (by decide)).elim
      · exact (hne rfl).elim
      · exact (bitv_pyInt h4).symm
      · exact (bitv_pyInt h5).symm
      · exact (bitv_pyInt h6).symm
      · exact (bitv_pyInt h7).symm
      · exact (bitv_pyInt h8).symm
      · exact (bitv_pyInt h9).symm
      · exact (bitv_pyInt h10).symm
      · exact (hq (by decide)).elim
      · exact (hq (by decide)).elim
      · exact (hq (by decide)).elim
      · exact (hq (by decide)).elim
      · exact (hq (by decide)).elim
      · exact (hq (by decide)).elim
      · exact (hq (by decide)).elim
      · exact (hq (by decide)).elim
      · exact (bitv_pyInt h18).symm
      · exact (bitv_pyInt h19).symm
      · exact (bitv_pyInt h20).symm
      · exact (bitv_pyInt h21).symm
      · exact (bitv_pyInt h22).symm
      · exact (bitv_pyInt h23).symm
      · exact (bitv_pyInt h24).symm
      · exact (bitv_pyInt h25).symm
    · refine groupXor_cancel [d1, d2, c0, d4, c1, c2, c3, d8, c4, c5, c6, c7, c8, c9, c10, d16, c11, c12, c13, c14, c15, c16, c17, c18, c19, c20, c21, c22, c23, c24, c25] (((([['0'], ['0'], [c0], ['0'], [c1], [c2], [c3], ['0'], [c4], [c5], [c6], [c7], [c8], [c9], [c10], ['0'], [c11], [c12], [c13], [c14], [c15], [c16], [c17], [c18], [c19], [c20], [c21], [c22], [c23], [c24], [c25]].set 0 [d1]).set 1 [d2]).set 3 [d4]).set 7 [d8]) 16 (by decide) (by decide) hd16b rfl ?_
      intro pos hpos hq hne
      rw [show List.range' 1 31 = [1, 2, 3, 4, 5, 6, 7, 8, 9, 10, 11, 12, 13, 14, 15, 16, 17, 18, 19, 20, 21, 22, 23, 24, 25, 26, 27, 28, 29, 30, 31] from rfl] at hpos
      fin_cases hpos
      · exact (hq (by decide)).elim
      · exact (hq (by decide)).elim
      · exact (hq (by decide)).elim
      · exact (hq (by decide)).elim
      · exact (hq (by decide)).elim
      · exact (hq (by decide)).elim
      · exact (hq (by decide)).elim
      · exact (hq (by decide)).elim
      · exact (hq (by decide)).elim
      · exact (hq (by decide)).elim
      · exact (hq (by decide)).elim
      · exact (hq (by decide)).elim
      · exact (hq (by decide)).elim
      · exact (hq (by decide)).elim
      · exact (hq (by decide)).elim
      · exact (hne rfl).elim
      · exact (bitv_pyInt h11).symm
      · exact (bitv_pyInt h12).symm
      · exact (bitv_pyInt h13).symm
      · exact (bitv_pyInt h14).symm
      · exact (bitv_pyInt h15).symm
      · exact (bitv_pyInt h16).symm
      · exact (bitv_pyInt h17).symm
      · exact (bitv_pyInt h18).symm
      · exact (bitv_pyInt h19).symm
      · exact (bitv_pyInt h20).symm
      · exact (bitv_pyInt h21).symm
      · exact (bitv_pyInt h22).symm
      · exact (bitv_pyInt h23).symm
      · exact (bitv_pyInt h24).symm
      · exact (bitv_pyInt h25).symm
set_option maxHeartbeats 4000000 in
/-- Any block of 26 decimal digit characters is encoded without error:
every cell the parity loop reads parses with `int(...)`, so no exception
is raised even though the block may contain digits other than 0/1. -/
theorem encode_digits_eval (chunk : List Char) (hlen : chunk.length = 26)
    (hdig : ∀ c ∈ chunk, c.isDigit = true) :
    ∃ cw, encode_hamming_31_26 chunk = Except.ok cw := by
  obtain ⟨c0, chunk, rfl, hl1⟩ := list_len_succ chunk 25 hlen
  obtain ⟨c1, chunk, rfl, hl2⟩ := list_len_succ chunk 24 hl1
  obtain ⟨c2, chunk, rfl, hl3⟩ := list_len_succ chunk 23 hl2
  obtain ⟨c3, chunk, rfl, hl4⟩ := list_len_succ chunk 22 hl3
  obtain ⟨c4, chunk, rfl, hl5⟩ := list_len_succ chunk 21 hl4
  obtain ⟨c5, chunk, rfl, hl6⟩ := list_len_succ chunk 20 hl5
  obtain ⟨c6, chunk, rfl, hl7⟩ := list_len_succ chunk 19 hl6
  obtain ⟨c7, chunk, rfl, hl8⟩ := list_len_succ chunk 18 hl7
  obtain ⟨c8, chunk, rfl, hl9⟩ := list_len_succ chunk 17 hl8
  obtain ⟨c9, chunk, rfl, hl10⟩ := list_len_succ chunk 16 hl9
  obtain ⟨c10, chunk, rfl, hl11⟩ := list_len_succ chunk 15 hl10
  obtain ⟨c11, chunk, rfl, hl12⟩ := list_len_succ chunk 14 hl11
  obtain ⟨c12, chunk, rfl, hl13⟩ := list_len_succ chunk 13 hl12
  obtain ⟨c13, chunk, rfl, hl14⟩ := list_len_succ chunk 12 hl13
  obtain ⟨c14, chunk, rfl, hl15⟩ := list_len_succ chunk 11 hl14
  obtain ⟨c15, chunk, rfl, hl16⟩ := list_len_succ chunk 10 hl15
  obtain ⟨c16, chunk, rfl, hl17⟩ := list_len_succ chunk 9 hl16
  obtain ⟨c17, chunk, rfl, hl18⟩ := list_len_succ chunk 8 hl17
  obtain ⟨c18, chunk, rfl, hl19⟩ := list_len_succ chunk 7 hl18
  obtain ⟨c19, chunk, rfl, hl20⟩ := list_len_succ chunk 6 hl19
  obtain ⟨c20, chunk, rfl, hl21⟩ := list_len_succ chunk 5 hl20
  obtain ⟨c21, chunk, rfl, hl22⟩ := list_len_succ chunk 4 hl21
  obtain ⟨c22, chunk, rfl, hl23⟩ := list_len_succ chunk 3 hl22
  obtain ⟨c23, chunk, rfl, hl24⟩ := list_len_succ chunk 2 hl23
  obtain ⟨c24, chunk, rfl, hl25⟩ := list_len_succ chunk 1 hl24
  obtain ⟨c25, chunk, rfl, hl26⟩ := list_len_succ chunk 0 hl25
  obtain rfl := List.length_eq_zero.mp hl26
  have hd0 := hdig c0 (by simp)
  have hd1 := hdig c1 (by simp)
  have hd2 := hdig c2 (by simp)
  have hd3 := hdig c3 (by simp)
  have hd4 := hdig c4 (by simp)
  have hd5 := hdig c5 (by simp)
  have hd6 := hdig c6 (by simp)
  have hd7 := hdig c7 (by simp)
  have hd8 := hdig c8 (by simp)
  have hd9 := hdig c9 (by simp)
  have hd10 := hdig c10 (by simp)
  have hd11 := hdig c11 (by simp)
  have hd12 := hdig c12 (by simp)
  have hd13 := hdig c13 (by simp)
  have hd14 := hdig c14 (by simp)
  have hd15 := hdig c15 (by simp)
  have hd16 := hdig c16 (by simp)
  have hd17 := hdig c17 (by simp)
  have hd18 := hdig c18 (by simp)
  have hd19 := hdig c19 (by simp)
  have hd20 := hdig c20 (by simp)
  have hd21 := hdig c21 (by simp)
  have hd22 := hdig c22 (by simp)
  have hd23 := hdig c23 (by simp)
  have hd24 := hdig c24 (by simp)
  have hd25 := hdig c25 (by simp)
  have hf : (fillData [c0, c1, c2, c3, c4, c5, c6, c7, c8, c9, c10, c11, c12, c13, c14, c15, c16, c17, c18, c19, c20, c21, c22, c23, c24, c25]).1 = [['0'], ['0'], [c0], ['0'], [c1], [c2], [c3], ['0'], [c4], [c5], [c6], [c7], [c8], [c9], [c10], ['0'], [c11], [c12], [c13], [c14], [c15], [c16], [c17], [c18], [c19], [c20], [c21], [c22], [c23], [c24], [c25]] :=
    congrArg Prod.fst (fill_eval c0 c1 c2 c3 c4 c5 c6 c7 c8 c9 c10 c11 c12 c13 c14 c15 c16 c17 c18 c19 c20 c21 c22 c23 c24 c25)
  have q1 : parityAt ([['0'], ['0'], [c0], ['0'], [c1], [c2], [c3], ['0'], [c4], [c5], [c6], [c7], [c8], [c9], [c10], ['0'], [c11], [c12], [c13], [c14], [c15], [c16], [c17], [c18], [c19], [c20], [c21], [c22], [c23], [c24], [c25]]) 1 = Except.ok (parityVal ([['0'], ['0'], [c0], ['0'], [c1], [c2], [c3], ['0'], [c4], [c5], [c6], [c7], [c8], [c9], [c10], ['0'], [c11], [c12], [c13], [c14], [c15], [c16], [c17], [c18], [c19], [c20], [c21], [c22], [c23], [c24], [c25]]) 1) := by
    refine parityAt_ok _ _ ?_
    intro pos hpos hq
    rw [show List.range' 1 31 = [1, 2, 3, 4, 5, 6, 7, 8, 9, 10, 11, 12, 13, 14, 15, 16, 17, 18, 19, 20, 21, 22, 23, 24, 25, 26, 27, 28, 29, 30, 31] from rfl] at hpos
    fin_cases hpos
    · exact ⟨0, pyInt_zero⟩
    · exact (hq (by decide)).elim
    · exact ⟨_, pyInt_digit hd0⟩
    · exact (hq (by decide)).elim
    · exact ⟨_, pyInt_digit hd1⟩
    · exact (hq (by decide)).elim
    · exact ⟨_, pyInt_digit hd3⟩
    · exact (hq (by decide)).elim
    · exact ⟨_, pyInt_digit hd4⟩
    · exact (hq (by decide)).elim
    · exact ⟨_, pyInt_digit hd6⟩
    · exact (hq (by decide)).elim
    · exact ⟨_, pyInt_digit hd8⟩
    · exact (hq (by decide)).elim
    · exact ⟨_, pyInt_digit hd10⟩
    · exact (hq (by decide)).elim
    · exact ⟨_, pyInt_digit hd11⟩
    · exact (hq (by decide)).elim
    · exact ⟨_, pyInt_digit hd13⟩
    · exact (hq (by decide)).elim
    · exact ⟨_, pyInt_digit hd15⟩
    · exact (hq (by decide)).elim
    · exact ⟨_, pyInt_digit hd17⟩
    · exact (hq (by decide)).elim
    · exact ⟨_, pyInt_digit hd19⟩
    · exact (hq (by decide)).elim
    · exact ⟨_, pyInt_digit hd21⟩
    · exact (hq (by decide)).elim
    · exact ⟨_, pyInt_digit hd23⟩
    · exact (hq (by decide)).elim
    · exact ⟨_, pyInt_digit hd25⟩
  have q2 : parityAt ([['0'], ['0'], [c0], ['0'], [c1], [c2], [c3], ['0'], [c4], [c5], [c6], [c7], [c8], [c9], [c10], ['0'], [c11], [c12], [c13], [c14], [c15], [c16], [c17], [c18], [c19], [c20], [c21], [c22], [c23], [c24], [c25]].set 0 (natStr (parityVal ([['0'], ['0'], [c0], ['0'], [c1], [c2], [c3], ['0'], [c4], [c5], [c6], [c7], [c8], [c9], [c10], ['0'], [c11], [c12], [c13], [c14], [c15], [c16], [c17], [c18], [c19], [c20], [c21], [c22], [c23], [c24], [c25]]) 1))) 2 = Except.ok (parityVal ([['0'], ['0'], [c0], ['0'], [c1], [c2], [c3], ['0'], [c4], [c5], [c6], [c7], [c8], [c9], [c10], ['0'], [c11], [c12], [c13], [c14], [c15], [c16], [c17], [c18], [c19], [c20], [c21], [c22], [c23], [c24], [c25]].set 0 (natStr (parityVal ([['0'], ['0'], [c0], ['0'], [c1], [c2], [c3], ['0'], [c4], [c5], [c6], [c7], [c8], [c9], [c10], ['0'], [c11], [c12], [c13], [c14], [c15], [c16], [c17], [c18], [c19], [c20], [c21], [c22], [c23], [c24], [c25]]) 1))) 2) := by
    refine parityAt_ok _ _ ?_
    intro pos hpos hq
    rw [show List.range' 1 31 = [1, 2, 3, 4, 5, 6, 7, 8, 9, 10, 11, 12, 13, 14, 15, 16, 17, 18, 19, 20, 21, 22, 23, 24, 25, 26, 27, 28, 29, 30, 31] from rfl] at hpos
    fin_cases hpos
    · exact (hq (by decide)).elim
    · exact ⟨0, pyInt_zero⟩
    · exact ⟨_, pyInt_digit hd0⟩
    · exact (hq (by decide)).elim
    · exact (hq (by decide)).elim
    · exact ⟨_, pyInt_digit hd2⟩
    · exact ⟨_, pyInt_digit hd3⟩
    · exact (hq (by decide)).elim
    · exact (hq (by decide)).elim
    · exact ⟨_, pyInt_digit hd5⟩
    · exact ⟨_, pyInt_digit hd6⟩
    · exact (hq (by decide)).elim
    · exact (hq (by decide)).elim
    · exact ⟨_, pyInt_digit hd9⟩
    · exact ⟨_, pyInt_digit hd10⟩
    · exact (hq (by decide)).elim
    · exact (hq (by decide)).elim
    · exact ⟨_, pyInt_digit hd12⟩
    · exact ⟨_, pyInt_digit hd13⟩
    · exact (hq (by decide)).elim
    · exact (hq (by decide)).elim
    · exact ⟨_, pyInt_digit hd16⟩
    · exact ⟨_, pyInt_digit hd17⟩
    · exact (hq (by decide)).elim
    · exact (hq (by decide)).elim
    · exact ⟨_, pyInt_digit hd20⟩
    · exact ⟨_, pyInt_digit hd21⟩
    · exact (hq (by decide)).elim
    · exact (hq (by decide)).elim
    · exact ⟨_, pyInt_digit hd24⟩
    · exact ⟨_, pyInt_digit hd25⟩
  have q4 : parityAt (([['0'], ['0'], [c0], ['0'], [c1], [c2], [c3], ['0'], [c4], [c5], [c6], [c7], [c8], [c9], [c10], ['0'], [c11], [c12], [c13], [c14], [c15], [c16], [c17], [c18], [c19], [c20], [c21], [c22], [c23], [c24], [c25]].set 0 (natStr (parityVal ([['0'], ['0'], [c0], ['0'], [c1], [c2], [c3], ['0'], [c4], [c5], [c6], [c7], [c8], [c9], [c10], ['0'], [c11], [c12], [c13], [c14], [c15], [c16], [c17], [c18], [c19], [c20], [c21], [c22], [c23], [c24], [c25]]) 1))).set 1 (natStr (parityVal ([['0'], ['0'], [c0], ['0'], [c1], [c2], [c3], ['0'], [c4], [c5], [c6], [c7], [c8], [c9], [c10], ['0'], [c11], [c12], [c13], [c14], [c15], [c16], [c17], [c18], [c19], [c20], [c21], [c22], [c23], [c24], [c25]].set 0 (natStr (parityVal ([['0'], ['0'], [c0], ['0'], [c1], [c2], [c3], ['0'], [c4], [c5], [c6], [c7], [c8], [c9], [c10], ['0'], [c11], [c12], [c13], [c14], [c15], [c16], [c17], [c18], [c19], [c20], [c21], [c22], [c23], [c24], [c25]]) 1))) 2))) 4 = Except.ok (parityVal (([['0'], ['0'], [c0], ['0'], [c1], [c2], [c3], ['0'], [c4], [c5], [c6], [c7], [c8], [c9], [c10], ['0'], [c11], [c12], [c13], [c14], [c15], [c16], [c17], [c18], [c19], [c20], [c21], [c22], [c23], [c24], [c25]].set 0 (natStr (parityVal ([['0'], ['0'], [c0], ['0'], [c1], [c2], [c3], ['0'], [c4], [c5], [c6], [c7], [c8], [c9], [c10], ['0'], [c11], [c12], [c13], [c14], [c15], [c16], [c17], [c18], [c19], [c20], [c21], [c22], [c23], [c24], [c25]]) 1))).set 1 (natStr (parityVal ([['0'], ['0'], [c0], ['0'], [c1], [c2], [c3], ['0'], [c4], [c5], [c6], [c7], [c8], [c9], [c10], ['0'], [c11], [c12], [c13], [c14], [c15], [c16], [c17], [c18], [c19], [c20], [c21], [c22], [c23], [c24], [c25]].set 0 (natStr (parityVal ([['0'], ['0'], [c0], ['0'], [c1], [c2], [c3], ['0'], [c4], [c5], [c6], [c7], [c8], [c9], [c10], ['0'], [c11], [c12], [c13], [c14], [c15], [c16], [c17], [c18], [c19], [c20], [c21], [c22], [c23], [c24], [c25]]) 1))) 2))) 4) := by
    refine parityAt_ok _ _ ?_
    intro pos hpos hq
    rw [show List.range' 1 31 = [1, 2, 3, 4, 5, 6, 7, 8, 9, 10, 11, 12, 13, 14, 15, 16, 17, 18, 19, 20, 21, 22, 23, 24, 25, 26, 27, 28, 29, 30, 31] from rfl] at hpos
    fin_cases hpos
    · exact (hq (by decide)).elim
    · exact (hq (by decide)).elim
    · exact (hq (by decide)).elim
    · exact ⟨0, pyInt_zero⟩
    · exact ⟨_, pyInt_digit hd1⟩
    · exact ⟨_, pyInt_digit hd2⟩
    · exact ⟨_, pyInt_digit hd3⟩
    · exact (hq (by decide)).elim
    · exact (hq (by decide)).elim
    · exact (hq (by decide)).elim
    · exact (hq (by decide)).elim
    · exact ⟨_, pyInt_digit hd7⟩
    · exact ⟨_, pyInt_digit hd8⟩
    · exact ⟨_, pyInt_digit hd9⟩
    · exact ⟨_, pyInt_digit hd10⟩
    · exact (hq (by decide)).elim
    · exact (hq (by decide)).elim
    · exact (hq (by decide)).elim
    · exact (hq (by decide)).elim
    · exact ⟨_, pyInt_digit hd14⟩
    · exact ⟨_, pyInt_digit hd15⟩
    · exact ⟨_, pyInt_digit hd16⟩
    · exact ⟨_, pyInt_digit hd17⟩
    · exact (hq (by decide)).elim
    · exact (hq (by decide)).elim
    · exact (hq (by decide)).elim
    · exact (hq (by decide)).elim
    · exact ⟨_, pyInt_digit hd22⟩
    · exact ⟨_, pyInt_digit hd23⟩
    · exact ⟨_, pyInt_digit hd24⟩
    · exact ⟨_, pyInt_digit hd25⟩
  have q8 : parityAt ((([['0'], ['0'], [c0], ['0'], [c1], [c2], [c3], ['0'], [c4], [c5], [c6], [c7], [c8], [c9], [c10], ['0'], [c11], [c12], [c13], [c14], [c15], [c16], [c17], [c18], [c19], [c20], [c21], [c22], [c23], [c24], [c25]].set 0 (natStr (parityVal ([['0'], ['0'], [c0], ['0'], [c1], [c2], [c3], ['0'], [c4], [c5], [c6], [c7], [c8], [c9], [c10], ['0'], [c11], [c12], [c13], [c14], [c15], [c16], [c17], [c18], [c19], [c20], [c21], [c22], [c23], [c24], [c25]]) 1))).set 1 (natStr (parityVal ([['0'], ['0'], [c0], ['0'], [c1], [c2], [c3], ['0'], [c4], [c5], [c6], [c7], [c8], [c9], [c10], ['0'], [c11], [c12], [c13], [c14], [c15], [c16], [c17], [c18], [c19], [c20], [c21], [c22], [c23], [c24], [c25]].set 0 (natStr (parityVal ([['0'], ['0'], [c0], ['0'], [c1], [c2], [c3], ['0'], [c4], [c5], [c6], [c7], [c8], [c9], [c10], ['0'], [c11], [c12], [c13], [c14], [c15], [c16], [c17], [c18], [c19], [c20], [c21], [c22], [c23], [c24], [c25]]) 1))) 2))).set 3 (natStr (parityVal (([['0'], ['0'], [c0], ['0'], [c1], [c2], [c3], ['0'], [c4], [c5], [c6], [c7], [c8], [c9], [c10], ['0'], [c11], [c12], [c13], [c14], [c15], [c16], [c17], [c18], [c19], [c20], [c21], [c22], [c23], [c24], [c25]].set 0 (natStr (parityVal ([['0'], ['0'], [c0], ['0'], [c1], [c2], [c3], ['0'], [c4], [c5], [c6], [c7], [c8], [c9], [c10], ['0'], [c11], [c12], [c13], [c14], [c15], [c16], [c17], [c18], [c19], [c20], [c21], [c22], [c23], [c24], [c25]]) 1))).set 1 (natStr (parityVal ([['0'], ['0'], [c0], ['0'], [c1], [c2], [c3], ['0'], [c4], [c5], [c6], [c7], [c8], [c9], [c10], ['0'], [c11], [c12], [c13], [c14], [c15], [c16], [c17], [c18], [c19], [c20], [c21], [c22], [c23], [c24], [c25]].set 0 (natStr (parityVal ([['0'], ['0'], [c0], ['0'], [c1], [c2], [c3], ['0'], [c4], [c5], [c6], [c7], [c8], [c9], [c10], ['0'], [c11], [c12], [c13], [c14], [c15], [c16], [c17], [c18], [c19], [c20], [c21], [c22], [c23], [c24], [c25]]) 1))) 2))) 4))) 8 = Except.ok (parityVal ((([['0'], ['0'], [c0], ['0'], [c1], [c2], [c3], ['0'], [c4], [c5], [c6], [c7], [c8], [c9], [c10], ['0'], [c11], [c12], [c13], [c14], [c15], [c16], [c17], [c18], [c19], [c20], [c21], [c22], [c23], [c24], [c25]].set 0 (natStr (parityVal ([['0'], ['0'], [c0], ['0'], [c1], [c2], [c3], ['0'], [c4], [c5], [c6], [c7], [c8], [c9], [c10], ['0'], [c11], [c12], [c13], [c14], [c15], [c16], [c17], [c18], [c19], [c20], [c21], [c22], [c23], [c24], [c25]]) 1))).set 1 (natStr (parityVal ([['0'], ['0'], [c0], ['0'], [c1], [c2], [c3], ['0'], [c4], [c5], [c6], [c7], [c8], [c9], [c10], ['0'], [c11], [c12], [c13], [c14], [c15], [c16], [c17], [c18], [c19], [c20], [c21], [c22], [c23], [c24], [c25]].set 0 (natStr (parityVal ([['0'], ['0'], [c0], ['0'], [c1], [c2], [c3], ['0'], [c4], [c5], [c6], [c7], [c8], [c9], [c10], ['0'], [c11], [c12], [c13], [c14], [c15], [c16], [c17], [c18], [c19], [c20], [c21], [c22], [c23], [c24], [c25]]) 1))) 2))).set 3 (natStr (parityVal (([['0'], ['0'], [c0], ['0'], [c1], [c2], [c3], ['0'], [c4], [c5], [c6], [c7], [c8], [c9], [c10], ['0'], [c11], [c12], [c13], [c14], [c15], [c16], [c17], [c18], [c19], [c20], [c21], [c22], [c23], [c24], [c25]].set 0 (natStr (parityVal ([['0'], ['0'], [c0], ['0'], [c1], [c2], [c3], ['0'], [c4], [c5], [c6], [c7], [c8], [c9], [c10], ['0'], [c11], [c12], [c13], [c14], [c15], [c16], [c17], [c18], [c19], [c20], [c21], [c22], [c23], [c24], [c25]]) 1))).set 1 (natStr (parityVal ([['0'], ['0'], [c0], ['0'], [c1], [c2], [c3], ['0'], [c4], [c5], [c6], [c7], [c8], [c9], [c10], ['0'], [c11], [c12], [c13], [c14], [c15], [c16], [c17], [c18], [c19], [c20], [c21], [c22], [c23], [c24], [c25]].set 0 (natStr (parityVal ([['0'], ['0'], [c0], ['0'], [c1], [c2], [c3], ['0'], [c4], [c5], [c6], [c7], [c8], [c9], [c10], ['0'], [c11], [c12], [c13], [c14], [c15], [c16], [c17], [c18], [c19], [c20], [c21], [c22], [c23], [c24], [c25]]) 1))) 2))) 4))) 8) := by
    refine parityAt_ok _ _ ?_
    intro pos hpos hq
    rw [show List.range' 1 31 = [1, 2, 3, 4, 5, 6, 7, 8, 9, 10, 11, 12, 13, 14, 15, 16, 17, 18, 19, 20, 21, 22, 23, 24, 25, 26, 27, 28, 29, 30, 31] from rfl] at hpos
    fin_cases hpos
    · exact (hq (by decide)).elim
    · exact (hq (by decide)).elim
    · exact (hq (by decide)).elim
    · exact (hq (by decide)).elim
    · exact (hq (by decide)).elim
    · exact (hq (by decide)).elim
    · exact (hq (by decide)).elim
    · exact ⟨0, pyInt_zero⟩
    · exact ⟨_, pyInt_digit hd4⟩
    · exact ⟨_, pyInt_digit hd5⟩
    · exact ⟨_, pyInt_digit hd6⟩
    · exact ⟨_, pyInt_digit hd7⟩
    · exact ⟨_, pyInt_digit hd8⟩
    · exact ⟨_, pyInt_digit hd9⟩
    · exact ⟨_, pyInt_digit hd10⟩
    · exact (hq (by decide)).elim
    · exact (hq (by decide)).elim
    · exact (hq (by decide)).elim
    · exact (hq (by decide)).elim
    · exact (hq (by decide)).elim
    · exact (hq (by decide)).elim
    · exact (hq (by decide)).elim
    · exact (hq (by decide)).elim
    · exact ⟨_, pyInt_digit hd18⟩
    · exact ⟨_, pyInt_digit hd19⟩
    · exact ⟨_, pyInt_digit hd20⟩
    · exact ⟨_, pyInt_digit hd21⟩
    · exact ⟨_, pyInt_digit hd22⟩
    · exact ⟨_, pyInt_digit hd23⟩
    · exact ⟨_, pyInt_digit hd24⟩
    · exact ⟨_, pyInt_digit hd25⟩
  have q16 : parityAt (((([['0'], ['0'], [c0], ['0'], [c1], [c2], [c3], ['0'], [c4], [c5], [c6], [c7], [c8], [c9], [c10], ['0'], [c11], [c12], [c13], [c14], [c15], [c16], [c17], [c18], [c19], [c20], [c21], [c22], [c23], [c24], [c25]].set 0 (natStr (parityVal ([['0'], ['0'], [c0], ['0'], [c1], [c2], [c3], ['0'], [c4], [c5], [c6], [c7], [c8], [c9], [c10], ['0'], [c11], [c12], [c13], [c14], [c15], [c16], [c17], [c18], [c19], [c20], [c21], [c22], [c23], [c24], [c25]]) 1))).set 1 (natStr (parityVal ([['0'], ['0'], [c0], ['0'], [c1], [c2], [c3], ['0'], [c4], [c5], [c6], [c7], [c8], [c9], [c10], ['0'], [c11], [c12], [c13], [c14], [c15], [c16], [c17], [c18], [c19], [c20], [c21], [c22], [c23], [c24], [c25]].set 0 (natStr (parityVal ([['0'], ['0'], [c0], ['0'], [c1], [c2], [c3], ['0'], [c4], [c5], [c6], [c7], [c8], [c9], [c10], ['0'], [c11], [c12], [c13], [c14], [c15], [c16], [c17], [c18], [c19], [c20], [c21], [c22], [c23], [c24], [c25]]) 1))) 2))).set 3 (natStr (parityVal (([['0'], ['0'], [c0], ['0'], [c1], [c2], [c3], ['0'], [c4], [c5], [c6], [c7], [c8], [c9], [c10], ['0'], [c11], [c12], [c13], [c14], [c15], [c16], [c17], [c18], [c19], [c20], [c21], [c22], [c23], [c24], [c25]].set 0 (natStr (parityVal ([['0'], ['0'], [c0], ['0'], [c1], [c2], [c3], ['0'], [c4], [c5], [c6], [c7], [c8], [c9], [c10], ['0'], [c11], [c12], [c13], [c14], [c15], [c16], [c17], [c18], [c19], [c20], [c21], [c22], [c23], [c24], [c25]]) 1))).set 1 (natStr (parityVal ([['0'], ['0'], [c0], ['0'], [c1], [c2], [c3], ['0'], [c4], [c5], [c6], [c7], [c8], [c9], [c10], ['0'], [c11], [c12], [c13], [c14], [c15], [c16], [c17], [c18], [c19], [c20], [c21], [c22], [c23], [c24], [c25]].set 0 (natStr (parityVal ([['0'], ['0'], [c0], ['0'], [c1], [c2], [c3], ['0'], [c4], [c5], [c6], [c7], [c8], [c9], [c10], ['0'], [c11], [c12], [c13], [c14], [c15], [c16], [c17], [c18], [c19], [c20], [c21], [c22], [c23], [c24], [c25]]) 1))) 2))) 4))).set 7 (natStr (parityVal ((([['0'], ['0'], [c0], ['0'], [c1], [c2], [c3], ['0'], [c4], [c5], [c6], [c7], [c8], [c9], [c10], ['0'], [c11], [c12], [c13], [c14], [c15], [c16], [c17], [c18], [c19], [c20], [c21], [c22], [c23], [c24], [c25]].set 0 (natStr (parityVal ([['0'], ['0'], [c0], ['0'], [c1], [c2], [c3], ['0'], [c4], [c5], [c6], [c7], [c8], [c9], [c10], ['0'], [c11], [c12], [c13], [c14], [c15], [c16], [c17], [c18], [c19], [c20], [c21], [c22], [c23], [c24], [c25]]) 1))).set 1 (natStr (parityVal ([['0'], ['0'], [c0], ['0'], [c1], [c2], [c3], ['0'], [c4], [c5], [c6], [c7], [c8], [c9], [c10], ['0'], [c11], [c12], [c13], [c14], [c15], [c16], [c17], [c18], [c19], [c20], [c21], [c22], [c23], [c24], [c25]].set 0 (natStr (parityVal ([['0'], ['0'], [c0], ['0'], [c1], [c2], [c3], ['0'], [c4], [c5], [c6], [c7], [c8], [c9], [c10], ['0'], [c11], [c12], [c13], [c14], [c15], [c16], [c17], [c18], [c19], [c20], [c21], [c22], [c23], [c24], [c25]]) 1))) 2))).set 3 (natStr (parityVal (([['0'], ['0'], [c0], ['0'], [c1], [c2], [c3], ['0'], [c4], [c5], [c6], [c7], [c8], [c9], [c10], ['0'], [c11], [c12], [c13], [c14], [c15], [c16], [c17], [c18], [c19], [c20], [c21], [c22], [c23], [c24], [c25]].set 0 (natStr (parityVal ([['0'], ['0'], [c0], ['0'], [c1], [c2], [c3], ['0'], [c4], [c5], [c6], [c7], [c8], [c9], [c10], ['0'], [c11], [c12], [c13], [c14], [c15], [c16], [c17], [c18], [c19], [c20], [c21], [c22], [c23], [c24], [c25]]) 1))).set 1 (natStr (parityVal ([['0'], ['0'], [c0], ['0'], [c1], [c2], [c3], ['0'], [c4], [c5], [c6], [c7], [c8], [c9], [c10], ['0'], [c11], [c12], [c13], [c14], [c15], [c16], [c17], [c18], [c19], [c20], [c21], [c22], [c23], [c24], [c25]].set 0 (natStr (parityVal ([['0'], ['0'], [c0], ['0'], [c1], [c2], [c3], ['0'], [c4], [c5], [c6], [c7], [c8], [c9], [c10], ['0'], [c11], [c12], [c13], [c14], [c15], [c16], [c17], [c18], [c19], [c20], [c21], [c22], [c23], [c24], [c25]]) 1))) 2))) 4))) 8))) 16 = Except.ok (parityVal (((([['0'], ['0'], [c0], ['0'], [c1], [c2], [c3], ['0'], [c4], [c5], [c6], [c7], [c8], [c9], [c10], ['0'], [c11], [c12], [c13], [c14], [c15], [c16], [c17], [c18], [c19], [c20], [c21], [c22], [c23], [c24], [c25]].set 0 (natStr (parityVal ([['0'], ['0'], [c0], ['0'], [c1], [c2], [c3], ['0'], [c4], [c5], [c6], [c7], [c8], [c9], [c10], ['0'], [c11], [c12], [c13], [c14], [c15], [c16], [c17], [c18], [c19], [c20], [c21], [c22], [c23], [c24], [c25]]) 1))).set 1 (natStr (parityVal ([['0'], ['0'], [c0], ['0'], [c1], [c2], [c3], ['0'], [c4], [c5], [c6], [c7], [c8], [c9], [c10], ['0'], [c11], [c12], [c13], [c14], [c15], [c16], [c17], [c18], [c19], [c20], [c21], [c22], [c23], [c24], [c25]].set 0 (natStr (parityVal ([['0'], ['0'], [c0], ['0'], [c1], [c2], [c3], ['0'], [c4], [c5], [c6], [c7], [c8], [c9], [c10], ['0'], [c11], [c12], [c13], [c14], [c15], [c16], [c17], [c18], [c19], [c20], [c21], [c22], [c23], [c24], [c25]]) 1))) 2))).set 3 (natStr (parityVal (([['0'], ['0'], [c0], ['0'], [c1], [c2], [c3], ['0'], [c4], [c5], [c6], [c7], [c8], [c9], [c10], ['0'], [c11], [c12], [c13], [c14], [c15], [c16], [c17], [c18], [c19], [c20], [c21], [c22], [c23], [c24], [c25]].set 0 (natStr (parityVal ([['0'], ['0'], [c0], ['0'], [c1], [c2], [c3], ['0'], [c4], [c5], [c6], [c7], [c8], [c9], [c10], ['0'], [c11], [c12], [c13], [c14], [c15], [c16], [c17], [c18], [c19], [c20], [c21], [c22], [c23], [c24], [c25]]) 1))).set 1 (natStr (parityVal ([['0'], ['0'], [c0], ['0'], [c1], [c2], [c3], ['0'], [c4], [c5], [c6], [c7], [c8], [c9], [c10], ['0'], [c11], [c12], [c13], [c14], [c15], [c16], [c17], [c18], [c19], [c20], [c21], [c22], [c23], [c24], [c25]].set 0 (natStr (parityVal ([['0'], ['0'], [c0], ['0'], [c1], [c2], [c3], ['0'], [c4], [c5], [c6], [c7], [c8], [c9], [c10], ['0'], [c11], [c12], [c13], [c14], [c15], [c16], [c17], [c18], [c19], [c20], [c21], [c22], [c23], [c24], [c25]]) 1))) 2))) 4))).set 7 (natStr (parityVal ((([['0'], ['0'], [c0], ['0'], [c1], [c2], [c3], ['0'], [c4], [c5], [c6], [c7], [c8], [c9], [c10], ['0'], [c11], [c12], [c13], [c14], [c15], [c16], [c17], [c18], [c19], [c20], [c21], [c22], [c23], [c24], [c25]].set 0 (natStr (parityVal ([['0'], ['0'], [c0], ['0'], [c1], [c2], [c3], ['0'], [c4], [c5], [c6], [c7], [c8], [c9], [c10], ['0'], [c11], [c12], [c13], [c14], [c15], [c16], [c17], [c18], [c19], [c20], [c21], [c22], [c23], [c24], [c25]]) 1))).set 1 (natStr (parityVal ([['0'], ['0'], [c0], ['0'], [c1], [c2], [c3], ['0'], [c4], [c5], [c6], [c7], [c8], [c9], [c10], ['0'], [c11], [c12], [c13], [c14], [c15], [c16], [c17], [c18], [c19], [c20], [c21], [c22], [c23], [c24], [c25]].set 0 (natStr (parityVal ([['0'], ['0'], [c0], ['0'], [c1], [c2], [c3], ['0'], [c4], [c5], [c6], [c7], [c8], [c9], [c10], ['0'], [c11], [c12], [c13], [c14], [c15], [c16], [c17], [c18], [c19], [c20], [c21], [c22], [c23], [c24], [c25]]) 1))) 2))).set 3 (natStr (parityVal (([['0'], ['0'], [c0], ['0'], [c1], [c2], [c3], ['0'], [c4], [c5], [c6], [c7], [c8], [c9], [c10], ['0'], [c11], [c12], [c13], [c14], [c15], [c16], [c17], [c18], [c19], [c20], [c21], [c22], [c23], [c24], [c25]].set 0 (natStr (parityVal ([['0'], ['0'], [c0], ['0'], [c1], [c2], [c3], ['0'], [c4], [c5], [c6], [c7], [c8], [c9], [c10], ['0'], [c11], [c12], [c13], [c14], [c15], [c16], [c17], [c18], [c19], [c20], [c21], [c22], [c23], [c24], [c25]]) 1))).set 1 (natStr (parityVal ([['0'], ['0'], [c0], ['0'], [c1], [c2], [c3], ['0'], [c4], [c5], [c6], [c7], [c8], [c9], [c10], ['0'], [c11], [c12], [c13], [c14], [c15], [c16], [c17], [c18], [c19], [c20], [c21], [c22], [c23], [c24], [c25]].set 0 (natStr (parityVal ([['0'], ['0'], [c0], ['0'], [c1], [c2], [c3], ['0'], [c4], [c5], [c6], [c7], [c8], [c9], [c10], ['0'], [c11], [c12], [c13], [c14], [c15], [c16], [c17], [c18], [c19], [c20], [c21], [c22], [c23], [c24], [c25]]) 1))) 2))) 4))) 8))) 16) := by
    refine parityAt_ok _ _ ?_
    intro pos hpos hq
    rw [show List.range' 1 31 = [1, 2, 3, 4, 5, 6, 7, 8, 9, 10, 11, 12, 13, 14, 15, 16, 17, 18, 19, 20, 21, 22, 23, 24, 25, 26, 27, 28, 29, 30, 31] from rfl] at hpos
    fin_cases hpos
    · exact (hq (by decide)).elim
    · exact (hq (by decide)).elim
    · exact (hq (by decide)).elim
    · exact (hq (by decide)).elim
    · exact (hq (by decide)).elim
    · exact (hq (by decide)).elim
    · exact (hq (by decide)).elim
    · exact (hq (by decide)).elim
    · exact (hq (by decide)).elim
    · exact (hq (by decide)).elim
    · exact (hq (by decide)).elim
    · exact (hq (by decide)).elim
    · exact (hq (by decide)).elim
    · exact (hq (by decide)).elim
    · exact (hq (by decide)).elim
    · exact ⟨0, pyInt_zero⟩
    · exact ⟨_, pyInt_digit hd11⟩
    · exact ⟨_, pyInt_digit hd12⟩
    · exact ⟨_, pyInt_digit hd13⟩
    · exact ⟨_, pyInt_digit hd14⟩
    · exact ⟨_, pyInt_digit hd15⟩
    · exact ⟨_, pyInt_digit hd16⟩
    · exact ⟨_, pyInt_digit hd17⟩
    · exact ⟨_, pyInt_digit hd18⟩
    · exact ⟨_, pyInt_digit hd19⟩
    · exact ⟨_, pyInt_digit hd20⟩
    · exact ⟨_, pyInt_digit hd21⟩
    · exact ⟨_, pyInt_digit hd22⟩
    · exact ⟨_, pyInt_digit hd23⟩
    · exact ⟨_, pyInt_digit hd24⟩
    · exact ⟨_, pyInt_digit hd25⟩
  apply Exists.intro
  rw [show encode_hamming_31_26 [c0, c1, c2, c3, c4, c5, c6, c7, c8, c9, c10, c11, c12, c13, c14, c15, c16, c17, c18, c19, c20, c21, c22, c23, c24, c25] =
      (encodeLoop (fillData [c0, c1, c2, c3, c4, c5, c6, c7, c8, c9, c10, c11, c12, c13, c14, c15, c16, c17, c18, c19, c20, c21, c22, c23, c24, c25]).1 parity_positions >>= fun cw => pure cw.flatten)
      from rfl, hf,
    show parity_positions = 1 :: [2, 4, 8, 16] from rfl]
  rw [encodeLoop_cons, q1, except_bind_ok]
  rw [show [['0'], ['0'], [c0], ['0'], [c1], [c2], [c3], ['0'], [c4], [c5], [c6], [c7], [c8], [c9], [c10], ['0'], [c11], [c12], [c13], [c14], [c15], [c16], [c17], [c18], [c19], [c20], [c21], [c22], [c23], [c24], [c25]].set (1 - 1) (natStr (parityVal ([['0'], ['0'], [c0], ['0'], [c1], [c2], [c3], ['0'], [c4], [c5], [c6], [c7], [c8], [c9], [c10], ['0'], [c11], [c12], [c13], [c14], [c15], [c16], [c17], [c18], [c19], [c20], [c21], [c22], [c23], [c24], [c25]]) 1)) = [['0'], ['0'], [c0], ['0'], [c1], [c2], [c3], ['0'], [c4], [c5], [c6], [c7], [c8], [c9], [c10], ['0'], [c11], [c12], [c13], [c14], [c15], [c16], [c17], [c18], [c19], [c20], [c21], [c22], [c23], [c24], [c25]].set 0 (natStr (parityVal ([['0'], ['0'], [c0], ['0'], [c1], [c2], [c3], ['0'], [c4], [c5], [c6], [c7], [c8], [c9], [c10], ['0'], [c11], [c12], [c13], [c14], [c15], [c16], [c17], [c18], [c19], [c20], [c21], [c22], [c23], [c24], [c25]]) 1)) from rfl]
  rw [show ([2, 4, 8, 16] : List Nat) = 2 :: [4, 8, 16] from rfl]
  rw [encodeLoop_cons, q2, except_bind_ok]
  rw [show ([['0'], ['0'], [c0], ['0'], [c1], [c2], [c3], ['0'], [c4], [c5], [c6], [c7], [c8], [c9], [c10], ['0'], [c11], [c12], [c13], [c14], [c15], [c16], [c17], [c18], [c19], [c20], [c21], [c22], [c23], [c24], [c25]].set 0 (natStr (parityVal ([['0'], ['0'], [c0], ['0'], [c1], [c2], [c3], ['0'], [c4], [c5], [c6], [c7], [c8], [c9], [c10], ['0'], [c11], [c12], [c13], [c14], [c15], [c16], [c17], [c18], [c19], [c20], [c21], [c22], [c23], [c24], [c25]]) 1))).set (2 - 1) (natStr (parityVal ([['0'], ['0'], [c0], ['0'], [c1], [c2], [c3], ['0'], [c4], [c5], [c6], [c7], [c8], [c9], [c10], ['0'], [c11], [c12], [c13], [c14], [c15], [c16], [c17], [c18], [c19], [c20], [c21], [c22], [c23], [c24], [c25]].set 0 (natStr (parityVal ([['0'], ['0'], [c0], ['0'], [c1], [c2], [c3], ['0'], [c4], [c5], [c6], [c7], [c8], [c9], [c10], ['0'], [c11], [c12], [c13], [c14], [c15], [c16], [c17], [c18], [c19], [c20], [c21], [c22], [c23], [c24], [c25]]) 1))) 2)) = ([['0'], ['0'], [c0], ['0'], [c1], [c2], [c3], ['0'], [c4], [c5], [c6], [c7], [c8], [c9], [c10], ['0'], [c11], [c12], [c13], [c14], [c15], [c16], [c17], [c18], [c19], [c20], [c21], [c22], [c23], [c24], [c25]].set 0 (natStr (parityVal ([['0'], ['0'], [c0], ['0'], [c1], [c2], [c3], ['0'], [c4], [c5], [c6], [c7], [c8], [c9], [c10], ['0'], [c11], [c12], [c13], [c14], [c15], [c16], [c17], [c18], [c19], [c20], [c21], [c22], [c23], [c24], [c25]]) 1))).set 1 (natStr (parityVal ([['0'], ['0'], [c0], ['0'], [c1], [c2], [c3], ['0'], [c4], [c5], [c6], [c7], [c8], [c9], [c10], ['0'], [c11], [c12], [c13], [c14], [c15], [c16], [c17], [c18], [c19], [c20], [c21], [c22], [c23], [c24], [c25]].set 0 (natStr (parityVal ([['0'], ['0'], [c0], ['0'], [c1], [c2], [c3], ['0'], [c4], [c5], [c6], [c7], [c8], [c9], [c10], ['0'], [c11], [c12], [c13], [c14], [c15], [c16], [c17], [c18], [c19], [c20], [c21], [c22], [c23], [c24], [c25]]) 1))) 2)) from rfl]
  rw [show ([4, 8, 16] : List Nat) = 4 :: [8, 16] from rfl]
  rw [encodeLoop_cons, q4, except_bind_ok]
  rw [show (([['0'], ['0'], [c0], ['0'], [c1], [c2], [c3], ['0'], [c4], [c5], [c6], [c7], [c8], [c9], [c10], ['0'], [c11], [c12], [c13], [c14], [c15], [c16], [c17], [c18], [c19], [c20], [c21], [c22], [c23], [c24], [c25]].set 0 (natStr (parityVal ([['0'], ['0'], [c0], ['0'], [c1], [c2], [c3], ['0'], [c4], [c5], [c6], [c7], [c8], [c9], [c10], ['0'], [c11], [c12], [c13], [c14], [c15], [c16], [c17], [c18], [c19], [c20], [c21], [c22], [c23], [c24], [c25]]) 1))).set 1 (natStr (parityVal ([['0'], ['0'], [c0], ['0'], [c1], [c2], [c3], ['0'], [c4], [c5], [c6], [c7], [c8], [c9], [c10], ['0'], [c11], [c12], [c13], [c14], [c15], [c16], [c17], [c18], [c19], [c20], [c21], [c22], [c23], [c24], [c25]].set 0 (natStr (parityVal ([['0'], ['0'], [c0], ['0'], [c1], [c2], [c3], ['0'], [c4], [c5], [c6], [c7], [c8], [c9], [c10], ['0'], [c11], [c12], [c13], [c14], [c15], [c16], [c17], [c18], [c19], [c20], [c21], [c22], [c23], [c24], [c25]]) 1))) 2))).set (4 - 1) (natStr (parityVal (([['0'], ['0'], [c0], ['0'], [c1], [c2], [c3], ['0'], [c4], [c5], [c6], [c7], [c8], [c9], [c10], ['0'], [c11], [c12], [c13], [c14], [c15], [c16], [c17], [c18], [c19], [c20], [c21], [c22], [c23], [c24], [c25]].set 0 (natStr (parityVal ([['0'], ['0'], [c0], ['0'], [c1], [c2], [c3], ['0'], [c4], [c5], [c6], [c7], [c8], [c9], [c10], ['0'], [c11], [c12], [c13], [c14], [c15], [c16], [c17], [c18], [c19], [c20], [c21], [c22], [c23], [c24], [c25]]) 1))).set 1 (natStr (parityVal ([['0'], ['0'], [c0], ['0'], [c1], [c2], [c3], ['0'], [c4], [c5], [c6], [c7], [c8], [c9], [c10], ['0'], [c11], [c12], [c13], [c14], [c15], [c16], [c17], [c18], [c19], [c20], [c21], [c22], [c23], [c24], [c25]].set 0 (natStr (parityVal ([['0'], ['0'], [c0], ['0'], [c1], [c2], [c3], ['0'], [c4], [c5], [c6], [c7], [c8], [c9], [c10], ['0'], [c11], [c12], [c13], [c14], [c15], [c16], [c17], [c18], [c19], [c20], [c21], [c22], [c23], [c24], [c25]]) 1))) 2))) 4)) = (([['0'], ['0'], [c0], ['0'], [c1], [c2], [c3], ['0'], [c4], [c5], [c6], [c7], [c8], [c9], [c10], ['0'], [c11], [c12], [c13], [c14], [c15], [c16], [c17], [c18], [c19], [c20], [c21], [c22], [c23], [c24], [c25]].set 0 (natStr (parityVal ([['0'], ['0'], [c0], ['0'], [c1], [c2], [c3], ['0'], [c4], [c5], [c6], [c7], [c8], [c9], [c10], ['0'], [c11], [c12], [c13], [c14], [c15], [c16], [c17], [c18], [c19], [c20], [c21], [c22], [c23], [c24], [c25]]) 1))).set 1 (natStr (parityVal ([['0'], ['0'], [c0], ['0'], [c1], [c2], [c3], ['0'], [c4], [c5], [c6], [c7], [c8], [c9], [c10], ['0'], [c11], [c12], [c13], [c14], [c15], [c16], [c17], [c18], [c19], [c20], [c21], [c22], [c23], [c24], [c25]].set 0 (natStr (parityVal ([['0'], ['0'], [c0], ['0'], [c1], [c2], [c3], ['0'], [c4], [c5], [c6], [c7], [c8], [c9], [c10], ['0'], [c11], [c12], [c13], [c14], [c15], [c16], [c17], [c18], [c19], [c20], [c21], [c22], [c23], [c24], [c25]]) 1))) 2))).set 3 (natStr (parityVal (([['0'], ['0'], [c0], ['0'], [c1], [c2], [c3], ['0'], [c4], [c5], [c6], [c7], [c8], [c9], [c10], ['0'], [c11], [c12], [c13], [c14], [c15], [c16], [c17], [c18], [c19], [c20], [c21], [c22], [c23], [c24], [c25]].set 0 (natStr (parityVal ([['0'], ['0'], [c0], ['0'], [c1], [c2], [c3], ['0'], [c4], [c5], [c6], [c7], [c8], [c9], [c10], ['0'], [c11], [c12], [c13], [c14], [c15], [c16], [c17], [c18], [c19], [c20], [c21], [c22], [c23], [c24], [c25]]) 1))).set 1 (natStr (parityVal ([['0'], ['0'], [c0], ['0'], [c1], [c2], [c3], ['0'], [c4], [c5], [c6], [c7], [c8], [c9], [c10], ['0'], [c11], [c12], [c13], [c14], [c15], [c16], [c17], [c18], [c19], [c20], [c21], [c22], [c23], [c24], [c25]].set 0 (natStr (parityVal ([['0'], ['0'], [c0], ['0'], [c1], [c2], [c3], ['0'], [c4], [c5], [c6], [c7], [c8], [c9], [c10], ['0'], [c11], [c12], [c13], [c14], [c15], [c16], [c17], [c18], [c19], [c20], [c21], [c22], [c23], [c24], [c25]]) 1))) 2))) 4)) from rfl]
  rw [show ([8, 16] : List Nat) = 8 :: [16] from rfl]
  rw [encodeLoop_cons, q8, except_bind_ok]
  rw [show ((([['0'], ['0'], [c0], ['0'], [c1], [c2], [c3], ['0'], [c4], [c5], [c6], [c7], [c8], [c9], [c10], ['0'], [c11], [c12], [c13], [c14], [c15], [c16], [c17], [c18], [c19], [c20], [c21], [c22], [c23], [c24], [c25]].set 0 (natStr (parityVal ([['0'], ['0'], [c0], ['0'], [c1], [c2], [c3], ['0'], [c4], [c5], [c6], [c7], [c8], [c9], [c10], ['0'], [c11], [c12], [c13], [c14], [c15], [c16], [c17], [c18], [c19], [c20], [c21], [c22], [c23], [c24], [c25]]) 1))).set 1 (natStr (parityVal ([['0'], ['0'], [c0], ['0'], [c1], [c2], [c3], ['0'], [c4], [c5], [c6], [c7], [c8], [c9], [c10], ['0'], [c11], [c12], [c13], [c14], [c15], [c16], [c17], [c18], [c19], [c20], [c21], [c22], [c23], [c24], [c25]].set 0 (natStr (parityVal ([['0'], ['0'], [c0], ['0'], [c1], [c2], [c3], ['0'], [c4], [c5], [c6], [c7], [c8], [c9], [c10], ['0'], [c11], [c12], [c13], [c14], [c15], [c16], [c17], [c18], [c19], [c20], [c21], [c22], [c23], [c24], [c25]]) 1))) 2))).set 3 (natStr (parityVal (([['0'], ['0'], [c0], ['0'], [c1], [c2], [c3], ['0'], [c4], [c5], [c6], [c7], [c8], [c9], [c10], ['0'], [c11], [c12], [c13], [c14], [c15], [c16], [c17], [c18], [c19], [c20], [c21], [c22], [c23], [c24], [c25]].set 0 (natStr (parityVal ([['0'], ['0'], [c0], ['0'], [c1], [c2], [c3], ['0'], [c4], [c5], [c6], [c7], [c8], [c9], [c10], ['0'], [c11], [c12], [c13], [c14], [c15], [c16], [c17], [c18], [c19], [c20], [c21], [c22], [c23], [c24], [c25]]) 1))).set 1 (natStr (parityVal ([['0'], ['0'], [c0], ['0'], [c1], [c2], [c3], ['0'], [c4], [c5], [c6], [c7], [c8], [c9], [c10], ['0'], [c11], [c12], [c13], [c14], [c15], [c16], [c17], [c18], [c19], [c20], [c21], [c22], [c23], [c24], [c25]].set 0 (natStr (parityVal ([['0'], ['0'], [c0], ['0'], [c1], [c2], [c3], ['0'], [c4], [c5], [c6], [c7], [c8], [c9], [c10], ['0'], [c11], [c12], [c13], [c14], [c15], [c16], [c17], [c18], [c19], [c20], [c21], [c22], [c23], [c24], [c25]]) 1))) 2))) 4))).set (8 - 1) (natStr (parityVal ((([['0'], ['0'], [c0], ['0'], [c1], [c2], [c3], ['0'], [c4], [c5], [c6], [c7], [c8], [c9], [c10], ['0'], [c11], [c12], [c13], [c14], [c15], [c16], [c17], [c18], [c19], [c20], [c21], [c22], [c23], [c24], [c25]].set 0 (natStr (parityVal ([['0'], ['0'], [c0], ['0'], [c1], [c2], [c3], ['0'], [c4], [c5], [c6], [c7], [c8], [c9], [c10], ['0'], [c11], [c12], [c13], [c14], [c15], [c16], [c17], [c18], [c19], [c20], [c21], [c22], [c23], [c24], [c25]]) 1))).set 1 (natStr (parityVal ([['0'], ['0'], [c0], ['0'], [c1], [c2], [c3], ['0'], [c4], [c5], [c6], [c7], [c8], [c9], [c10], ['0'], [c11], [c12], [c13], [c14], [c15], [c16], [c17], [c18], [c19], [c20], [c21], [c22], [c23], [c24], [c25]].set 0 (natStr (parityVal ([['0'], ['0'], [c0], ['0'], [c1], [c2], [c3], ['0'], [c4], [c5], [c6], [c7], [c8], [c9], [c10], ['0'], [c11], [c12], [c13], [c14], [c15], [c16], [c17], [c18], [c19], [c20], [c21], [c22], [c23], [c24], [c25]]) 1))) 2))).set 3 (natStr (parityVal (([['0'], ['0'], [c0], ['0'], [c1], [c2], [c3], ['0'], [c4], [c5], [c6], [c7], [c8], [c9], [c10], ['0'], [c11], [c12], [c13], [c14], [c15], [c16], [c17], [c18], [c19], [c20], [c21], [c22], [c23], [c24], [c25]].set 0 (natStr (parityVal ([['0'], ['0'], [c0], ['0'], [c1], [c2], [c3], ['0'], [c4], [c5], [c6], [c7], [c8], [c9], [c10], ['0'], [c11], [c12], [c13], [c14], [c15], [c16], [c17], [c18], [c19], [c20], [c21], [c22], [c23], [c24], [c25]]) 1))).set 1 (natStr (parityVal ([['0'], ['0'], [c0], ['0'], [c1], [c2], [c3], ['0'], [c4], [c5], [c6], [c7], [c8], [c9], [c10], ['0'], [c11], [c12], [c13], [c14], [c15], [c16], [c17], [c18], [c19], [c20], [c21], [c22], [c23], [c24], [c25]].set 0 (natStr (parityVal ([['0'], ['0'], [c0], ['0'], [c1], [c2], [c3], ['0'], [c4], [c5], [c6], [c7], [c8], [c9], [c10], ['0'], [c11], [c12], [c13], [c14], [c15], [c16], [c17], [c18], [c19], [c20], [c21], [c22], [c23], [c24], [c25]]) 1))) 2))) 4))) 8)) = ((([['0'], ['0'], [c0], ['0'], [c1], [c2], [c3], ['0'], [c4], [c5], [c6], [c7], [c8], [c9], [c10], ['0'], [c11], [c12], [c13], [c14], [c15], [c16], [c17], [c18], [c19], [c20], [c21], [c22], [c23], [c24], [c25]].set 0 (natStr (parityVal ([['0'], ['0'], [c0], ['0'], [c1], [c2], [c3], ['0'], [c4], [c5], [c6], [c7], [c8], [c9], [c10], ['0'], [c11], [c12], [c13], [c14], [c15], [c16], [c17], [c18], [c19], [c20], [c21], [c22], [c23], [c24], [c25]]) 1))).set 1 (natStr (parityVal ([['0'], ['0'], [c0], ['0'], [c1], [c2], [c3], ['0'], [c4], [c5], [c6], [c7], [c8], [c9], [c10], ['0'], [c11], [c12], [c13], [c14], [c15], [c16], [c17], [c18], [c19], [c20], [c21], [c22], [c23], [c24], [c25]].set 0 (natStr (parityVal ([['0'], ['0'], [c0], ['0'], [c1], [c2], [c3], ['0'], [c4], [c5], [c6], [c7], [c8], [c9], [c10], ['0'], [c11], [c12], [c13], [c14], [c15], [c16], [c17], [c18], [c19], [c20], [c21], [c22], [c23], [c24], [c25]]) 1))) 2))).set 3 (natStr (parityVal (([['0'], ['0'], [c0], ['0'], [c1], [c2], [c3], ['0'], [c4], [c5], [c6], [c7], [c8], [c9], [c10], ['0'], [c11], [c12], [c13], [c14], [c15], [c16], [c17], [c18], [c19], [c20], [c21], [c22], [c23], [c24], [c25]].set 0 (natStr (parityVal ([['0'], ['0'], [c0], ['0'], [c1], [c2], [c3], ['0'], [c4], [c5], [c6], [c7], [c8], [c9], [c10], ['0'], [c11], [c12], [c13], [c14], [c15], [c16], [c17], [c18], [c19], [c20], [c21], [c22], [c23], [c24], [c25]]) 1))).set 1 (natStr (parityVal ([['0'], ['0'], [c0], ['0'], [c1], [c2], [c3], ['0'], [c4], [c5], [c6], [c7], [c8], [c9], [c10], ['0'], [c11], [c12], [c13], [c14], [c15], [c16], [c17], [c18], [c19], [c20], [c21], [c22], [c23], [c24], [c25]].set 0 (natStr (parityVal ([['0'], ['0'], [c0], ['0'], [c1], [c2], [c3], ['0'], [c4], [c5], [c6], [c7], [c8], [c9], [c10], ['0'], [c11], [c12], [c13], [c14], [c15], [c16], [c17], [c18], [c19], [c20], [c21], [c22], [c23], [c24], [c25]]) 1))) 2))) 4))).set 7 (natStr (parityVal ((([['0'], ['0'], [c0], ['0'], [c1], [c2], [c3], ['0'], [c4], [c5], [c6], [c7], [c8], [c9], [c10], ['0'], [c11], [c12], [c13], [c14], [c15], [c16], [c17], [c18], [c19], [c20], [c21], [c22], [c23], [c24], [c25]].set 0 (natStr (parityVal ([['0'], ['0'], [c0], ['0'], [c1], [c2], [c3], ['0'], [c4], [c5], [c6], [c7], [c8], [c9], [c10], ['0'], [c11], [c12], [c13], [c14], [c15], [c16], [c17], [c18], [c19], [c20], [c21], [c22], [c23], [c24], [c25]]) 1))).set 1 (natStr (parityVal ([['0'], ['0'], [c0], ['0'], [c1], [c2], [c3], ['0'], [c4], [c5], [c6], [c7], [c8], [c9], [c10], ['0'], [c11], [c12], [c13], [c14], [c15], [c16], [c17], [c18], [c19], [c20], [c21], [c22], [c23], [c24], [c25]].set 0 (natStr (parityVal ([['0'], ['0'], [c0], ['0'], [c1], [c2], [c3], ['0'], [c4], [c5], [c6], [c7], [c8], [c9], [c10], ['0'], [c11], [c12], [c13], [c14], [c15], [c16], [c17], [c18], [c19], [c20], [c21], [c22], [c23], [c24], [c25]]) 1))) 2))).set 3 (natStr (parityVal (([['0'], ['0'], [c0], ['0'], [c1], [c2], [c3], ['0'], [c4], [c5], [c6], [c7], [c8], [c9], [c10], ['0'], [c11], [c12], [c13], [c14], [c15], [c16], [c17], [c18], [c19], [c20], [c21], [c22], [c23], [c24], [c25]].set 0 (natStr (parityVal ([['0'], ['0'], [c0], ['0'], [c1], [c2], [c3], ['0'], [c4], [c5], [c6], [c7], [c8], [c9], [c10], ['0'], [c11], [c12], [c13], [c14], [c15], [c16], [c17], [c18], [c19], [c20], [c21], [c22], [c23], [c24], [c25]]) 1))).set 1 (natStr (parityVal ([['0'], ['0'], [c0], ['0'], [c1], [c2], [c3], ['0'], [c4], [c5], [c6], [c7], [c8], [c9], [c10], ['0'], [c11], [c12], [c13], [c14], [c15], [c16], [c17], [c18], [c19], [c20], [c21], [c22], [c23], [c24], [c25]].set 0 (natStr (parityVal ([['0'], ['0'], [c0], ['0'], [c1], [c2], [c3], ['0'], [c4], [c5], [c6], [c7], [c8], [c9], [c10], ['0'], [c11], [c12], [c13], [c14], [c15], [c16], [c17], [c18], [c19], [c20], [c21], [c22], [c23], [c24], [c25]]) 1))) 2))) 4))) 8)) from rfl]
  rw [show ([16] : List Nat) = 16 :: [] from rfl]
  rw [encodeLoop_cons, q16, except_bind_ok]
  rw [show (((([['0'], ['0'], [c0], ['0'], [c1], [c2], [c3], ['0'], [c4], [c5], [c6], [c7], [c8], [c9], [c10], ['0'], [c11], [c12], [c13], [c14], [c15], [c16], [c17], [c18], [c19], [c20], [c21], [c22], [c23], [c24], [c25]].set 0 (natStr (parityVal ([['0'], ['0'], [c0], ['0'], [c1], [c2], [c3], ['0'], [c4], [c5], [c6], [c7], [c8], [c9], [c10], ['0'], [c11], [c12], [c13], [c14], [c15], [c16], [c17], [c18], [c19], [c20], [c21], [c22], [c23], [c24], [c25]]) 1))).set 1 (natStr (parityVal ([['0'], ['0'], [c0], ['0'], [c1], [c2], [c3], ['0'], [c4], [c5], [c6], [c7], [c8], [c9], [c10], ['0'], [c11], [c12], [c13], [c14], [c15], [c16], [c17], [c18], [c19], [c20], [c21], [c22], [c23], [c24], [c25]].set 0 (natStr (parityVal ([['0'], ['0'], [c0], ['0'], [c1], [c2], [c3], ['0'], [c4], [c5], [c6], [c7], [c8], [c9], [c10], ['0'], [c11], [c12], [c13], [c14], [c15], [c16], [c17], [c18], [c19], [c20], [c21], [c22], [c23], [c24], [c25]]) 1))) 2))).set 3 (natStr (parityVal (([['0'], ['0'], [c0], ['0'], [c1], [c2], [c3], ['0'], [c4], [c5], [c6], [c7], [c8], [c9], [c10], ['0'], [c11], [c12], [c13], [c14], [c15], [c16], [c17], [c18], [c19], [c20], [c21], [c22], [c23], [c24], [c25]].set 0 (natStr (parityVal ([['0'], ['0'], [c0], ['0'], [c1], [c2], [c3], ['0'], [c4], [c5], [c6], [c7], [c8], [c9], [c10], ['0'], [c11], [c12], [c13], [c14], [c15], [c16], [c17], [c18], [c19], [c20], [c21], [c22], [c23], [c24], [c25]]) 1))).set 1 (natStr (parityVal ([['0'], ['0'], [c0], ['0'], [c1], [c2], [c3], ['0'], [c4], [c5], [c6], [c7], [c8], [c9], [c10], ['0'], [c11], [c12], [c13], [c14], [c15], [c16], [c17], [c18], [c19], [c20], [c21], [c22], [c23], [c24], [c25]].set 0 (natStr (parityVal ([['0'], ['0'], [c0], ['0'], [c1], [c2], [c3], ['0'], [c4], [c5], [c6], [c7], [c8], [c9], [c10], ['0'], [c11], [c12], [c13], [c14], [c15], [c16], [c17], [c18], [c19], [c20], [c21], [c22], [c23], [c24], [c25]]) 1))) 2))) 4))).set 7 (natStr (parityVal ((([['0'], ['0'], [c0], ['0'], [c1], [c2], [c3], ['0'], [c4], [c5], [c6], [c7], [c8], [c9], [c10], ['0'], [c11], [c12], [c13], [c14], [c15], [c16], [c17], [c18], [c19], [c20], [c21], [c22], [c23], [c24], [c25]].set 0 (natStr (parityVal ([['0'], ['0'], [c0], ['0'], [c1], [c2], [c3], ['0'], [c4], [c5], [c6], [c7], [c8], [c9], [c10], ['0'], [c11], [c12], [c13], [c14], [c15], [c16], [c17], [c18], [c19], [c20], [c21], [c22], [c23], [c24], [c25]]) 1))).set 1 (natStr (parityVal ([['0'], ['0'], [c0], ['0'], [c1], [c2], [c3], ['0'], [c4], [c5], [c6], [c7], [c8], [c9], [c10], ['0'], [c11], [c12], [c13], [c14], [c15], [c16], [c17], [c18], [c19], [c20], [c21], [c22], [c23], [c24], [c25]].set 0 (natStr (parityVal ([['0'], ['0'], [c0], ['0'], [c1], [c2], [c3], ['0'], [c4], [c5], [c6], [c7], [c8], [c9], [c10], ['0'], [c11], [c12], [c13], [c14], [c15], [c16], [c17], [c18], [c19], [c20], [c21], [c22], [c23], [c24], [c25]]) 1))) 2))).set 3 (natStr (parityVal (([['0'], ['0'], [c0], ['0'], [c1], [c2], [c3], ['0'], [c4], [c5], [c6], [c7], [c8], [c9], [c10], ['0'], [c11], [c12], [c13], [c14], [c15], [c16], [c17], [c18], [c19], [c20], [c21], [c22], [c23], [c24], [c25]].set 0 (natStr (parityVal ([['0'], ['0'], [c0], ['0'], [c1], [c2], [c3], ['0'], [c4], [c5], [c6], [c7], [c8], [c9], [c10], ['0'], [c11], [c12], [c13], [c14], [c15], [c16], [c17], [c18], [c19], [c20], [c21], [c22], [c23], [c24], [c25]]) 1))).set 1 (natStr (parityVal ([['0'], ['0'], [c0], ['0'], [c1], [c2], [c3], ['0'], [c4], [c5], [c6], [c7], [c8], [c9], [c10], ['0'], [c11], [c12], [c13], [c14], [c15], [c16], [c17], [c18], [c19], [c20], [c21], [c22], [c23], [c24], [c25]].set 0 (natStr (parityVal ([['0'], ['0'], [c0], ['0'], [c1], [c2], [c3], ['0'], [c4], [c5], [c6], [c7], [c8], [c9], [c10], ['0'], [c11], [c12], [c13], [c14], [c15], [c16], [c17], [c18], [c19], [c20], [c21], [c22], [c23], [c24], [c25]]) 1))) 2))) 4))) 8))).set (16 - 1) (natStr (parityVal (((([['0'], ['0'], [c0], ['0'], [c1], [c2], [c3], ['0'], [c4], [c5], [c6], [c7], [c8], [c9], [c10], ['0'], [c11], [c12], [c13], [c14], [c15], [c16], [c17], [c18], [c19], [c20], [c21], [c22], [c23], [c24], [c25]].set 0 (natStr (parityVal ([['0'], ['0'], [c0], ['0'], [c1], [c2], [c3], ['0'], [c4], [c5], [c6], [c7], [c8], [c9], [c10], ['0'], [c11], [c12], [c13], [c14], [c15], [c16], [c17], [c18], [c19], [c20], [c21], [c22], [c23], [c24], [c25]]) 1))).set 1 (natStr (parityVal ([['0'], ['0'], [c0], ['0'], [c1], [c2], [c3], ['0'], [c4], [c5], [c6], [c7], [c8], [c9], [c10], ['0'], [c11], [c12], [c13], [c14], [c15], [c16], [c17], [c18], [c19], [c20], [c21], [c22], [c23], [c24], [c25]].set 0 (natStr (parityVal ([['0'], ['0'], [c0], ['0'], [c1], [c2], [c3], ['0'], [c4], [c5], [c6], [c7], [c8], [c9], [c10], ['0'], [c11], [c12], [c13], [c14], [c15], [c16], [c17], [c18], [c19], [c20], [c21], [c22], [c23], [c24], [c25]]) 1))) 2))).set 3 (natStr (parityVal (([['0'], ['0'], [c0], ['0'], [c1], [c2], [c3], ['0'], [c4], [c5], [c6], [c7], [c8], [c9], [c10], ['0'], [c11], [c12], [c13], [c14], [c15], [c16], [c17], [c18], [c19], [c20], [c21], [c22], [c23], [c24], [c25]].set 0 (natStr (parityVal ([['0'], ['0'], [c0], ['0'], [c1], [c2], [c3], ['0'], [c4], [c5], [c6], [c7], [c8], [c9], [c10], ['0'], [c11], [c12], [c13], [c14], [c15], [c16], [c17], [c18], [c19], [c20], [c21], [c22], [c23], [c24], [c25]]) 1))).set 1 (natStr (parityVal ([['0'], ['0'], [c0], ['0'], [c1], [c2], [c3], ['0'], [c4], [c5], [c6], [c7], [c8], [c9], [c10], ['0'], [c11], [c12], [c13], [c14], [c15], [c16], [c17], [c18], [c19], [c20], [c21], [c22], [c23], [c24], [c25]].set 0 (natStr (parityVal ([['0'], ['0'], [c0], ['0'], [c1], [c2], [c3], ['0'], [c4], [c5], [c6], [c7], [c8], [c9], [c10], ['0'], [c11], [c12], [c13], [c14], [c15], [c16], [c17], [c18], [c19], [c20], [c21], [c22], [c23], [c24], [c25]]) 1))) 2))) 4))).set 7 (natStr (parityVal ((([['0'], ['0'], [c0], ['0'], [c1], [c2], [c3], ['0'], [c4], [c5], [c6], [c7], [c8], [c9], [c10], ['0'], [c11], [c12], [c13], [c14], [c15], [c16], [c17], [c18], [c19], [c20], [c21], [c22], [c23], [c24], [c25]].set 0 (natStr (parityVal ([['0'], ['0'], [c0], ['0'], [c1], [c2], [c3], ['0'], [c4], [c5], [c6], [c7], [c8], [c9], [c10], ['0'], [c11], [c12], [c13], [c14], [c15], [c16], [c17], [c18], [c19], [c20], [c21], [c22], [c23], [c24], [c25]]) 1))).set 1 (natStr (parityVal ([['0'], ['0'], [c0], ['0'], [c1], [c2], [c3], ['0'], [c4], [c5], [c6], [c7], [c8], [c9], [c10], ['0'], [c11], [c12], [c13], [c14], [c15], [c16], [c17], [c18], [c19], [c20], [c21], [c22], [c23], [c24], [c25]].set 0 (natStr (parityVal ([['0'], ['0'], [c0], ['0'], [c1], [c2], [c3], ['0'], [c4], [c5], [c6], [c7], [c8], [c9], [c10], ['0'], [c11], [c12], [c13], [c14], [c15], [c16], [c17], [c18], [c19], [c20], [c21], [c22], [c23], [c24], [c25]]) 1))) 2))).set 3 (natStr (parityVal (([['0'], ['0'], [c0], ['0'], [c1], [c2], [c3], ['0'], [c4], [c5], [c6], [c7], [c8], [c9], [c10], ['0'], [c11], [c12], [c13], [c14], [c15], [c16], [c17], [c18], [c19], [c20], [c21], [c22], [c23], [c24], [c25]].set 0 (natStr (parityVal ([['0'], ['0'], [c0], ['0'], [c1], [c2], [c3], ['0'], [c4], [c5], [c6], [c7], [c8], [c9], [c10], ['0'], [c11], [c12], [c13], [c14], [c15], [c16], [c17], [c18], [c19], [c20], [c21], [c22], [c23], [c24], [c25]]) 1))).set 1 (natStr (parityVal ([['0'], ['0'], [c0], ['0'], [c1], [c2], [c3], ['0'], [c4], [c5], [c6], [c7], [c8], [c9], [c10], ['0'], [c11], [c12], [c13], [c14], [c15], [c16], [c17], [c18], [c19], [c20], [c21], [c22], [c23], [c24], [c25]].set 0 (natStr (parityVal ([['0'], ['0'], [c0], ['0'], [c1], [c2], [c3], ['0'], [c4], [c5], [c6], [c7], [c8], [c9], [c10], ['0'], [c11], [c12], [c13], [c14], [c15], [c16], [c17], [c18], [c19], [c20], [c21], [c22], [c23], [c24], [c25]]) 1))) 2))) 4))) 8))) 16)) = (((([['0'], ['0'], [c0], ['0'], [c1], [c2], [c3], ['0'], [c4], [c5], [c6], [c7], [c8], [c9], [c10], ['0'], [c11], [c12], [c13], [c14], [c15], [c16], [c17], [c18], [c19], [c20], [c21], [c22], [c23], [c24], [c25]].set 0 (natStr (parityVal ([['0'], ['0'], [c0], ['0'], [c1], [c2], [c3], ['0'], [c4], [c5], [c6], [c7], [c8], [c9], [c10], ['0'], [c11], [c12], [c13], [c14], [c15], [c16], [c17], [c18], [c19], [c20], [c21], [c22], [c23], [c24], [c25]]) 1))).set 1 (natStr (parityVal ([['0'], ['0'], [c0], ['0'], [c1], [c2], [c3], ['0'], [c4], [c5], [c6], [c7], [c8], [c9], [c10], ['0'], [c11], [c12], [c13], [c14], [c15], [c16], [c17], [c18], [c19], [c20], [c21], [c22], [c23], [c24], [c25]].set 0 (natStr (parityVal ([['0'], ['0'], [c0], ['0'], [c1], [c2], [c3], ['0'], [c4], [c5], [c6], [c7], [c8], [c9], [c10], ['0'], [c11], [c12], [c13], [c14], [c15], [c16], [c17], [c18], [c19], [c20], [c21], [c22], [c23], [c24], [c25]]) 1))) 2))).set 3 (natStr (parityVal (([['0'], ['0'], [c0], ['0'], [c1], [c2], [c3], ['0'], [c4], [c5], [c6], [c7], [c8], [c9], [c10], ['0'], [c11], [c12], [c13], [c14], [c15], [c16], [c17], [c18], [c19], [c20], [c21], [c22], [c23], [c24], [c25]].set 0 (natStr (parityVal ([['0'], ['0'], [c0], ['0'], [c1], [c2], [c3], ['0'], [c4], [c5], [c6], [c7], [c8], [c9], [c10], ['0'], [c11], [c12], [c13], [c14], [c15], [c16], [c17], [c18], [c19], [c20], [c21], [c22], [c23], [c24], [c25]]) 1))).set 1 (natStr (parityVal ([['0'], ['0'], [c0], ['0'], [c1], [c2], [c3], ['0'], [c4], [c5], [c6], [c7], [c8], [c9], [c10], ['0'], [c11], [c12], [c13], [c14], [c15], [c16], [c17], [c18], [c19], [c20], [c21], [c22], [c23], [c24], [c25]].set 0 (natStr (parityVal ([['0'], ['0'], [c0], ['0'], [c1], [c2], [c3], ['0'], [c4], [c5], [c6], [c7], [c8], [c9], [c10], ['0'], [c11], [c12], [c13], [c14], [c15], [c16], [c17], [c18], [c19], [c20], [c21], [c22], [c23], [c24], [c25]]) 1))) 2))) 4))).set 7 (natStr (parityVal ((([['0'], ['0'], [c0], ['0'], [c1], [c2], [c3], ['0'], [c4], [c5], [c6], [c7], [c8], [c9], [c10], ['0'], [c11], [c12], [c13], [c14], [c15], [c16], [c17], [c18], [c19], [c20], [c21], [c22], [c23], [c24], [c25]].set 0 (natStr (parityVal ([['0'], ['0'], [c0], ['0'], [c1], [c2], [c3], ['0'], [c4], [c5], [c6], [c7], [c8], [c9], [c10], ['0'], [c11], [c12], [c13], [c14], [c15], [c16], [c17], [c18], [c19], [c20], [c21], [c22], [c23], [c24], [c25]]) 1))).set 1 (natStr (parityVal ([['0'], ['0'], [c0], ['0'], [c1], [c2], [c3], ['0'], [c4], [c5], [c6], [c7], [c8], [c9], [c10], ['0'], [c11], [c12], [c13], [c14], [c15], [c16], [c17], [c18], [c19], [c20], [c21], [c22], [c23], [c24], [c25]].set 0 (natStr (parityVal ([['0'], ['0'], [c0], ['0'], [c1], [c2], [c3], ['0'], [c4], [c5], [c6], [c7], [c8], [c9], [c10], ['0'], [c11], [c12], [c13], [c14], [c15], [c16], [c17], [c18], [c19], [c20], [c21], [c22], [c23], [c24], [c25]]) 1))) 2))).set 3 (natStr (parityVal (([['0'], ['0'], [c0], ['0'], [c1], [c2], [c3], ['0'], [c4], [c5], [c6], [c7], [c8], [c9], [c10], ['0'], [c11], [c12], [c13], [c14], [c15], [c16], [c17], [c18], [c19], [c20], [c21], [c22], [c23], [c24], [c25]].set 0 (natStr (parityVal ([['0'], ['0'], [c0], ['0'], [c1], [c2], [c3], ['0'], [c4], [c5], [c6], [c7], [c8], [c9], [c10], ['0'], [c11], [c12], [c13], [c14], [c15], [c16], [c17], [c18], [c19], [c20], [c21], [c22], [c23], [c24], [c25]]) 1))).set 1 (natStr (parityVal ([['0'], ['0'], [c0], ['0'], [c1], [c2], [c3], ['0'], [c4], [c5], [c6], [c7], [c8], [c9], [c10], ['0'], [c11], [c12], [c13], [c14], [c15], [c16], [c17], [c18], [c19], [c20], [c21], [c22], [c23], [c24], [c25]].set 0 (natStr (parityVal ([['0'], ['0'], [c0], ['0'], [c1], [c2], [c3], ['0'], [c4], [c5], [c6], [c7], [c8], [c9], [c10], ['0'], [c11], [c12], [c13], [c14], [c15], [c16], [c17], [c18], [c19], [c20], [c21], [c22], [c23], [c24], [c25]]) 1))) 2))) 4))) 8))).set 15 (natStr (parityVal (((([['0'], ['0'], [c0], ['0'], [c1], [c2], [c3], ['0'], [c4], [c5], [c6], [c7], [c8], [c9], [c10], ['0'], [c11], [c12], [c13], [c14], [c15], [c16], [c17], [c18], [c19], [c20], [c21], [c22], [c23], [c24], [c25]].set 0 (natStr (parityVal ([['0'], ['0'], [c0], ['0'], [c1], [c2], [c3], ['0'], [c4], [c5], [c6], [c7], [c8], [c9], [c10], ['0'], [c11], [c12], [c13], [c14], [c15], [c16], [c17], [c18], [c19], [c20], [c21], [c22], [c23], [c24], [c25]]) 1))).set 1 (natStr (parityVal ([['0'], ['0'], [c0], ['0'], [c1], [c2], [c3], ['0'], [c4], [c5], [c6], [c7], [c8], [c9], [c10], ['0'], [c11], [c12], [c13], [c14], [c15], [c16], [c17], [c18], [c19], [c20], [c21], [c22], [c23], [c24], [c25]].set 0 (natStr (parityVal ([['0'], ['0'], [c0], ['0'], [c1], [c2], [c3], ['0'], [c4], [c5], [c6], [c7], [c8], [c9], [c10], ['0'], [c11], [c12], [c13], [c14], [c15], [c16], [c17], [c18], [c19], [c20], [c21], [c22], [c23], [c24], [c25]]) 1))) 2))).set 3 (natStr (parityVal (([['0'], ['0'], [c0], ['0'], [c1], [c2], [c3], ['0'], [c4], [c5], [c6], [c7], [c8], [c9], [c10], ['0'], [c11], [c12], [c13], [c14], [c15], [c16], [c17], [c18], [c19], [c20], [c21], [c22], [c23], [c24], [c25]].set 0 (natStr (parityVal ([['0'], ['0'], [c0], ['0'], [c1], [c2], [c3], ['0'], [c4], [c5], [c6], [c7], [c8], [c9], [c10], ['0'], [c11], [c12], [c13], [c14], [c15], [c16], [c17], [c18], [c19], [c20], [c21], [c22], [c23], [c24], [c25]]) 1))).set 1 (natStr (parityVal ([['0'], ['0'], [c0], ['0'], [c1], [c2], [c3], ['0'], [c4], [c5], [c6], [c7], [c8], [c9], [c10], ['0'], [c11], [c12], [c13], [c14], [c15], [c16], [c17], [c18], [c19], [c20], [c21], [c22], [c23], [c24], [c25]].set 0 (natStr (parityVal ([['0'], ['0'], [c0], ['0'], [c1], [c2], [c3], ['0'], [c4], [c5], [c6], [c7], [c8], [c9], [c10], ['0'], [c11], [c12], [c13], [c14], [c15], [c16], [c17], [c18], [c19], [c20], [c21], [c22], [c23], [c24], [c25]]) 1))) 2))) 4))).set 7 (natStr (parityVal ((([['0'], ['0'], [c0], ['0'], [c1], [c2], [c3], ['0'], [c4], [c5], [c6], [c7], [c8], [c9], [c10], ['0'], [c11], [c12], [c13], [c14], [c15], [c16], [c17], [c18], [c19], [c20], [c21], [c22], [c23], [c24], [c25]].set 0 (natStr (parityVal ([['0'], ['0'], [c0], ['0'], [c1], [c2], [c3], ['0'], [c4], [c5], [c6], [c7], [c8], [c9], [c10], ['0'], [c11], [c12], [c13], [c14], [c15], [c16], [c17], [c18], [c19], [c20], [c21], [c22], [c23], [c24], [c25]]) 1))).set 1 (natStr (parityVal ([['0'], ['0'], [c0], ['0'], [c1], [c2], [c3], ['0'], [c4], [c5], [c6], [c7], [c8], [c9], [c10], ['0'], [c11], [c12], [c13], [c14], [c15], [c16], [c17], [c18], [c19], [c20], [c21], [c22], [c23], [c24], [c25]].set 0 (natStr (parityVal ([['0'], ['0'], [c0], ['0'], [c1], [c2], [c3], ['0'], [c4], [c5], [c6], [c7], [c8], [c9], [c10], ['0'], [c11], [c12], [c13], [c14], [c15], [c16], [c17], [c18], [c19], [c20], [c21], [c22], [c23], [c24], [c25]]) 1))) 2))).set 3 (natStr (parityVal (([['0'], ['0'], [c0], ['0'], [c1], [c2], [c3], ['0'], [c4], [c5], [c6], [c7], [c8], [c9], [c10], ['0'], [c11], [c12], [c13], [c14], [c15], [c16], [c17], [c18], [c19], [c20], [c21], [c22], [c23], [c24], [c25]].set 0 (natStr (parityVal ([['0'], ['0'], [c0], ['0'], [c1], [c2], [c3], ['0'], [c4], [c5], [c6], [c7], [c8], [c9], [c10], ['0'], [c11], [c12], [c13], [c14], [c15], [c16], [c17], [c18], [c19], [c20], [c21], [c22], [c23], [c24], [c25]]) 1))).set 1 (natStr (parityVal ([['0'], ['0'], [c0], ['0'], [c1], [c2], [c3], ['0'], [c4], [c5], [c6], [c7], [c8], [c9], [c10], ['0'], [c11], [c12], [c13], [c14], [c15], [c16], [c17], [c18], [c19], [c20], [c21], [c22], [c23], [c24], [c25]].set 0 (natStr (parityVal ([['0'], ['0'], [c0], ['0'], [c1], [c2], [c3], ['0'], [c4], [c5], [c6], [c7], [c8], [c9], [c10], ['0'], [c11], [c12], [c13], [c14], [c15], [c16], [c17], [c18], [c19], [c20], [c21], [c22], [c23], [c24], [c25]]) 1))) 2))) 4))) 8))) 16)) from rfl]
  rfl

/-! ## Lemmas about the chunker -/

theorem chunk_bits_cons (b : Char) (bs : List Char) :
    chunk_bits (b :: bs) =
      (if ((b :: bs).take 26).length < 26 then
        (b :: bs).take 26 ++ List.replicate (26 - ((b :: bs).take 26).length) '0'
       else (b :: bs).take 26) :: chunk_bits ((b :: bs).drop 26) := by
  rw [chunk_bits]

theorem chunk_bits_nil : chunk_bits [] = [] := by
  rw [chunk_bits]

theorem chunk_len_aux :
    ∀ (n : Nat) (bits : List Char), bits.length ≤ n →
      ∀ ch ∈ chunk_bits bits, ch.length = 26 := by
  intro n
  induction n with
  | zero =>
      intro bits hb ch hch
      obtain rfl : bits = [] := List.length_eq_zero.mp (Nat.le_zero.mp hb)
      rw [chunk_bits_nil] at hch
      exact absurd hch (List.not_mem_nil ch)
  | succ n ih =>
      intro bits hb ch hch
      cases bits with
      | nil =>
          rw [chunk_bits_nil] at hch
          exact absurd hch (List.not_mem_nil ch)
      | cons b bs =>
          rw [chunk_bits_cons] at hch
          have htake : ((b :: bs).take 26).length = min 26 (b :: bs).length :=
            List.length_take 26 (b :: bs)
          rcases List.mem_cons.mp hch with rfl | htail
          · split
            · rename_i hlt
              rw [List.length_append, List.length_replicate]
              omega
            · rename_i hge
              omega
          · refine ih ((b :: bs).drop 26) ?_ ch htail
            have : ((b :: bs).drop 26).length = (b :: bs).length - 26 :=
              List.length_drop 26 (b :: bs)
            have hlen : (b :: bs).length = bs.length + 1 := List.length_cons b bs
            omega

theorem chunk_count_aux :
    ∀ (n : Nat) (bits : List Char), bits.length ≤ n →
      (chunk_bits bits).length = (bits.length + 25) / 26 := by
  intro n
  induction n with
  | zero =>
      intro bits hb
      obtain rfl : bits = [] := List.length_eq_zero.mp (Nat.le_zero.mp hb)
      rw [chunk_bits_nil]
      rfl
  | succ n ih =>
      intro bits hb
      cases bits with
      | nil => rw [chunk_bits_nil]; rfl
      | cons b bs =>
          rw [chunk_bits_cons, List.length_cons]
          have hdrop : ((b :: bs).drop 26).length = (b :: bs).length - 26 :=
            List.length_drop 26 (b :: bs)
          have hlen : (b :: bs).length = bs.length + 1 := List.length_cons b bs
          rw [ih ((b :: bs).drop 26) (by omega)]
          omega

theorem main_padding_mod {L M : Nat} (h : L % 26 = M % 26) :
    main_padding L = main_padding M := by
  unfold main_padding
  rw [h]

theorem chunk_flatten_aux :
    ∀ (n : Nat) (bits : List Char), bits.length ≤ n →
      (chunk_bits bits).flatten = bits ++ List.replicate (main_padding bits.length) '0' := by
  intro n
  induction n with
  | zero =>
      intro bits hb
      obtain rfl : bits = [] := List.length_eq_zero.mp (Nat.le_zero.mp hb)
      rw [chunk_bits_nil]
      rfl
  | succ n ih =>
      intro bits hb
      cases bits with
      | nil => rw [chunk_bits_nil]; rfl
      | cons b bs =>
          rw [chunk_bits_cons, List.flatten_cons]
          have hdrop : ((b :: bs).drop 26).length = (b :: bs).length - 26 :=
            List.length_drop 26 (b :: bs)
          have hlen : (b :: bs).length = bs.length + 1 := List.length_cons b bs
          have htake : ((b :: bs).take 26).length = min 26 (b :: bs).length :=
            List.length_take 26 (b :: bs)
          rw [ih ((b :: bs).drop 26) (by omega)]
          by_cases hsmall : (b :: bs).length < 26
          · have htk : (b :: bs).take 26 = b :: bs := List.take_of_length_le (by omega)
            have hdr : (b :: bs).drop 26 = [] := List.drop_eq_nil_of_le (by omega)
            rw [if_pos (by omega), htk, hdr]
            have hpad : main_padding (b :: bs).length = 26 - (b :: bs).length := by
              unfold main_padding
              rw [if_pos (by omega)]
              omega
            rw [hpad, show main_padding ([] : List Char).length = 0 from rfl]
            simp
          · have hpadeq : main_padding ((b :: bs).drop 26).length =
                main_padding (b :: bs).length := by
              refine main_padding_mod ?_
              rw [hdrop]
              omega
            rw [hpadeq]
            by_cases hex : (b :: bs).length = 26
            · have htk : (b :: bs).take 26 = b :: bs := List.take_of_length_le (by omega)
              have hdr : (b :: bs).drop 26 = [] := List.drop_eq_nil_of_le (by omega)
              rw [if_neg (by omega), htk, hdr, List.nil_append]
            · rw [if_neg (by omega), ← List.append_assoc, List.take_append_drop]

/-! ## The claims -/

/-- C1: for every input block of length 26 containing only '0'/'1', the
codeword returned by `encode_hamming_31_26` satisfies even parity: for
every parity position p in {1,2,4,8,16}, the XOR of the codeword bits at
all positions pos in 1..31 with `pos &&& p ≠ 0` (including p itself)
equals 0. -/
theorem claim_C1 (chunk : List Char) (hlen : chunk.length = 26)
    (hbin : ∀ c ∈ chunk, c = '0' ∨ c = '1') :
    ∃ cw, encode_hamming_31_26 chunk = Except.ok cw ∧
      ∀ p ∈ parity_positions, groupXor cw p = 0 := by
  obtain ⟨cw, he, _, _, _, _, _, hpar⟩ := encode_binary_eval chunk hlen hbin
  exact ⟨cw, he, hpar⟩

theorem claim_C1_witness :
    (List.replicate 26 '1').length = 26 ∧
    (∀ c ∈ List.replicate 26 '1', c = '0' ∨ c = '1') ∧
    (∃ cw, encode_hamming_31_26 (List.replicate 26 '1') = Except.ok cw ∧
      ∀ p ∈ parity_positions, groupXor cw p = 0) :=
  ⟨rfl, by decide, claim_C1 (List.replicate 26 '1') rfl (by decide)⟩

/-- C2: for every input block of length 26 containing only '0'/'1',
extracting the codeword's characters at the 26 non-parity positions in
ascending order reproduces the block; the first data bit lands in
position 3 (0-based index 2) and the second in position 5 (index 4). -/
theorem claim_C2 (chunk : List Char) (hlen : chunk.length = 26)
    (hbin : ∀ c ∈ chunk, c = '0' ∨ c = '1') :
    ∃ cw, encode_hamming_31_26 chunk = Except.ok cw ∧
      extractData cw = chunk ∧
      cw.getD 2 ' ' = chunk.getD 0 ' ' ∧
      cw.getD 4 ' ' = chunk.getD 1 ' ' := by
  obtain ⟨cw, he, _, _, hext, h3, h5, _⟩ := encode_binary_eval chunk hlen hbin
  exact ⟨cw, he, hext, h3, h5⟩

theorem claim_C2_witness :
    ('1' :: '0' :: '1' :: List.replicate 23 '0').length = 26 ∧
    (∀ c ∈ ('1' :: '0' :: '1' :: List.replicate 23 '0'), c = '0' ∨ c = '1') ∧
    (∃ cw, encode_hamming_31_26 ('1' :: '0' :: '1' :: List.replicate 23 '0') = Except.ok cw ∧
      extractData cw = ('1' :: '0' :: '1' :: List.replicate 23 '0') ∧
      cw.getD 2 ' ' = ('1' :: '0' :: '1' :: List.replicate 23 '0').getD 0 ' ' ∧
      cw.getD 4 ' ' = ('1' :: '0' :: '1' :: List.replicate 23 '0').getD 1 ' ') :=
  ⟨rfl, by decide, claim_C2 ('1' :: '0' :: '1' :: List.replicate 23 '0') rfl (by decide)⟩

/-- C3 (counterexample): the block `'2'` followed by 25 `'0'`s has length
26 and contains the non-binary character `'2'`, yet `encode_hamming_31_26`
returns a codeword (no error): `int('2')` succeeds, so the encoder
silently produces the non-binary codeword `"222" ++ 28 * "0"`. -/
theorem claim_C3_counterexample :
    ('2' :: List.replicate 25 '0').length = 26 ∧
    '2' ∈ ('2' :: List.replicate 25 '0') ∧ '2' ≠ '0' ∧ '2' ≠ '1' ∧
    encode_hamming_31_26 ('2' :: List.replicate 25 '0') =
      Except.ok ('2' :: '2' :: '2' :: List.replicate 28 '0') :=
  ⟨rfl, by decide, by decide, by decide, rfl⟩

/-- C3 (amended): `encode_hamming_31_26` does not reject every character
outside '0'/'1': any length-26 block of decimal digit characters is
encoded without error (the non-binary digits flow into the codeword), and
an `int(...)` parse error is raised only for characters that are not
digits, such as a letter. -/
theorem claim_C3 :
    (∀ chunk : List Char, chunk.length = 26 → (∀ c ∈ chunk, c.isDigit = true) →
      ∃ cw, encode_hamming_31_26 chunk = Except.ok cw) ∧
    encode_hamming_31_26 (List.replicate 26 'x') =
      Except.error (EncodeError.invalidInt ['x']) :=
  ⟨fun chunk hl hd => encode_digits_eval chunk hl hd, rfl⟩

theorem claim_C3_witness :
    ('2' :: List.replicate 25 '1').length = 26 ∧
    (∀ c ∈ ('2' :: List.replicate 25 '1'), c.isDigit = true) ∧
    (∃ cw, encode_hamming_31_26 ('2' :: List.replicate 25 '1') = Except.ok cw) :=
  ⟨rfl, by decide, claim_C3.1 ('2' :: List.replicate 25 '1') rfl (by decide)⟩

/-- C4: for every non-empty bit string, `chunk_bits` returns exactly
`⌈L/26⌉ = (L + 25) / 26` chunks, and the padding `main` reports is
`(26 - L % 26) % 26`. -/
theorem claim_C4 (bits : List Char) (hne : bits ≠ []) :
    (chunk_bits bits).length = (bits.length + 25) / 26 ∧
    main_padding bits.length = (26 - bits.length % 26) % 26 := by
  refine ⟨chunk_count_aux bits.length bits (Nat.le_refl _), ?_⟩
  unfold main_padding
  split <;> omega

theorem claim_C4_witness :
    List.replicate 52 '0' ≠ ([] : List Char) ∧
    ((chunk_bits (List.replicate 52 '0')).length = ((List.replicate 52 '0').length + 25) / 26 ∧
      main_padding (List.replicate 52 '0').length =
        (26 - (List.replicate 52 '0').length % 26) % 26) :=
  ⟨by decide, claim_C4 (List.replicate 52 '0') (by decide)⟩

/-- C5: for every non-empty bit string, concatenating the chunks returned
by `chunk_bits` reproduces the input followed by `main_padding` many `'0'`
characters appended on the right of the final chunk. -/
theorem claim_C5 (bits : List Char) (hne : bits ≠ []) :
    (chunk_bits bits).flatten = bits ++ List.replicate (main_padding bits.length) '0' :=
  chunk_flatten_aux bits.length bits (Nat.le_refl _)

theorem claim_C5_witness :
    ('1' :: '1' :: '0' :: []) ≠ ([] : List Char) ∧
    (chunk_bits ['1', '1', '0']).flatten =
      ['1', '1', '0'] ++ List.replicate (main_padding (['1', '1', '0'] : List Char).length) '0' :=
  ⟨by decide, claim_C5 ['1', '1', '0'] (by decide)⟩

/-- C6 (counterexample): a length-26 block of letters has length exactly
26, yet `encode_hamming_31_26` raises (`int('a')` fails), refuting
"raises an error if and only if the length is not 26". -/
theorem claim_C6_counterexample :
    (List.replicate 26 'a').length = 26 ∧
    encode_hamming_31_26 (List.replicate 26 'a') =
      Except.error (EncodeError.invalidInt ['a']) :=
  ⟨rfl, rfl⟩

/-- C6 (amended): `encode_hamming_31_26` raises `InvalidBlockLength`
whenever the block length differs from 26, and returns normally on every
length-26 block of '0'/'1' characters; a wrong length is however not the
only error cause (non-digit characters also raise). -/
theorem claim_C6 :
    (∀ chunk : List Char, chunk.length ≠ 26 →
      encode_hamming_31_26 chunk = Except.error (EncodeError.invalidLength chunk.length)) ∧
    (∀ chunk : List Char, chunk.length = 26 → (∀ c ∈ chunk, c = '0' ∨ c = '1') →
      ∃ cw, encode_hamming_31_26 chunk = Except.ok cw) := by
  constructor
  · intro chunk h
    unfold encode_hamming_31_26
    rw [if_pos h]
    rfl
  · intro chunk hl hb
    obtain ⟨cw, he, _, _, _, _, _, _⟩ := encode_binary_eval chunk hl hb
    exact ⟨cw, he⟩

theorem claim_C6_witness :
    (('1' :: '0' :: '1' :: []).length ≠ 26 ∧
      encode_hamming_31_26 ['1', '0', '1'] =
        Except.error (EncodeError.invalidLength (['1', '0', '1'] : List Char).length)) ∧
    ((List.replicate 26 '0').length = 26 ∧
      (∀ c ∈ List.replicate 26 '0', c = '0' ∨ c = '1') ∧
      ∃ cw, encode_hamming_31_26 (List.replicate 26 '0') = Except.ok cw) :=
  ⟨⟨by decide, claim_C6.1 ['1', '0', '1'] (by decide)⟩,
    ⟨rfl, by decide, claim_C6.2 (List.replicate 26 '0') rfl (by decide)⟩⟩

/-- C7: every chunk returned by `chunk_bits` has length exactly 26, and
for every 26-bit binary block the codeword returned by
`encode_hamming_31_26` has length exactly 31. -/
theorem claim_C7 :
    (∀ (bits : List Char), ∀ ch ∈ chunk_bits bits, ch.length = 26) ∧
    (∀ chunk : List Char, chunk.length = 26 → (∀ c ∈ chunk, c = '0' ∨ c = '1') →
      ∃ cw, encode_hamming_31_26 chunk = Except.ok cw ∧ cw.length = 31) := by
  constructor
  · intro bits
    exact chunk_len_aux bits.length bits (Nat.le_refl _)
  · intro chunk hl hb
    obtain ⟨cw, he, hlen31, _, _, _, _, _⟩ := encode_binary_eval chunk hl hb
    exact ⟨cw, he, hlen31⟩

theorem claim_C7_witness :
    (('1' :: '0' :: '1' :: List.replicate 23 '0') ∈ chunk_bits ['1', '0', '1'] ∧
      ('1' :: '0' :: '1' :: List.replicate 23 '0').length = 26) ∧
    ((List.replicate 26 '0').length = 26 ∧
      (∀ c ∈ List.replicate 26 '0', c = '0' ∨ c = '1') ∧
      ∃ cw, encode_hamming_31_26 (List.replicate 26 '0') = Except.ok cw ∧ cw.length = 31) := by
  have hmem : ('1' :: '0' :: '1' :: List.replicate 23 '0') ∈ chunk_bits ['1', '0', '1'] := by
    rw [chunk_bits_cons, show List.drop 26 ['1', '0', '1'] = ([] : List Char) from rfl,
      chunk_bits_nil]
    exact List.mem_singleton.mpr rfl
  exact ⟨⟨hmem, claim_C7.1 ['1', '0', '1'] _ hmem⟩,
    ⟨rfl, by decide, claim_C7.2 (List.replicate 26 '0') rfl (by decide)⟩⟩

/-- C8: on the concrete input "101" (length 3), `chunk_bits` produces the
single chunk "10100000000000000000000000", `main` computes 23 padding
bits, and the encoded chunk satisfies the even-parity invariant and
reproduces the chunk at the non-parity positions. -/
theorem claim_C8 :
    chunk_bits ['1', '0', '1'] = ['1' :: '0' :: '1' :: List.replicate 23 '0'] ∧
    main_padding (['1', '0', '1'] : List Char).length = 23 ∧
    ∃ cw, encode_hamming_31_26 ('1' :: '0' :: '1' :: List.replicate 23 '0') = Except.ok cw ∧
      (∀ p ∈ parity_positions, groupXor cw p = 0) ∧
      extractData cw = ('1' :: '0' :: '1' :: List.replicate 23 '0') := by
  refine ⟨?_, rfl,
    '1' :: '0' :: '1' :: '1' :: '0' :: '1' :: '0' :: List.replicate 24 '0',
    rfl, by decide, rfl⟩
  rw [chunk_bits_cons, show List.drop 26 ['1', '0', '1'] = ([] : List Char) from rfl,
    chunk_bits_nil]
  rfl

/-- C9: `chunk_bits` is total on every string and maps the empty string to
the empty chunk list without raising; the rejection of empty bit input is
`main`'s emptiness check on the filtered bits, which fires exactly when
the filtered string is empty, before `chunk_bits` is called. -/
theorem claim_C9 :
    chunk_bits [] = [] ∧ main_bits_ok [] = false ∧
    (∀ s : List Char, main_bits_ok s = false ↔ filter01 s = []) := by
  refine ⟨chunk_bits_nil, rfl, ?_⟩
  intro s
  simp [main_bits_ok, List.isEmpty_iff]

/-- C10: for every input block of length 26 containing only '0'/'1',
every character of the codeword returned by `encode_hamming_31_26` is
'0' or '1'. -/
theorem claim_C10 (chunk : List Char) (hlen : chunk.length = 26)
    (hbin : ∀ c ∈ chunk, c = '0' ∨ c = '1') :
    ∃ cw, encode_hamming_31_26 chunk = Except.ok cw ∧
      ∀ c ∈ cw, c = '0' ∨ c = '1' := by
  obtain ⟨cw, he, _, hchars, _, _, _, _⟩ := encode_binary_eval chunk hlen hbin
  exact ⟨cw, he, hchars⟩

theorem claim_C10_witness :
    ('1' :: '1' :: List.replicate 24 '0').length = 26 ∧
    (∀ c ∈ ('1' :: '1' :: List.replicate 24 '0'), c = '0' ∨ c = '1') ∧
    (∃ cw, encode_hamming_31_26 ('1' :: '1' :: List.replicate 24 '0') = Except.ok cw ∧
      ∀ c ∈ cw, c = '0' ∨ c = '1') :=
  ⟨rfl, by decide, claim_C10 ('1' :: '1' :: List.replicate 24 '0') rfl (by decide)⟩
